import Mathlib

/-!
Verification development for the giftbridge donation-sync service.

The Go sources are embedded shallowly:

* `internal/blackbaud` — destination (Raiser's Edge NXT) domain types,
  the gift-origin wire format, and the OAuth token manager
  (`oauth.go`, modelled as explicit state passing with the collaborator
  outcomes supplied as an environment value).
* `internal/fundraiseup` — source (FundraiseUp) domain types and the
  donation-to-gift mapper (`mapper.go`).
* `internal/sync` — the reconciliation service (`service.go`): the
  per-donation pipeline, the per-run gift cache, the dry-run client
  wrapper and the resumable batch runner.  Stateful code is embedded as
  functions `World → α × World × List Event`, where the event list
  records the calls made to the destination client and the state store.

Remote collaborators (the Blackbaud and FundraiseUp HTTP clients, the
SSM-backed state store) are out of scope per the specification; they are
modelled as deterministic store-backed implementations that do not fail.
Monetary amounts (`float64` in Go) are modelled as rationals; `time.Time`
values are modelled as integer timestamps, except a donation's creation
time, which the pipeline only ever uses through its `YYYY-MM-DD`
rendering and which is therefore modelled by that rendered string.
-/

/-! ### Decimal-string parsing (models `strconv.ParseFloat` acceptance) -/

/-- Numeric value of a list of decimal digit characters. -/
def digitsVal (l : List Char) : Nat :=
  l.foldl (fun acc c => 10 * acc + (c.toNat - 48)) 0

/-- Parse an unsigned decimal literal: an integer part, optionally followed
by a dot and a fractional part, with at least one digit overall.  This
models the plain-decimal fragment of Go's `strconv.ParseFloat` (the
exponent, hex-float, infinity and NaN forms are not exercised by the
repository and are not modelled). -/
def parseUnsignedDec (l : List Char) : Option ℚ :=
  let intPart := l.takeWhile Char.isDigit
  let rest := l.dropWhile Char.isDigit
  match rest with
  | [] => if intPart.isEmpty then none else some (digitsVal intPart : ℚ)
  | '.' :: frac =>
      if frac.all Char.isDigit && !(intPart.isEmpty && frac.isEmpty) then
        some ((digitsVal intPart : ℚ) + (digitsVal frac : ℚ) / (10 ^ frac.length : ℚ))
      else none
  | _ => none

/-- Parse a signed decimal string, `none` when the string is not a
parseable decimal (models the success/failure behaviour of
`strconv.ParseFloat(s, 64)` on plain decimals). -/
def parseDecimal (s : String) : Option ℚ :=
  match s.data with
  | '-' :: rest => (parseUnsignedDec rest).map (fun q => -q)
  | '+' :: rest => parseUnsignedDec rest
  | l => parseUnsignedDec l

/-! ### JSON string escaping for the gift-origin wire format -/

/-- Escape a character sequence for inclusion in a JSON string literal
(quotes and backslashes are escaped; this is the fragment of
`encoding/json` marshalling relevant to the origin payloads). -/
def jsonEscape : List Char → List Char
  | [] => []
  | c :: cs =>
      if c = '"' || c = '\\' then '\\' :: c :: jsonEscape cs
      else c :: jsonEscape cs

/-- Scan a JSON string body up to its closing quote, un-escaping as it
goes.  Returns the decoded characters and the remainder after the
closing quote, or `none` when the input is not a well-formed string
body. -/
def scanJsonString : List Char → Option (List Char × List Char)
  | [] => none
  | c :: rest =>
      if c = '"' then some ([], rest)
      else if c = '\\' then
        match rest with
        | [] => none
        | c2 :: rest2 => (scanJsonString rest2).map (fun p => (c2 :: p.1, p.2))
      else (scanJsonString rest).map (fun p => (c :: p.1, p.2))
  termination_by l => l.length

/-- Consume an expected literal prefix, returning the remainder. -/
def expectChars : List Char → List Char → Option (List Char)
  | [], l => some l
  | _ :: _, [] => none
  | c :: cs, x :: xs => if x = c then expectChars cs xs else none

namespace blackbaud

/-! ### Destination domain types (`internal/blackbaud/client.go` types) -/

/-- `GiftType` is a string type in the source (`type GiftType string`). -/
abbrev GiftType := String

/-- A one-off donation. -/
def GiftTypeDonation : GiftType := "Donation"

/-- The first payment in a recurring series. -/
def GiftTypeRecurringGift : GiftType := "RecurringGift"

/-- A subsequent payment in a recurring series. -/
def GiftTypeRecurringGiftPayment : GiftType := "RecurringGiftPayment"

/-- `GiftSubtype` is a string type in the source. -/
abbrev GiftSubtype := String

/-- Indicates a recurring gift. -/
def GiftSubtypeRecurring : GiftSubtype := "Recurring"

/-- Source system information carried on a gift (`GiftOrigin`). -/
structure GiftOrigin where
  donationID : String := ""
  name : String := ""
  deriving DecidableEq, Repr

/-- Character-level rendering of a `GiftOrigin` as its JSON object text,
with the fields in struct order — models `GiftOrigin.String()`, which is
`json.Marshal` of the two-string-field struct. -/
def GiftOrigin.renderChars (o : GiftOrigin) : List Char :=
  "\x7b\"donation_id\":\"".data ++ jsonEscape o.donationID.data
    ++ "\",\"name\":\"".data ++ jsonEscape o.name.data ++ "\"\x7d".data

/-- `GiftOrigin.String()`: the JSON representation of the origin. -/
def GiftOrigin.toString (o : GiftOrigin) : String :=
  String.mk o.renderChars

/-- Parse the canonical origin object produced by `GiftOrigin.toString`. -/
def parseOriginChars (l : List Char) : Option GiftOrigin :=
  match expectChars "\x7b\"donation_id\":\"".data l with
  | none => none
  | some l1 =>
      match scanJsonString l1 with
      | none => none
      | some (idChars, l2) =>
          match expectChars ",\"name\":\"".data l2 with
          | none => none
          | some l3 =>
              match scanJsonString l3 with
              | none => none
              | some (nameChars, l4) =>
                  if l4 = "\x7d".data then
                    some { donationID := String.mk idChars, name := String.mk nameChars }
                  else none

/-- Modelled from the spec: `ParseGiftOrigin` is declared nowhere in the
sources (only its tests and its callers in `service.go` are present).
Per the spec's wire-format contract it decodes a JSON object string with
the two string fields `donation_id` and `name`; an empty input string
decodes to the zero value rather than erroring; malformed JSON is an
error.  Mirroring the Go signature `(GiftOrigin, error)`, the result
pairs the decoded origin (the zero value on failure) with an optional
error message.  The model accepts the canonical field order produced by
`GiftOrigin.toString`. -/
def ParseGiftOrigin (s : String) : GiftOrigin × Option String :=
  if s = "" then ({}, none)
  else
    match parseOriginChars s.data with
    | some o => (o, none)
    | none => ({}, some "unmarshalling gift origin")

/-- A constituent's email (`Email`). -/
structure Email where
  address : String := ""
  primary : Bool := false
  type : String := ""
  deriving DecidableEq, Repr

/-- A constituent's phone (`Phone`). -/
structure Phone where
  number : String := ""
  primary : Bool := false
  type : String := ""
  deriving DecidableEq, Repr

/-- A constituent's address (`Address`). -/
structure Address where
  addressLines : String := ""
  city : String := ""
  country : String := ""
  postCode : String := ""
  primary : Bool := false
  state : String := ""
  type : String := ""
  deriving DecidableEq, Repr

/-- A person or organisation in the destination database (`Constituent`). -/
structure Constituent where
  address : Option Address := none
  email : Option Email := none
  firstName : String := ""
  id : String := ""
  lastName : String := ""
  phone : Option Phone := none
  type : String := ""
  deriving DecidableEq, Repr

/-- How a gift is split across funds (`GiftSplit`);
the `*GiftAmount` pointer is modelled as an optional rational. -/
structure GiftSplit where
  amount : Option ℚ := none
  appealID : String := ""
  campaignID : String := ""
  fundID : String := ""
  deriving DecidableEq, Repr

/-- A gift in the destination system (`Gift`).  Fields the sync pipeline
never touches (receipts, tribute, soft credits, gift aid, post status,
batch number, anonymity) are omitted. -/
structure Gift where
  amount : Option ℚ := none
  batchPrefix : String := ""
  constituentID : String := ""
  date : String := ""
  externalID : String := ""
  giftSplits : List GiftSplit := []
  id : String := ""
  isManual : Bool := false
  linkedGifts : List String := []
  lookupID : String := ""
  origin : String := ""
  paymentMethod : String := ""
  reference : String := ""
  subtype : GiftSubtype := ""
  type : GiftType := ""
  deriving DecidableEq, Repr

/-- The OAuth token response body (`tokenResponse`). -/
structure TokenResponse where
  accessToken : String := ""
  expiresIn : Int := 0
  refreshToken : String := ""
  tokenType : String := ""
  deriving DecidableEq, Repr

/-! ### The OAuth token manager (`internal/blackbaud/oauth.go`)

The mutable fields of `tokenManager` are the cached access token and its
expiry; times are integer seconds.  The collaborator outcomes of one
refresh attempt (the credential-store read, the HTTP token exchange and
the optional credential-store save) are supplied as an environment
value, so the functions below are the sequential body of the Go methods
with the mutex brackets erased (the spec's concurrency claims are out of
scope of this shallow embedding; every interleaving runs these bodies). -/

/-- `defaultTokenDuration`: used when the API does not return an expiry
time (60 minutes, in seconds). -/
def defaultTokenDuration : Int := 60 * 60

/-- `tokenExpiryBuffer`: the time before expiry to trigger a refresh
(5 minutes, in seconds). -/
def tokenExpiryBuffer : Int := 5 * 60

/-- The mutable state of `tokenManager`. -/
structure TokenState where
  accessToken : String := ""
  expiresAt : Int := 0
  deriving DecidableEq, Repr

/-- Outcome of the HTTP token-exchange part of a refresh attempt:
request-construction failure, request-execution failure, a non-200
status, an undecodable body, or a decoded response. -/
inductive ExchangeOutcome where
  | createError (msg : String)
  | execError (msg : String)
  | badStatus (code : Int) (body : String)
  | decodeError (msg : String)
  | ok (r : TokenResponse)
  deriving DecidableEq, Repr

/-- The collaborator outcomes available to one refresh attempt:
the credential-store read (`tokenStore.RefreshToken`), the exchange, and
the result of `tokenStore.SaveRefreshToken` should it be called. -/
structure RefreshEnv where
  storeToken : Except String String
  exchange : ExchangeOutcome
  saveError : Option String := none
  deriving Repr

/-- `tokenManager.isTokenValid`: the token is non-empty and now is
strictly before expiry minus the buffer. -/
def isTokenValid (tm : TokenState) (now : Int) : Bool :=
  tm.accessToken ≠ "" && now < tm.expiresAt - tokenExpiryBuffer

/-- `tokenManager.refreshAccessToken`: double-checks validity, reads the
refresh credential, performs the exchange, optionally persists a rotated
refresh credential, and only then installs the new access token and
expiry.  Returns the token-or-error together with the state after the
call. -/
def refreshAccessToken (tm : TokenState) (now : Int) (env : RefreshEnv) :
    Except String String × TokenState :=
  if isTokenValid tm now then (.ok tm.accessToken, tm)
  else
    match env.storeToken with
    | .error e => (.error ("getting refresh token: " ++ e), tm)
    | .ok refreshToken =>
        match env.exchange with
        | .createError e => (.error ("creating token request: " ++ e), tm)
        | .execError e => (.error ("executing token request: " ++ e), tm)
        | .badStatus code body =>
            (.error ("token refresh failed with status " ++ toString code ++ ": " ++ body), tm)
        | .decodeError e => (.error ("decoding token response: " ++ e), tm)
        | .ok r =>
            if r.refreshToken ≠ "" && r.refreshToken ≠ refreshToken then
              match env.saveError with
              | some e => (.error ("saving refresh token: " ++ e), tm)
              | none =>
                  let expiry := if r.expiresIn > 0 then now + r.expiresIn
                    else now + defaultTokenDuration
                  (.ok r.accessToken, { accessToken := r.accessToken, expiresAt := expiry })
            else
              let expiry := if r.expiresIn > 0 then now + r.expiresIn
                else now + defaultTokenDuration
              (.ok r.accessToken, { accessToken := r.accessToken, expiresAt := expiry })

/-- `tokenManager.cachedToken`: the cached access token when valid. -/
def cachedToken (tm : TokenState) (now : Int) : Option String :=
  if isTokenValid tm now then some tm.accessToken else none

/-- `tokenManager.AccessToken`: the cached token on the fast path,
otherwise a refresh. -/
def AccessToken (tm : TokenState) (now : Int) (env : RefreshEnv) :
    Except String String × TokenState :=
  match cachedToken tm now with
  | some token => (.ok token, tm)
  | none => refreshAccessToken tm now env

end blackbaud

namespace fundraiseup

/-! ### Source domain types (`internal/fundraiseup/types.go`) -/

/-- `PaymentMethod` is a string type in the source. -/
abbrev PaymentMethod := String

/-- An ACH bank transfer payment. -/
def PaymentMethodACH : PaymentMethod := "ach"

/-- An Apple Pay payment. -/
def PaymentMethodApplePay : PaymentMethod := "apple_pay"

/-- A bank transfer payment. -/
def PaymentMethodBankTransfer : PaymentMethod := "bacs_direct_debit"

/-- A credit or debit card payment. -/
def PaymentMethodCard : PaymentMethod := "credit_card"

/-- A Google Pay payment. -/
def PaymentMethodGooglePay : PaymentMethod := "google_pay"

/-- A PayPal payment. -/
def PaymentMethodPayPal : PaymentMethod := "paypal"

/-- A SEPA direct debit payment. -/
def PaymentMethodSEPA : PaymentMethod := "sepa_direct_debit"

/-- A supporter's address (`Address`). -/
structure Address where
  city : String := ""
  country : String := ""
  line1 : String := ""
  line2 : String := ""
  postalCode : String := ""
  region : String := ""
  deriving DecidableEq, Repr

/-- Payment details for a donation (`Payment`). -/
structure Payment where
  method : PaymentMethod := ""
  deriving DecidableEq, Repr

/-- A recurring donation plan (`RecurringPlan`; the timestamps it carries
are unused by the pipeline and omitted). -/
structure RecurringPlan where
  frequency : String := ""
  id : String := ""
  status : String := ""
  deriving DecidableEq, Repr

/-- A person who has donated (`Supporter`). -/
structure Supporter where
  address : Option Address := none
  email : String := ""
  firstName : String := ""
  id : String := ""
  lastName : String := ""
  phone : String := ""
  deriving DecidableEq, Repr

/-- A donation from the source platform (`Donation`).  `CreatedAt` is a
`time.Time` the pipeline only ever formats as `YYYY-MM-DD`; it is
modelled by that rendered date string. -/
structure Donation where
  amount : String := ""
  comment : String := ""
  createdAtDate : String := ""
  currency : String := ""
  id : String := ""
  installment : String := ""
  payment : Option Payment := none
  recurringPlan : Option RecurringPlan := none
  status : String := ""
  supporter : Option Supporter := none
  deriving DecidableEq, Repr

/-- `Donation.IsRecurring`: true if the donation is part of a recurring
plan. -/
def Donation.IsRecurring (d : Donation) : Bool :=
  d.recurringPlan.isSome

/-- `Donation.RecurringID`: the recurring plan ID, or empty string if
not recurring. -/
def Donation.RecurringID (d : Donation) : String :=
  match d.recurringPlan with
  | some p => p.id
  | none => ""

/-- Modelled from the spec: `Donation.InstallmentNumber` is declared
nowhere in the sources (only its callers and tests are present).  Per
the spec's data model (an optional installment number taken from the
source's installment string, "1", "2", ...) and the recurring-context
tests, it returns the installment string parsed as a number, and 0 when
the string is empty or not numeric (callers clamp to a minimum of 1). -/
def Donation.InstallmentNumber (d : Donation) : Int :=
  if d.installment ≠ "" && d.installment.data.all Char.isDigit then
    (digitsVal d.installment.data : Int)
  else 0

/-! ### The donation/supporter mappers (`internal/fundraiseup/mapper.go`) -/

/-- `PaymentMethod.ToDomainType`: the destination payment-method label. -/
def PaymentMethod.ToDomainType (pm : PaymentMethod) : String :=
  if pm = PaymentMethodCard || pm = PaymentMethodApplePay || pm = PaymentMethodGooglePay then
    "Credit card"
  else if pm = PaymentMethodBankTransfer || pm = PaymentMethodACH || pm = PaymentMethodSEPA then
    "Direct debit"
  else if pm = PaymentMethodPayPal then "PayPal"
  else "Other"

/-- `Address.ToDomainType`: the destination address (the `nil`-receiver
guard of the Go method is handled by the `Option` at the use sites). -/
def Address.ToDomainType (a : Address) : blackbaud.Address :=
  let lines := if a.line2 ≠ "" then a.line1 ++ "\n" ++ a.line2 else a.line1
  { addressLines := lines
    city := a.city
    country := a.country
    postCode := a.postalCode
    primary := true
    state := a.region
    type := "Home" }

/-- `Supporter.ToDomainType`: the destination constituent. -/
def Supporter.ToDomainType (s : Supporter) : blackbaud.Constituent :=
  { firstName := s.firstName
    lastName := s.lastName
    type := "Individual"
    email := if s.email ≠ "" then
        some { address := s.email, primary := true, type := "Email" }
      else none
    phone := if s.phone ≠ "" then
        some { number := s.phone, primary := true, type := "Mobile" }
      else none
    address := s.address.map Address.ToDomainType }

/-- `Donation.ToDomainType` as it stands in `mapper.go`: the
`strconv.ParseFloat` error is discarded (`amount, _ :=`), so an
unparseable amount silently becomes 0 and the conversion cannot fail. -/
def Donation.ToDomainType (d : Donation) : blackbaud.Gift :=
  let amount := (parseDecimal d.amount).getD 0
  let gift : blackbaud.Gift :=
    { amount := some amount
      date := d.createdAtDate
      externalID := d.id }
  let gift := match d.payment with
    | some p => if p.method ≠ "" then
        { gift with paymentMethod := PaymentMethod.ToDomainType p.method }
      else gift
    | none => gift
  if d.comment ≠ "" then { gift with reference := d.comment } else gift

/-- Modelled from the spec: the fallible donation-to-gift conversion that
`Service.mapDonationToGift` consumes (`gift, err := donation.ToDomainType()`)
is absent from the sources — the `mapper.go` present returns no error.
Per the spec ("Fails with `InvalidAmount` if the source amount is not a
parseable decimal") and the mapper tests, it fails exactly when the
amount string is not a parseable decimal and otherwise produces the same
gift as `Donation.ToDomainType`. -/
def Donation.ToDomainTypeChecked (d : Donation) : Except String blackbaud.Gift :=
  match parseDecimal d.amount with
  | none => .error ("parsing donation amount: " ++ d.amount)
  | some _ => .ok d.ToDomainType

end fundraiseup

namespace sync

/-! ### The sync service (`internal/sync/service.go`, `types.go`,
`dryrun.go`)

Stateful code is embedded as explicit state passing over a `World`
holding the destination store, the checkpoint store, the per-run gift
cache and the dry-run client's counter.  Every operation additionally
returns the list of collaborator calls it made (`Event`s), so that the
claims about call ordering and suppressed writes can be stated.  The
destination and the checkpoint store are modelled as deterministic
store-backed implementations that do not fail; the error-propagation
branches of the Go code that forward collaborator failures therefore
never fire in the model (donation-level errors still arise from
validation and mapping). -/

/-- `defaultSyncDays`: the default lookback for a first-ever sync. -/
def defaultSyncDays : Int := -30

/-- `originName`: the source-system name written into gift origins. -/
def originName : String := "FundraiseUp"

/-- `defaultMaxDonationsPerRun`: limits donations processed per
invocation (the pending-ID checkpoint parameter has a 4KB size limit). -/
def defaultMaxDonationsPerRun : Int := 300

/-- Default gift values from configuration (`config.GiftDefaults`). -/
structure GiftDefaults where
  appealID : String := ""
  campaignID : String := ""
  fundID : String := ""
  type : String := ""
  deriving DecidableEq, Repr

/-- The sync `Config`.  The three collaborator pointers are modelled by
presence flags (validation only checks them against `nil`). -/
structure Config where
  blackbaudPresent : Bool := true
  dryRun : Bool := false
  fundraiseupPresent : Bool := true
  giftDefaults : GiftDefaults := {}
  maxDonationsPerRun : Int := 0
  sinceOverride : Option Int := none
  stateStorePresent : Bool := true
  deriving Repr

/-- `Config.validate`: the list of configuration errors. -/
def Config.validate (c : Config) : List String :=
  (if c.blackbaudPresent then [] else ["blackbaud client is required"]) ++
    (if c.fundraiseupPresent then [] else ["fundraiseup client is required"]) ++
    (if c.giftDefaults.fundID ≠ "" then [] else ["gift defaults fund ID is required"]) ++
    (if c.stateStorePresent then [] else ["state store is required"])

/-- The sync `Service` (its collaborator handles and logger are not
data; the dry-run wrapping of the destination client performed by `New`
is realised by the client operations dispatching on `dryRun`). -/
structure Service where
  dryRun : Bool := false
  giftDefaults : GiftDefaults := {}
  maxDonationsPerRun : Int := 0
  sinceOverride : Option Int := none
  deriving Repr

/-- `New`: validates the configuration and normalises the maximum
donations per run to the default when unset or non-positive. -/
def New (cfg : Config) : Except String Service :=
  if !cfg.validate.isEmpty then .error "invalid config"
  else
    .ok { dryRun := cfg.dryRun
          giftDefaults := cfg.giftDefaults
          maxDonationsPerRun :=
            if cfg.maxDonationsPerRun ≤ 0 then defaultMaxDonationsPerRun
            else cfg.maxDonationsPerRun
          sinceOverride := cfg.sinceOverride }

/-- Context for processing a recurring donation (`recurringContext`). -/
structure recurringContext where
  firstGiftID : String := ""
  isFirstInSeries : Bool := false
  sequenceNumber : Int := 0
  deriving DecidableEq, Repr

/-- The outcome of processing a single donation (`DonationResult`). -/
structure DonationResult where
  constituentCreated : Bool := false
  donationID : String := ""
  error : Option String := none
  giftCreated : Bool := false
  giftID : String := ""
  giftSkippedExisting : Bool := false
  giftUpdated : Bool := false
  deriving DecidableEq, Repr

/-- The outcome of a sync run (`Result`). -/
structure Result where
  constituentsCreated : Nat := 0
  constituentsExisting : Nat := 0
  donationsProcessed : Nat := 0
  dryRun : Bool := false
  errors : List String := []
  giftsCreated : Nat := 0
  giftsSkippedExisting : Nat := 0
  giftsUpdated : Nat := 0
  deriving DecidableEq, Repr

/-- The checkpoint store's persisted state (`StateStore` contract:
last-sync time and the pending donation-ID list). -/
structure StoreState where
  lastSyncTime : Int := 0
  pendingIDs : List String := []
  deriving DecidableEq, Repr

/-- The destination system's state: its constituents, its gifts, and a
counter from which it assigns record IDs. -/
structure BBState where
  constituents : List blackbaud.Constituent := []
  gifts : List blackbaud.Gift := []
  nextID : Nat := 0
  deriving DecidableEq, Repr

/-- One collaborator call made by the service: a destination-client call
(real or dry-run) or a checkpoint-store write. -/
inductive Event where
  | searchConstituents (email : String)
  | createConstituent (id : String)
  | listGiftsByConstituent (constituentID : String)
  | createGift (id : String)
  | updateGift (id : String)
  | dryCreateConstituent (id : String)
  | dryCreateGift (id : String)
  | dryUpdateGift (id : String)
  | fetchDonations
  | fetchDonationByID (id : String)
  | setPendingDonationIDs (ids : List String)
  | removePendingDonationID (id : String)
  | setLastSyncTime (t : Int)
  deriving DecidableEq, Repr

/-- Whether an event is a checkpoint-store write. -/
def Event.isStoreWrite : Event → Bool
  | .setPendingDonationIDs _ => true
  | .removePendingDonationID _ => true
  | .setLastSyncTime _ => true
  | _ => false

/-- Whether an event is a write on the real destination client. -/
def Event.isDestinationWrite : Event → Bool
  | .createConstituent _ => true
  | .createGift _ => true
  | .updateGift _ => true
  | _ => false

/-- The full mutable state a run acts on. -/
structure World where
  bb : BBState := {}
  store : StoreState := {}
  giftCache : List (String × List blackbaud.Gift) := []
  dryCounter : Nat := 0
  deriving DecidableEq, Repr

/-- Lookup in the per-run gift cache (a Go map keyed by constituent). -/
def cacheLookup (c : List (String × List blackbaud.Gift)) (cid : String) :
    Option (List blackbaud.Gift) :=
  (c.find? (fun p => p.1 == cid)).map (fun p => p.2)

/-- Insertion into the per-run gift cache (only ever performed for a key
that is absent, so appending models the Go map write). -/
def cacheInsert (c : List (String × List blackbaud.Gift)) (cid : String)
    (gs : List blackbaud.Gift) : List (String × List blackbaud.Gift) :=
  c ++ [(cid, gs)]

/-- Destination search semantics: constituents whose email matches. -/
def emailMatches (c : blackbaud.Constituent) (email : String) : Bool :=
  match c.email with
  | some e => e.address == email
  | none => false

/-- Record ID the destination assigns to the n-th created constituent. -/
def freshConstituentID (n : Nat) : String := "bb-constituent-" ++ toString n

/-- Record ID the destination assigns to the n-th created gift. -/
def freshGiftID (n : Nat) : String := "bb-gift-" ++ toString n

/-- `dryRunClient.nextFakeID`: the synthetic ID for one dry-run write. -/
def dryRunFakeID (kind : String) (n : Nat) : String :=
  "dry-run-" ++ kind ++ "-" ++ toString n

/-- `SearchConstituents` (identical in real and dry-run mode: the
dry-run client delegates reads). -/
def Service.bbSearchConstituents (_s : Service) (w : World) (email : String) :
    List blackbaud.Constituent × World × List Event :=
  (w.bb.constituents.filter (fun c => emailMatches c email), w, [.searchConstituents email])

/-- `ListGiftsByConstituent` with no type filter (identical in real and
dry-run mode: the dry-run client delegates reads). -/
def Service.bbListGiftsByConstituent (_s : Service) (w : World) (cid : String) :
    List blackbaud.Gift × World × List Event :=
  (w.bb.gifts.filter (fun g => g.constituentID == cid), w, [.listGiftsByConstituent cid])

/-- `CreateConstituent`: in dry-run mode the wrapping client only logs
and returns a synthetic ID; otherwise the destination stores the record
under a fresh ID. -/
def Service.bbCreateConstituent (s : Service) (w : World)
    (c : blackbaud.Constituent) : String × World × List Event :=
  if s.dryRun then
    let n := w.dryCounter + 1
    let fakeID := dryRunFakeID "constituent" n
    (fakeID, { w with dryCounter := n }, [.dryCreateConstituent fakeID])
  else
    let cid := freshConstituentID w.bb.nextID
    (cid,
      { w with bb := { w.bb with
          constituents := w.bb.constituents ++ [{ c with id := cid }]
          nextID := w.bb.nextID + 1 } },
      [.createConstituent cid])

/-- `CreateGift`: in dry-run mode the wrapping client only logs and
returns a synthetic ID; otherwise the destination stores the gift under
a fresh ID. -/
def Service.bbCreateGift (s : Service) (w : World) (g : blackbaud.Gift) :
    String × World × List Event :=
  if s.dryRun then
    let n := w.dryCounter + 1
    let fakeID := dryRunFakeID "gift" n
    (fakeID, { w with dryCounter := n }, [.dryCreateGift fakeID])
  else
    let gid := freshGiftID w.bb.nextID
    (gid,
      { w with bb := { w.bb with
          gifts := w.bb.gifts ++ [{ g with id := gid }]
          nextID := w.bb.nextID + 1 } },
      [.createGift gid])

/-- `StateStore.SetPendingDonationIDs`. -/
def storeSetPendingIDs (w : World) (ids : List String) : World × List Event :=
  ({ w with store := { w.store with pendingIDs := ids } }, [.setPendingDonationIDs ids])

/-- `StateStore.RemovePendingDonationID` (the SSM implementation filters
out every occurrence of the ID). -/
def storeRemovePendingID (w : World) (id : String) : World × List Event :=
  ({ w with store := { w.store with pendingIDs := w.store.pendingIDs.filter (fun x => x != id) } },
    [.removePendingDonationID id])

/-- `StateStore.SetLastSyncTime`. -/
def storeSetLastSyncTime (w : World) (t : Int) : World × List Event :=
  ({ w with store := { w.store with lastSyncTime := t } }, [.setLastSyncTime t])

/-- `Service.getConstituentGifts`: all gifts for a constituent, cached
per constituent for the duration of the run. -/
def Service.getConstituentGifts (s : Service) (w : World) (cid : String) :
    List blackbaud.Gift × World × List Event :=
  match cacheLookup w.giftCache cid with
  | some cached => (cached, w, [])
  | none =>
      let (gifts, w1, evs) := s.bbListGiftsByConstituent w cid
      (gifts, { w1 with giftCache := cacheInsert w1.giftCache cid gifts }, evs)

/-- `Service.findExistingGift`: a gift already created for this
donation; for one-time donations matched by lookup ID = donation ID,
for recurring donations by lookup ID = recurring ID and the origin's
donation ID (the parse error is discarded, as in the source). -/
def Service.findExistingGift (s : Service) (w : World) (cid : String)
    (d : fundraiseup.Donation) :
    Option blackbaud.Gift × World × List Event :=
  let (gifts, w1, evs) := s.getConstituentGifts w cid
  if d.IsRecurring && d.RecurringID ≠ "" then
    let lookupID := d.RecurringID
    (gifts.find? (fun g =>
        g.lookupID == lookupID && (blackbaud.ParseGiftOrigin g.origin).1.donationID == d.id),
      w1, evs)
  else
    (gifts.find? (fun g => g.lookupID == d.id), w1, evs)

/-- `Service.findFirstRecurringGift`: the initial `RecurringGift` of a
series among the constituent's gifts. -/
def Service.findFirstRecurringGift (s : Service) (w : World) (cid : String)
    (recurringID : String) : Option blackbaud.Gift × World × List Event :=
  let (gifts, w1, evs) := s.getConstituentGifts w cid
  (gifts.find? (fun g =>
      g.lookupID == recurringID && g.type == blackbaud.GiftTypeRecurringGift),
    w1, evs)

/-- `Service.findOrCreateConstituent`: search by email, first match
wins; otherwise create a constituent from the supporter. -/
def Service.findOrCreateConstituent (s : Service) (w : World)
    (d : fundraiseup.Donation) :
    Except String (String × Bool) × World × List Event :=
  match d.supporter with
  | none => (.error "donation has no supporter", w, [])
  | some supporter =>
      let (found, w1, evs1) :=
        if supporter.email ≠ "" then
          let (cs, w1, evs) := s.bbSearchConstituents w supporter.email
          (cs.head?.map (fun c => c.id), w1, evs)
        else (none, w, [])
      match found with
      | some cid => (.ok (cid, false), w1, evs1)
      | none =>
          let constituent := supporter.ToDomainType
          let (cid, w2, evs2) := s.bbCreateConstituent w1 constituent
          (.ok (cid, true), w2, evs1 ++ evs2)

/-- `Service.getRecurringContext`: the recurring context for gift
mapping; a missing anchor for a later installment self-heals to
first-in-series. -/
def Service.getRecurringContext (s : Service) (w : World) (cid : String)
    (d : fundraiseup.Donation) : recurringContext × World × List Event :=
  if !(d.IsRecurring && d.RecurringID ≠ "") then ({}, w, [])
  else
    let seqNum := max d.InstallmentNumber 1
    if seqNum ≠ 1 then
      let (firstGift, w1, evs) := s.findFirstRecurringGift w cid d.RecurringID
      match firstGift with
      | some g =>
          ({ firstGiftID := g.id, isFirstInSeries := false, sequenceNumber := seqNum }, w1, evs)
      | none => ({ isFirstInSeries := true, sequenceNumber := seqNum }, w1, evs)
    else ({ isFirstInSeries := true, sequenceNumber := seqNum }, w, [])

/-- `Service.mapDonationToGift`: converts the donation, applies the
batch prefix, manual flag and configured gift split, then branches on
recurring-ness for lookup ID, subtype, origin, type and linking. -/
def Service.mapDonationToGift (s : Service) (d : fundraiseup.Donation)
    (recCtx : recurringContext) : Except String blackbaud.Gift :=
  match d.ToDomainTypeChecked with
  | .error e => .error ("converting donation to gift: " ++ e)
  | .ok gift0 =>
      let gift := { gift0 with
        batchPrefix := originName
        isManual := true
        giftSplits := [{ amount := gift0.amount
                         fundID := s.giftDefaults.fundID
                         campaignID := s.giftDefaults.campaignID
                         appealID := s.giftDefaults.appealID }] }
      if d.IsRecurring && d.RecurringID ≠ "" then
        let gift := { gift with
          lookupID := d.RecurringID
          subtype := blackbaud.GiftSubtypeRecurring
          origin := (blackbaud.GiftOrigin.mk d.id originName).toString }
        if recCtx.isFirstInSeries then
          .ok { gift with type := blackbaud.GiftTypeRecurringGift }
        else if recCtx.firstGiftID ≠ "" then
          .ok { gift with type := blackbaud.GiftTypeRecurringGiftPayment
                          linkedGifts := [recCtx.firstGiftID] }
        else .ok { gift with type := blackbaud.GiftTypeRecurringGiftPayment }
      else
        .ok { gift with type := s.giftDefaults.type, lookupID := d.id }

/-- `Service.processDonation`: the per-donation pipeline — resolve the
constituent, check for an existing gift, resolve the recurring context,
map, create.  Every error is captured into the result. -/
def Service.processDonation (s : Service) (w : World)
    (d : fundraiseup.Donation) : DonationResult × World × List Event :=
  let result : DonationResult := { donationID := d.id }
  match s.findOrCreateConstituent w d with
  | (.error e, w1, evs1) =>
      ({ result with error := some ("finding/creating constituent: " ++ e) }, w1, evs1)
  | (.ok (constituentID, created), w1, evs1) =>
      let result := { result with constituentCreated := created }
      let (existingGift, w2, evs2) := s.findExistingGift w1 constituentID d
      match existingGift with
      | some g =>
          ({ result with giftID := g.id, giftSkippedExisting := true }, w2, evs1 ++ evs2)
      | none =>
          let (recCtx, w3, evs3) := s.getRecurringContext w2 constituentID d
          match s.mapDonationToGift d recCtx with
          | .error e =>
              ({ result with error := some ("mapping donation to gift: " ++ e) },
                w3, evs1 ++ evs2 ++ evs3)
          | .ok gift =>
              let gift := { gift with constituentID := constituentID }
              let (giftID, w4, evs4) := s.bbCreateGift w3 gift
              ({ result with giftID := giftID, giftCreated := true },
                w4, evs1 ++ evs2 ++ evs3 ++ evs4)

/-- The fold of one donation's outcome into the run summary (the body of
the per-donation bookkeeping in `runFresh`/`runResume`). -/
def recordOutcome (result : Result) (donationResult : DonationResult) : Result :=
  let result := { result with donationsProcessed := result.donationsProcessed + 1 }
  match donationResult.error with
  | some e => { result with errors := result.errors ++ [e] }
  | none =>
      let result :=
        if donationResult.constituentCreated then
          { result with constituentsCreated := result.constituentsCreated + 1 }
        else { result with constituentsExisting := result.constituentsExisting + 1 }
      let result :=
        if donationResult.giftCreated then
          { result with giftsCreated := result.giftsCreated + 1 }
        else result
      let result :=
        if donationResult.giftUpdated then
          { result with giftsUpdated := result.giftsUpdated + 1 }
        else result
      let result :=
        if donationResult.giftSkippedExisting then
          { result with giftsSkippedExisting := result.giftsSkippedExisting + 1 }
        else result
      result

/-- `Service.processAndRecord`: processes one donation and folds its
outcome into the run summary. -/
def Service.processAndRecord (s : Service) (w : World) (result : Result)
    (d : fundraiseup.Donation) : Result × World × List Event :=
  let (donationResult, w1, evs) := s.processDonation w d
  (recordOutcome result donationResult, w1, evs)

/-- The processing loop of `Service.runFresh`: each donation is
processed and then (outside dry-run) removed from the pending
checkpoint, whether it succeeded or failed. -/
def Service.processLoop (s : Service) (w : World) (result : Result) :
    List fundraiseup.Donation → Result × World × List Event
  | [] => (result, w, [])
  | d :: rest =>
      let (result1, w1, evs1) := s.processAndRecord w result d
      let (w2, evs2) := if s.dryRun then (w1, []) else storeRemovePendingID w1 d.id
      let (result2, w3, evs3) := s.processLoop w2 result1 rest
      (result2, w3, evs1 ++ evs2 ++ evs3)

/-- `defaultSyncStart`: the default start time for initial syncs
(30 days before now, in seconds). -/
def defaultSyncStart (now : Int) : Int :=
  now + defaultSyncDays * 86400

/-- `Service.runFresh`: computes the since-time, fetches donations,
truncates to the per-run maximum, persists the pending checkpoint
(outside dry-run) before processing, processes each donation, and
finally advances the last-sync time (outside dry-run).  The fetch is
supplied as a function of the since-time; in the model it does not
fail. -/
def Service.runFresh (s : Service) (now : Int)
    (fetchSince : Int → List fundraiseup.Donation) (w : World)
    (result : Result) : Result × World × List Event :=
  let since0 := w.store.lastSyncTime
  let since1 := match s.sinceOverride with
    | some t => t
    | none => since0
  let since := if since1 = 0 then defaultSyncStart now else since1
  let donations := fetchSince since
  if donations.isEmpty then (result, w, [.fetchDonations])
  else
    let donations :=
      if s.maxDonationsPerRun > 0 && (donations.length : Int) > s.maxDonationsPerRun then
        donations.take s.maxDonationsPerRun.toNat
      else donations
    let pendingIDs := donations.map (fun d => d.id)
    let (w1, evs1) := if s.dryRun then (w, []) else storeSetPendingIDs w pendingIDs
    let (result1, w2, evs2) := s.processLoop w1 result donations
    let (w3, evs3) := if s.dryRun then (w2, []) else storeSetLastSyncTime w2 now
    (result1, w3, [Event.fetchDonations] ++ evs1 ++ evs2 ++ evs3)

/-- The processing loop of `Service.runResume`: each pending ID is
re-fetched (a missing donation is recorded as an error), processed, and
removed from the pending checkpoint (outside dry-run). -/
def Service.resumeLoop (s : Service)
    (fetchByID : String → Option fundraiseup.Donation) (w : World)
    (result : Result) : List String → Result × World × List Event
  | [] => (result, w, [])
  | donationID :: rest =>
      match fetchByID donationID with
      | none =>
          let result1 := { result with
            errors := result.errors ++ ["fetching donation " ++ donationID] }
          let (w1, evs1) := if s.dryRun then (w, []) else storeRemovePendingID w donationID
          let (result2, w2, evs2) := s.resumeLoop fetchByID w1 result1 rest
          (result2, w2, [Event.fetchDonationByID donationID] ++ evs1 ++ evs2)
      | some donation =>
          let (result1, w1, evs1) := s.processAndRecord w result donation
          let (w2, evs2) := if s.dryRun then (w1, []) else storeRemovePendingID w1 donationID
          let (result2, w3, evs3) := s.resumeLoop fetchByID w2 result1 rest
          (result2, w3, [Event.fetchDonationByID donationID] ++ evs1 ++ evs2 ++ evs3)

/-- `Service.runResume`: processes the pending IDs of an interrupted run
and then advances the last-sync time (outside dry-run). -/
def Service.runResume (s : Service) (now : Int)
    (fetchByID : String → Option fundraiseup.Donation) (w : World)
    (result : Result) (pendingIDs : List String) : Result × World × List Event :=
  let (result1, w1, evs1) := s.resumeLoop fetchByID w result pendingIDs
  let (w2, evs2) := if s.dryRun then (w1, []) else storeSetLastSyncTime w1 now
  (result1, w2, evs1 ++ evs2)

/-- `Service.Run`: a full sync cycle — reset the per-run gift cache,
read the pending checkpoint, and resume it if non-empty, otherwise run a
fresh sync. -/
def Service.Run (s : Service) (now : Int)
    (fetchSince : Int → List fundraiseup.Donation)
    (fetchByID : String → Option fundraiseup.Donation) (w : World) :
    Result × World × List Event :=
  let result : Result := { dryRun := s.dryRun }
  let w0 : World := { w with giftCache := [] }
  let pendingIDs := w0.store.pendingIDs
  if pendingIDs.isEmpty then s.runFresh now fetchSince w0 result
  else s.runResume now fetchByID w0 result pendingIDs

/-- Repeated invocation of the per-donation pipeline with each donation
processed in its own run: before each donation the per-run gift cache is
reset (as `Service.Run` does at the start of every run), while the
destination and checkpoint state persist.  This is the statement-side
harness for the cross-run recurring-series claims. -/
def Service.processInSeparateRuns (s : Service) (w : World) :
    List fundraiseup.Donation → List DonationResult × World
  | [] => ([], w)
  | d :: rest =>
      let (r, w1, _) := s.processDonation { w with giftCache := [] } d
      let (rs, w2) := s.processInSeparateRuns w1 rest
      (r :: rs, w2)

/-- Coherence of the per-run gift cache with the destination state:
every cached per-constituent list is exactly the current filter of the
destination's gifts for that constituent.  Trivially true of the empty
cache a run starts with, and maintained in dry-run mode, where the
destination never changes; under it a cache hit returns exactly what a
fresh fetch would. -/
def cacheCoherent (w : World) : Prop :=
  ∀ cid gs, cacheLookup w.giftCache cid = some gs →
    gs = w.bb.gifts.filter (fun g => g.constituentID == cid)

/-- The since-time a fresh run fetches from: the override if set, else
the stored last-sync time, defaulting to 30 days back when zero (the
since-computation at the head of `runFresh`). -/
def Service.freshSince (s : Service) (now : Int) (w : World) : Int :=
  let since0 := w.store.lastSyncTime
  let since1 := match s.sinceOverride with
    | some t => t
    | none => since0
  if since1 = 0 then defaultSyncStart now else since1

/-- The truncation of the fetched donation list to the per-run maximum
(the batch-limiting step of `runFresh`). -/
def Service.truncateBatch (s : Service) (donations : List fundraiseup.Donation) :
    List fundraiseup.Donation :=
  if s.maxDonationsPerRun > 0 && (donations.length : Int) > s.maxDonationsPerRun then
    donations.take s.maxDonationsPerRun.toNat
  else donations

/-- Specification shape of the fresh-run processing loop's event trace:
for each donation ID in order, first that donation's processing events
(none of which touch the checkpoint store) and then the removal of that
ID from the pending checkpoint — so every ID is removed before the next
donation's processing begins. -/
inductive LoopTrace : List String → List Event → Prop where
  | nil : LoopTrace [] []
  | cons (id : String) (pevs : List Event) (rest : List String) (evs : List Event) :
      (∀ e ∈ pevs, e.isStoreWrite = false) → LoopTrace rest evs →
      LoopTrace (id :: rest) (pevs ++ Event.removePendingDonationID id :: evs)

end sync

/-! ## Helper lemmas -/

theorem scanJsonString_quote (r : List Char) : scanJsonString ('"' :: r) = some ([], r) := by
  conv_lhs => rw [scanJsonString.eq_def]
  simp

theorem scanJsonString_backslash (c : Char) (r : List Char) :
    scanJsonString ('\\' :: c :: r) = (scanJsonString r).map (fun p => (c :: p.1, p.2)) := by
  conv_lhs => rw [scanJsonString.eq_def]
  simp

theorem scanJsonString_plain (c : Char) (r : List Char) (h1 : c ≠ '"') (h2 : c ≠ '\\') :
    scanJsonString (c :: r) = (scanJsonString r).map (fun p => (c :: p.1, p.2)) := by
  conv_lhs => rw [scanJsonString.eq_def]
  simp [h1, h2]

theorem expectChars_self_append (p r : List Char) : expectChars p (p ++ r) = some r := by
  induction p with
  | nil => rfl
  | cons c cs ih => simpa [expectChars] using ih

theorem scanJsonString_jsonEscape (s r : List Char) :
    scanJsonString (jsonEscape s ++ '"' :: r) = some (s, r) := by
  induction s with
  | nil => simpa [jsonEscape] using scanJsonString_quote r
  | cons c cs ih =>
      by_cases h : c = '"' ∨ c = '\\'
      · have hesc : jsonEscape (c :: cs) = '\\' :: c :: jsonEscape cs := by
          simp only [jsonEscape]
          rcases h with h | h <;> simp [h]
        rw [hesc, List.cons_append, List.cons_append, scanJsonString_backslash, ih]
        rfl
      · push_neg at h
        have hesc : jsonEscape (c :: cs) = c :: jsonEscape cs := by
          simp only [jsonEscape]
          simp [h.1, h.2]
        rw [hesc, List.cons_append, scanJsonString_plain c _ h.1 h.2, ih]
        rfl

theorem parseOriginChars_renderChars (o : blackbaud.GiftOrigin) :
    blackbaud.parseOriginChars o.renderChars = some o := by
  have hB : "\",\"name\":\"".data = '"' :: ",\"name\":\"".data := rfl
  have hC : "\"\x7d".data = '"' :: "\x7d".data := rfl
  unfold blackbaud.GiftOrigin.renderChars blackbaud.parseOriginChars
  rw [hB, hC]
  simp only [List.append_assoc, List.cons_append]
  simp [expectChars, scanJsonString_jsonEscape]

theorem renderChars_ne_nil (o : blackbaud.GiftOrigin) : o.renderChars ≠ [] := by
  unfold blackbaud.GiftOrigin.renderChars
  intro h
  have := congrArg List.length h
  simp [List.length_append] at this

theorem parseGiftOrigin_roundtrip (o : blackbaud.GiftOrigin) :
    blackbaud.ParseGiftOrigin o.toString = (o, none) := by
  unfold blackbaud.ParseGiftOrigin blackbaud.GiftOrigin.toString
  rw [if_neg (by
    intro h
    exact renderChars_ne_nil o (congrArg String.data h))]
  have hdata : (String.mk o.renderChars).data = o.renderChars := rfl
  rw [hdata, parseOriginChars_renderChars]

theorem find?_eq_head?_filter {α : Type} (p : α → Bool) (l : List α) :
    l.find? p = (l.filter p).head? := by
  induction l with
  | nil => rfl
  | cons a l ih =>
      cases h : p a with
      | true => rw [List.find?_cons_of_pos _ h, List.filter_cons_of_pos h]; rfl
      | false =>
          rw [List.find?_cons_of_neg _ (by simp [h]), List.filter_cons_of_neg (by simp [h])]
          exact ih

theorem cacheLookup_cacheInsert_of_some
    (c : List (String × List blackbaud.Gift)) (cid cid2 : String)
    (gs gs2 : List blackbaud.Gift) (h : sync.cacheLookup c cid = some gs) :
    sync.cacheLookup (sync.cacheInsert c cid2 gs2) cid = some gs := by
  cases hf : c.find? (fun p => p.1 == cid) with
  | none => simp [sync.cacheLookup, hf] at h
  | some pr =>
      simp only [sync.cacheLookup, hf, Option.map_some] at h
      unfold sync.cacheLookup sync.cacheInsert
      rw [List.find?_append, hf]
      simp [h]

/-! ### Frame lemmas for the pipeline steps -/

theorem bbCreateConstituent_store (s : sync.Service) (w : sync.World)
    (c : blackbaud.Constituent) : (s.bbCreateConstituent w c).2.1.store = w.store := by
  unfold sync.Service.bbCreateConstituent
  split <;> rfl

theorem bbCreateGift_store (s : sync.Service) (w : sync.World) (g : blackbaud.Gift) :
    (s.bbCreateGift w g).2.1.store = w.store := by
  unfold sync.Service.bbCreateGift
  split <;> rfl

theorem getConstituentGifts_store (s : sync.Service) (w : sync.World) (cid : String) :
    (s.getConstituentGifts w cid).2.1.store = w.store := by
  unfold sync.Service.getConstituentGifts sync.Service.bbListGiftsByConstituent
  split <;> rfl

theorem findExistingGift_store (s : sync.Service) (w : sync.World) (cid : String)
    (d : fundraiseup.Donation) : (s.findExistingGift w cid d).2.1.store = w.store := by
  unfold sync.Service.findExistingGift
  rcases hg : s.getConstituentGifts w cid with ⟨gifts, w1, evs⟩
  have h1 : w1.store = w.store := by
    have := getConstituentGifts_store s w cid
    rw [hg] at this
    exact this
  dsimp only
  split <;> exact h1

theorem findFirstRecurringGift_store (s : sync.Service) (w : sync.World) (cid rid : String) :
    (s.findFirstRecurringGift w cid rid).2.1.store = w.store := by
  unfold sync.Service.findFirstRecurringGift
  rcases hg : s.getConstituentGifts w cid with ⟨gifts, w1, evs⟩
  have h1 : w1.store = w.store := by
    have := getConstituentGifts_store s w cid
    rw [hg] at this
    exact this
  dsimp only
  exact h1

theorem findOrCreateConstituent_store (s : sync.Service) (w : sync.World)
    (d : fundraiseup.Donation) : (s.findOrCreateConstituent w d).2.1.store = w.store := by
  unfold sync.Service.findOrCreateConstituent sync.Service.bbSearchConstituents
  rcases d.supporter with _ | sup
  · rfl
  · by_cases he : sup.email = ""
    · simp only [he, ne_eq, not_true_eq_false, if_false, reduceIte]
      exact bbCreateConstituent_store s w sup.ToDomainType
    · simp only [ne_eq, he, not_false_eq_true, if_true, reduceIte]
      cases hh : (w.bb.constituents.filter (fun c => sync.emailMatches c sup.email)).head? with
      | some c => simp [hh]
      | none => simpa [hh] using bbCreateConstituent_store s w sup.ToDomainType

theorem getRecurringContext_store (s : sync.Service) (w : sync.World) (cid : String)
    (d : fundraiseup.Donation) : (s.getRecurringContext w cid d).2.1.store = w.store := by
  unfold sync.Service.getRecurringContext
  rcases hf : s.findFirstRecurringGift w cid d.RecurringID with ⟨og, w1, evs⟩
  have h1 : w1.store = w.store := by
    have := findFirstRecurringGift_store s w cid d.RecurringID
    rw [hf] at this
    exact this
  dsimp only
  split
  · rfl
  · split
    · rcases og with _ | g <;> exact h1
    · rfl

theorem processDonation_store (s : sync.Service) (w : sync.World)
    (d : fundraiseup.Donation) : (s.processDonation w d).2.1.store = w.store := by
  unfold sync.Service.processDonation
  rcases hfc : s.findOrCreateConstituent w d with ⟨res, w1, evs1⟩
  have h1 : w1.store = w.store := by
    have := findOrCreateConstituent_store s w d
    rw [hfc] at this
    exact this
  dsimp only
  rcases res with e | ⟨cid, created⟩
  · exact h1
  · dsimp only
    rcases hfe : s.findExistingGift w1 cid d with ⟨og, w2, evs2⟩
    have h2 : w2.store = w1.store := by
      have := findExistingGift_store s w1 cid d
      rw [hfe] at this
      exact this
    dsimp only
    rcases og with _ | g
    · dsimp only
      rcases hrc : s.getRecurringContext w2 cid d with ⟨recCtx, w3, evs3⟩
      dsimp only
      have h3 : w3.store = w2.store := by
        have := getRecurringContext_store s w2 cid d
        rw [hrc] at this
        exact this
      rcases hmap : s.mapDonationToGift d recCtx with e | gift
      · show w3.store = w.store
        rw [h3, h2, h1]
      · dsimp only
        rcases hcg : s.bbCreateGift w3 { gift with constituentID := cid } with ⟨gid, w4, evs4⟩
        have h4 : w4.store = w3.store := by
          have := bbCreateGift_store s w3 { gift with constituentID := cid }
          rw [hcg] at this
          exact this
        show w4.store = w.store
        rw [h4, h3, h2, h1]
    · show w2.store = w.store
      rw [h2, h1]

/-! ### Conditional equations for the pipeline steps -/

theorem bbCreateConstituent_real (s : sync.Service) (w : sync.World)
    (c : blackbaud.Constituent) (h : s.dryRun = false) :
    s.bbCreateConstituent w c =
      (sync.freshConstituentID w.bb.nextID,
        { w with bb := { w.bb with
            constituents := w.bb.constituents ++ [{ c with id := sync.freshConstituentID w.bb.nextID }]
            nextID := w.bb.nextID + 1 } },
        [.createConstituent (sync.freshConstituentID w.bb.nextID)]) := by
  unfold sync.Service.bbCreateConstituent
  rw [h]
  rfl

theorem bbCreateGift_real (s : sync.Service) (w : sync.World)
    (g : blackbaud.Gift) (h : s.dryRun = false) :
    s.bbCreateGift w g =
      (sync.freshGiftID w.bb.nextID,
        { w with bb := { w.bb with
            gifts := w.bb.gifts ++ [{ g with id := sync.freshGiftID w.bb.nextID }]
            nextID := w.bb.nextID + 1 } },
        [.createGift (sync.freshGiftID w.bb.nextID)]) := by
  unfold sync.Service.bbCreateGift
  rw [h]
  rfl

theorem bbCreateConstituent_dry (s : sync.Service) (w : sync.World)
    (c : blackbaud.Constituent) (h : s.dryRun = true) :
    s.bbCreateConstituent w c =
      (sync.dryRunFakeID "constituent" (w.dryCounter + 1),
        { w with dryCounter := w.dryCounter + 1 },
        [.dryCreateConstituent (sync.dryRunFakeID "constituent" (w.dryCounter + 1))]) := by
  unfold sync.Service.bbCreateConstituent
  rw [h]
  rfl

theorem bbCreateGift_dry (s : sync.Service) (w : sync.World)
    (g : blackbaud.Gift) (h : s.dryRun = true) :
    s.bbCreateGift w g =
      (sync.dryRunFakeID "gift" (w.dryCounter + 1),
        { w with dryCounter := w.dryCounter + 1 },
        [.dryCreateGift (sync.dryRunFakeID "gift" (w.dryCounter + 1))]) := by
  unfold sync.Service.bbCreateGift
  rw [h]
  rfl

theorem getConstituentGifts_cached (s : sync.Service) (w : sync.World) (cid : String)
    (gs : List blackbaud.Gift) (h : sync.cacheLookup w.giftCache cid = some gs) :
    s.getConstituentGifts w cid = (gs, w, []) := by
  unfold sync.Service.getConstituentGifts
  rw [h]

theorem getConstituentGifts_uncached (s : sync.Service) (w : sync.World) (cid : String)
    (h : sync.cacheLookup w.giftCache cid = none) :
    s.getConstituentGifts w cid =
      (w.bb.gifts.filter (fun g => g.constituentID == cid),
        { w with giftCache := (sync.cacheInsert w.giftCache cid (w.bb.gifts.filter (fun g => g.constituentID == cid))) },
        [.listGiftsByConstituent cid]) := by
  unfold sync.Service.getConstituentGifts sync.Service.bbListGiftsByConstituent
  rw [h]

theorem findExistingGift_recurring (s : sync.Service) (w : sync.World) (cid : String)
    (d : fundraiseup.Donation) (h : (d.IsRecurring && decide (d.RecurringID ≠ "")) = true) :
    s.findExistingGift w cid d =
      ((s.getConstituentGifts w cid).1.find? (fun g =>
          g.lookupID == d.RecurringID &&
            (blackbaud.ParseGiftOrigin g.origin).1.donationID == d.id),
        (s.getConstituentGifts w cid).2.1, (s.getConstituentGifts w cid).2.2) := by
  unfold sync.Service.findExistingGift
  rcases hg : s.getConstituentGifts w cid with ⟨gs, w1, evs⟩
  dsimp only
  rw [h]
  simp

theorem findExistingGift_onetime (s : sync.Service) (w : sync.World) (cid : String)
    (d : fundraiseup.Donation) (h : (d.IsRecurring && decide (d.RecurringID ≠ "")) = false) :
    s.findExistingGift w cid d =
      ((s.getConstituentGifts w cid).1.find? (fun g => g.lookupID == d.id),
        (s.getConstituentGifts w cid).2.1, (s.getConstituentGifts w cid).2.2) := by
  unfold sync.Service.findExistingGift
  rcases hg : s.getConstituentGifts w cid with ⟨gs, w1, evs⟩
  dsimp only
  rw [h]
  simp

theorem findFirstRecurringGift_eq (s : sync.Service) (w : sync.World) (cid rid : String) :
    s.findFirstRecurringGift w cid rid =
      ((s.getConstituentGifts w cid).1.find? (fun g =>
          g.lookupID == rid && g.type == blackbaud.GiftTypeRecurringGift),
        (s.getConstituentGifts w cid).2.1, (s.getConstituentGifts w cid).2.2) := by
  unfold sync.Service.findFirstRecurringGift
  rcases hg : s.getConstituentGifts w cid with ⟨gs, w1, evs⟩
  dsimp only

theorem findOrCreateConstituent_nosupporter (s : sync.Service) (w : sync.World)
    (d : fundraiseup.Donation) (hsup : d.supporter = none) :
    s.findOrCreateConstituent w d = (.error "donation has no supporter", w, []) := by
  unfold sync.Service.findOrCreateConstituent
  rw [hsup]

theorem findOrCreateConstituent_found (s : sync.Service) (w : sync.World)
    (d : fundraiseup.Donation) (sup : fundraiseup.Supporter) (c : blackbaud.Constituent)
    (hsup : d.supporter = some sup) (he : sup.email ≠ "")
    (hh : (w.bb.constituents.filter (fun x => sync.emailMatches x sup.email)).head? = some c) :
    s.findOrCreateConstituent w d = (.ok (c.id, false), w, [.searchConstituents sup.email]) := by
  unfold sync.Service.findOrCreateConstituent sync.Service.bbSearchConstituents
  rw [hsup]
  simp only [ne_eq, he, not_false_eq_true, if_true, reduceIte, hh]
  rfl

theorem findOrCreateConstituent_miss (s : sync.Service) (w : sync.World)
    (d : fundraiseup.Donation) (sup : fundraiseup.Supporter)
    (hsup : d.supporter = some sup) (he : sup.email ≠ "")
    (hh : (w.bb.constituents.filter (fun x => sync.emailMatches x sup.email)).head? = none) :
    s.findOrCreateConstituent w d =
      (.ok ((s.bbCreateConstituent w sup.ToDomainType).1, true),
        (s.bbCreateConstituent w sup.ToDomainType).2.1,
        [.searchConstituents sup.email] ++ (s.bbCreateConstituent w sup.ToDomainType).2.2) := by
  unfold sync.Service.findOrCreateConstituent sync.Service.bbSearchConstituents
  rw [hsup]
  simp only [ne_eq, he, not_false_eq_true, if_true, reduceIte, hh]
  rcases hc : s.bbCreateConstituent w sup.ToDomainType with ⟨cid, w1, evs⟩
  rfl

theorem getRecurringContext_nonrecurring (s : sync.Service) (w : sync.World) (cid : String)
    (d : fundraiseup.Donation) (h : (d.IsRecurring && decide (d.RecurringID ≠ "")) = false) :
    s.getRecurringContext w cid d = ({}, w, []) := by
  unfold sync.Service.getRecurringContext
  rw [h]
  rfl

theorem getRecurringContext_seqOne (s : sync.Service) (w : sync.World) (cid : String)
    (d : fundraiseup.Donation) (h : (d.IsRecurring && decide (d.RecurringID ≠ "")) = true)
    (hseq : max d.InstallmentNumber 1 = 1) :
    s.getRecurringContext w cid d =
      ({ firstGiftID := "", isFirstInSeries := true, sequenceNumber := max d.InstallmentNumber 1 },
        w, []) := by
  unfold sync.Service.getRecurringContext
  rw [h]
  simp [hseq]

theorem getRecurringContext_later (s : sync.Service) (w : sync.World) (cid : String)
    (d : fundraiseup.Donation) (h : (d.IsRecurring && decide (d.RecurringID ≠ "")) = true)
    (hseq : ¬ max d.InstallmentNumber 1 = 1) :
    s.getRecurringContext w cid d =
      ((match (s.findFirstRecurringGift w cid d.RecurringID).1 with
        | some g => { firstGiftID := g.id, isFirstInSeries := false,
                      sequenceNumber := max d.InstallmentNumber 1 }
        | none => { firstGiftID := "", isFirstInSeries := true,
                    sequenceNumber := max d.InstallmentNumber 1 }),
        (s.findFirstRecurringGift w cid d.RecurringID).2.1,
        (s.findFirstRecurringGift w cid d.RecurringID).2.2) := by
  unfold sync.Service.getRecurringContext
  rw [h]
  rcases hf : s.findFirstRecurringGift w cid d.RecurringID with ⟨og, w1, evs⟩
  dsimp only
  rw [if_pos hseq]
  rcases og with _ | g <;> rfl

theorem toDomainTypeChecked_ok (d : fundraiseup.Donation) (q : ℚ)
    (ha : parseDecimal d.amount = some q) :
    d.ToDomainTypeChecked = .ok d.ToDomainType := by
  unfold fundraiseup.Donation.ToDomainTypeChecked
  rw [ha]

theorem mapDonationToGift_nonrecurring (s : sync.Service) (d : fundraiseup.Donation)
    (recCtx : sync.recurringContext) (q : ℚ)
    (h : (d.IsRecurring && decide (d.RecurringID ≠ "")) = false)
    (ha : parseDecimal d.amount = some q) :
    s.mapDonationToGift d recCtx = .ok
      { d.ToDomainType with
        batchPrefix := sync.originName
        isManual := true
        giftSplits := [{ amount := d.ToDomainType.amount, fundID := s.giftDefaults.fundID,
                         campaignID := s.giftDefaults.campaignID, appealID := s.giftDefaults.appealID }]
        type := s.giftDefaults.type
        lookupID := d.id } := by
  unfold sync.Service.mapDonationToGift
  rw [toDomainTypeChecked_ok d q ha]
  dsimp only
  rw [h]
  rfl

theorem mapDonationToGift_recurring_first (s : sync.Service) (d : fundraiseup.Donation)
    (recCtx : sync.recurringContext) (q : ℚ)
    (h : (d.IsRecurring && decide (d.RecurringID ≠ "")) = true)
    (ha : parseDecimal d.amount = some q)
    (hctx : recCtx.isFirstInSeries = true) :
    s.mapDonationToGift d recCtx = .ok
      { d.ToDomainType with
        batchPrefix := sync.originName
        isManual := true
        giftSplits := [{ amount := d.ToDomainType.amount, fundID := s.giftDefaults.fundID,
                         campaignID := s.giftDefaults.campaignID, appealID := s.giftDefaults.appealID }]
        lookupID := d.RecurringID
        subtype := blackbaud.GiftSubtypeRecurring
        origin := (blackbaud.GiftOrigin.mk d.id sync.originName).toString
        type := blackbaud.GiftTypeRecurringGift } := by
  unfold sync.Service.mapDonationToGift
  rw [toDomainTypeChecked_ok d q ha]
  dsimp only
  rw [h, hctx]
  rfl

theorem mapDonationToGift_recurring_later (s : sync.Service) (d : fundraiseup.Donation)
    (recCtx : sync.recurringContext) (q : ℚ)
    (h : (d.IsRecurring && decide (d.RecurringID ≠ "")) = true)
    (ha : parseDecimal d.amount = some q)
    (hctx : recCtx.isFirstInSeries = false) (hanchor : recCtx.firstGiftID ≠ "") :
    s.mapDonationToGift d recCtx = .ok
      { d.ToDomainType with
        batchPrefix := sync.originName
        isManual := true
        giftSplits := [{ amount := d.ToDomainType.amount, fundID := s.giftDefaults.fundID,
                         campaignID := s.giftDefaults.campaignID, appealID := s.giftDefaults.appealID }]
        lookupID := d.RecurringID
        subtype := blackbaud.GiftSubtypeRecurring
        origin := (blackbaud.GiftOrigin.mk d.id sync.originName).toString
        type := blackbaud.GiftTypeRecurringGiftPayment
        linkedGifts := [recCtx.firstGiftID] } := by
  unfold sync.Service.mapDonationToGift
  rw [toDomainTypeChecked_ok d q ha]
  dsimp only
  rw [h, hctx]
  simp only [Bool.false_eq_true, if_false, reduceIte, ne_eq, hanchor, not_false_eq_true, if_true]

/-! ### Conditional equations for the per-donation pipeline -/

theorem processDonation_of_error (s : sync.Service) (w : sync.World)
    (d : fundraiseup.Donation) (e : String)
    (hfc : (s.findOrCreateConstituent w d).1 = .error e) :
    s.processDonation w d =
      ({ donationID := d.id, error := some ("finding/creating constituent: " ++ e) },
        (s.findOrCreateConstituent w d).2.1, (s.findOrCreateConstituent w d).2.2) := by
  unfold sync.Service.processDonation
  rcases hres : s.findOrCreateConstituent w d with ⟨res, w1, evs1⟩
  rw [hres] at hfc
  dsimp only at hfc
  subst hfc
  rfl

theorem processDonation_of_skip (s : sync.Service) (w : sync.World)
    (d : fundraiseup.Donation) (cid : String) (created : Bool) (g : blackbaud.Gift)
    (hfc : (s.findOrCreateConstituent w d).1 = .ok (cid, created))
    (hfe : (s.findExistingGift (s.findOrCreateConstituent w d).2.1 cid d).1 = some g) :
    s.processDonation w d =
      ({ donationID := d.id, constituentCreated := created, giftID := g.id,
         giftSkippedExisting := true },
        (s.findExistingGift (s.findOrCreateConstituent w d).2.1 cid d).2.1,
        (s.findOrCreateConstituent w d).2.2 ++
          (s.findExistingGift (s.findOrCreateConstituent w d).2.1 cid d).2.2) := by
  unfold sync.Service.processDonation
  rcases hres : s.findOrCreateConstituent w d with ⟨res, w1, evs1⟩
  rw [hres] at hfc
  dsimp only at hfc
  subst hfc
  rw [hres] at hfe
  dsimp only at hfe
  dsimp only
  rcases hfe2 : s.findExistingGift w1 cid d with ⟨og, w2, evs2⟩
  rw [hfe2] at hfe
  dsimp only at hfe
  subst hfe
  rfl

theorem processDonation_of_create (s : sync.Service) (w : sync.World)
    (d : fundraiseup.Donation) (cid : String) (created : Bool) (gift : blackbaud.Gift)
    (hfc : (s.findOrCreateConstituent w d).1 = .ok (cid, created))
    (hfe : (s.findExistingGift (s.findOrCreateConstituent w d).2.1 cid d).1 = none)
    (hmap : s.mapDonationToGift d
        (s.getRecurringContext (s.findExistingGift (s.findOrCreateConstituent w d).2.1 cid d).2.1 cid d).1
        = .ok gift) :
    s.processDonation w d =
      ({ donationID := d.id, constituentCreated := created,
         giftID := (s.bbCreateGift
             (s.getRecurringContext (s.findExistingGift (s.findOrCreateConstituent w d).2.1 cid d).2.1 cid d).2.1
             { gift with constituentID := cid }).1,
         giftCreated := true },
        (s.bbCreateGift
            (s.getRecurringContext (s.findExistingGift (s.findOrCreateConstituent w d).2.1 cid d).2.1 cid d).2.1
            { gift with constituentID := cid }).2.1,
        (s.findOrCreateConstituent w d).2.2 ++
          (s.findExistingGift (s.findOrCreateConstituent w d).2.1 cid d).2.2 ++
          (s.getRecurringContext (s.findExistingGift (s.findOrCreateConstituent w d).2.1 cid d).2.1 cid d).2.2 ++
          (s.bbCreateGift
              (s.getRecurringContext (s.findExistingGift (s.findOrCreateConstituent w d).2.1 cid d).2.1 cid d).2.1
              { gift with constituentID := cid }).2.2) := by
  unfold sync.Service.processDonation
  rcases hres : s.findOrCreateConstituent w d with ⟨res, w1, evs1⟩
  rw [hres] at hfc
  dsimp only at hfc
  subst hfc
  rw [hres] at hfe hmap
  dsimp only at hfe hmap
  dsimp only
  rcases hfe2 : s.findExistingGift w1 cid d with ⟨og, w2, evs2⟩
  rw [hfe2] at hfe hmap
  dsimp only at hfe hmap
  subst hfe
  dsimp only
  rcases hrc : s.getRecurringContext w2 cid d with ⟨recCtx, w3, evs3⟩
  rw [hrc] at hmap
  dsimp only at hmap
  rw [hmap]

/-! ## Claim C4 (mapper amount error) -/

/-- Claim C4: the spec and the mapper's own tests demand that converting
a donation whose amount string is not a parseable decimal fails with an
invalid-amount error and produces no gift; but `Donation.ToDomainType`
in `mapper.go` discards the `strconv.ParseFloat` error (`amount, _ :=`),
so on the amount string "invalid" it cannot fail and silently produces a
gift with amount 0 — the code contradicts the claim (and its own test
table entry "invalid amount returns error"). -/
theorem toDomainType_invalid_amount_yields_zero_gift :
    parseDecimal "invalid" = none ∧
    fundraiseup.Donation.ToDomainType
        { id := "don_bad", amount := "invalid", createdAtDate := "2024-01-15" } =
      { amount := some 0, date := "2024-01-15", externalID := "don_bad" } := by
  constructor
  · rfl
  · rfl

/-! ## Claims C5 and C6 (token cache) -/

theorem refreshAccessToken_error_state (tm : blackbaud.TokenState) (now : Int)
    (env : blackbaud.RefreshEnv) (e : String)
    (h : (blackbaud.refreshAccessToken tm now env).1 = .error e) :
    (blackbaud.refreshAccessToken tm now env).2 = tm := by
  unfold blackbaud.refreshAccessToken at h ⊢
  by_cases hv : blackbaud.isTokenValid tm now = true
  · rw [if_pos hv] at h
    simp at h
  · rw [if_neg hv] at h ⊢
    cases hst : env.storeToken with
    | error e2 => rfl
    | ok rt =>
        rw [hst] at h
        cases hex : env.exchange with
        | createError m => rfl
        | execError m => rfl
        | badStatus c b => rfl
        | decodeError m => rfl
        | ok r =>
            rw [hex] at h
            dsimp only at h ⊢
            by_cases hs : (r.refreshToken ≠ "" && r.refreshToken ≠ rt) = true
            · rw [if_pos hs] at h ⊢
              cases hse : env.saveError with
              | some m => rfl
              | none => rw [hse] at h; simp at h
            · rw [if_neg hs] at h
              simp at h

/-- Claim C6: whenever `AccessToken` returns an error — the
credential-store read failed, the token request could not be built or
executed, the response had a non-200 status or an undecodable body (and
likewise when persisting a rotated refresh credential fails) — the
cached state (`accessToken` and `expiresAt`) is exactly what it was
before the call: no partial update. -/
theorem accessToken_error_leaves_cache_unchanged (tm : blackbaud.TokenState) (now : Int)
    (env : blackbaud.RefreshEnv) (e : String)
    (h : (blackbaud.AccessToken tm now env).1 = .error e) :
    (blackbaud.AccessToken tm now env).2 = tm := by
  unfold blackbaud.AccessToken blackbaud.cachedToken at h ⊢
  by_cases hv : blackbaud.isTokenValid tm now = true
  · rw [if_pos hv] at h
    simp at h
  · rw [if_neg hv] at h ⊢
    exact refreshAccessToken_error_state tm now env e h

/-- Witness for C6 at a concrete input: a failing credential-store read
propagates the error and leaves the cached token state untouched. -/
theorem accessToken_error_leaves_cache_unchanged_witness :
    (blackbaud.AccessToken { accessToken := "old", expiresAt := 100 } 5000
        { storeToken := .error "ssm down", exchange := .ok {} }).2 =
      { accessToken := "old", expiresAt := 100 } :=
  accessToken_error_leaves_cache_unchanged
    { accessToken := "old", expiresAt := 100 } 5000
    { storeToken := .error "ssm down", exchange := .ok {} }
    "getting refresh token: ssm down" (by rfl)

/-- Claim C5 counterexample: the claim says every bearer returned by
`AccessToken` satisfies now < expiresAt − 5-minute buffer at the moment
of return.  But on the refresh path the token is installed with expiry
now + expires_in and returned unchecked: with a server TTL of 60
seconds the bearer is returned already within the buffer. -/
theorem accessToken_small_ttl_within_buffer :
    (blackbaud.AccessToken { accessToken := "", expiresAt := 0 } 1000
        { storeToken := .ok "rt", exchange := .ok { accessToken := "tok", expiresIn := 60 } }).1
      = .ok "tok" ∧
    ¬ (1000 < (blackbaud.AccessToken { accessToken := "", expiresAt := 0 } 1000
        { storeToken := .ok "rt", exchange := .ok { accessToken := "tok", expiresIn := 60 } }).2.expiresAt
        - blackbaud.tokenExpiryBuffer) := by
  constructor
  · rfl
  · decide

/-- Claim C5 (amended): a bearer returned from the cached fast path does
satisfy now < expiresAt − 5-minute buffer (a cached bearer is never
handed out within 5 minutes of its recorded expiry); a bearer returned
from a fresh refresh has recorded expiry now + TTL (the server's
expires_in when positive, else the 60-minute default) and satisfies the
buffer condition exactly when that TTL exceeds the 5-minute buffer — in
particular always when the server omits the TTL, but not for server
TTLs of 5 minutes or less. -/
theorem accessToken_expiry_buffer_amended (tm : blackbaud.TokenState) (now : Int)
    (env : blackbaud.RefreshEnv) (tok : String) (tm' : blackbaud.TokenState)
    (h : blackbaud.AccessToken tm now env = (.ok tok, tm')) :
    (blackbaud.isTokenValid tm now = true →
      tm' = tm ∧ tok = tm.accessToken ∧ now < tm'.expiresAt - blackbaud.tokenExpiryBuffer) ∧
    (blackbaud.isTokenValid tm now = false →
      ∃ r, env.exchange = .ok r ∧ tok = r.accessToken ∧
        tm'.expiresAt = now + (if r.expiresIn > 0 then r.expiresIn else blackbaud.defaultTokenDuration) ∧
        (now < tm'.expiresAt - blackbaud.tokenExpiryBuffer ↔
          blackbaud.tokenExpiryBuffer <
            (if r.expiresIn > 0 then r.expiresIn else blackbaud.defaultTokenDuration))) := by
  unfold blackbaud.AccessToken blackbaud.cachedToken at h
  constructor
  · intro hv
    rw [if_pos hv] at h
    dsimp only at h
    obtain ⟨h1, h2⟩ := Prod.mk.injEq .. ▸ h
    injection h1 with h1
    have hlt : now < tm.expiresAt - blackbaud.tokenExpiryBuffer := by
      unfold blackbaud.isTokenValid at hv
      simp only [Bool.and_eq_true, decide_eq_true_eq] at hv
      exact hv.2
    exact ⟨h2.symm, h1.symm, by rw [← h2]; exact hlt⟩
  · intro hv
    rw [if_neg (by rw [hv]; exact Bool.false_ne_true)] at h
    unfold blackbaud.refreshAccessToken at h
    rw [if_neg (by rw [hv]; exact Bool.false_ne_true)] at h
    cases hst : env.storeToken with
    | error e2 => rw [hst] at h; simp at h
    | ok rt =>
        rw [hst] at h
        cases hex : env.exchange with
        | createError m => rw [hex] at h; simp at h
        | execError m => rw [hex] at h; simp at h
        | badStatus c b => rw [hex] at h; simp at h
        | decodeError m => rw [hex] at h; simp at h
        | ok r =>
            rw [hex] at h
            dsimp only at h
            refine ⟨r, rfl, ?_⟩
            by_cases hs : (r.refreshToken ≠ "" && r.refreshToken ≠ rt) = true
            · rw [if_pos hs] at h
              cases hse : env.saveError with
              | some m => rw [hse] at h; simp at h
              | none =>
                  rw [hse] at h
                  obtain ⟨h1, h2⟩ := Prod.mk.injEq .. ▸ h
                  injection h1 with h1
                  refine ⟨h1.symm, ?_, ?_⟩
                  · rw [← h2]
                    by_cases hp : r.expiresIn > 0 <;> simp [hp]
                  · rw [← h2]
                    dsimp only
                    by_cases hp : r.expiresIn > 0 <;> simp only [hp, if_true, if_false, reduceIte] <;> omega
            · rw [if_neg hs] at h
              obtain ⟨h1, h2⟩ := Prod.mk.injEq .. ▸ h
              injection h1 with h1
              refine ⟨h1.symm, ?_, ?_⟩
              · rw [← h2]
                by_cases hp : r.expiresIn > 0 <;> simp [hp]
              · rw [← h2]
                dsimp only
                by_cases hp : r.expiresIn > 0 <;> simp only [hp, if_true, if_false, reduceIte] <;> omega

/-- Witness for the amended C5: a refresh with the server TTL omitted
(`expires_in = 0`) installs the 60-minute default and the returned
bearer satisfies the buffer condition. -/
theorem accessToken_expiry_buffer_amended_witness :
    blackbaud.isTokenValid { accessToken := "", expiresAt := 0 } 1000 = false ∧
    ∃ r, ({ storeToken := .ok "rt", exchange := .ok { accessToken := "tok2" } } :
        blackbaud.RefreshEnv).exchange = .ok r ∧ "tok2" = r.accessToken ∧
      (blackbaud.AccessToken { accessToken := "", expiresAt := 0 } 1000
          { storeToken := .ok "rt", exchange := .ok { accessToken := "tok2" } }).2.expiresAt =
        1000 + (if r.expiresIn > 0 then r.expiresIn else blackbaud.defaultTokenDuration) ∧
      (1000 < (blackbaud.AccessToken { accessToken := "", expiresAt := 0 } 1000
          { storeToken := .ok "rt", exchange := .ok { accessToken := "tok2" } }).2.expiresAt -
          blackbaud.tokenExpiryBuffer ↔
        blackbaud.tokenExpiryBuffer <
          (if r.expiresIn > 0 then r.expiresIn else blackbaud.defaultTokenDuration)) := by
  refine ⟨by decide, ?_⟩
  exact (accessToken_expiry_buffer_amended { accessToken := "", expiresAt := 0 } 1000
    { storeToken := .ok "rt", exchange := .ok { accessToken := "tok2" } } "tok2"
    ((blackbaud.AccessToken { accessToken := "", expiresAt := 0 } 1000
      { storeToken := .ok "rt", exchange := .ok { accessToken := "tok2" } }).2)
    (by rfl)).2 (by decide)

/-! ## Claim C3 (recurring-context classification) -/

/-- Claim C3: for a recurring donation whose clamped sequence number
exceeds 1, `getRecurringContext` classifies it as first-in-series
(self-healing, no error) when no gift with lookup ID equal to the
series ID and type `RecurringGift` is among the constituent's observed
gifts; when such an anchor exists, it returns first-in-series false with
the anchor gift's ID; and a non-recurring donation yields the zero
context.  (In this model the collaborators do not fail, so no error is
ever produced.) -/
theorem getRecurringContext_classification (s : sync.Service) (w : sync.World) (cid : String)
    (d : fundraiseup.Donation) :
    (d.recurringPlan = none → (s.getRecurringContext w cid d).1 = {}) ∧
    (∀ p : fundraiseup.RecurringPlan, d.recurringPlan = some p → p.id ≠ "" →
      1 < max d.InstallmentNumber 1 →
      ((∀ g ∈ (s.getConstituentGifts w cid).1,
          ¬(g.lookupID = p.id ∧ g.type = blackbaud.GiftTypeRecurringGift)) →
        (s.getRecurringContext w cid d).1 =
          { firstGiftID := "", isFirstInSeries := true,
            sequenceNumber := max d.InstallmentNumber 1 }) ∧
      (∀ g, (s.getConstituentGifts w cid).1.find? (fun g' =>
            g'.lookupID == p.id && g'.type == blackbaud.GiftTypeRecurringGift) = some g →
        (s.getRecurringContext w cid d).1 =
          { firstGiftID := g.id, isFirstInSeries := false,
            sequenceNumber := max d.InstallmentNumber 1 } ∧
        g.lookupID = p.id ∧ g.type = blackbaud.GiftTypeRecurringGift)) := by
  constructor
  · intro hp
    rw [getRecurringContext_nonrecurring s w cid d
      (by simp [fundraiseup.Donation.IsRecurring, hp])]
  · intro p hp hid hseq
    have hrid : d.RecurringID = p.id := by
      simp [fundraiseup.Donation.RecurringID, hp]
    have hrec : (d.IsRecurring && decide (d.RecurringID ≠ "")) = true := by
      simp [fundraiseup.Donation.IsRecurring, hp, hrid, hid]
    have hne1 : ¬ max d.InstallmentNumber 1 = 1 := by omega
    rw [getRecurringContext_later s w cid d hrec hne1]
    dsimp only
    rw [findFirstRecurringGift_eq]
    dsimp only
    rw [hrid]
    constructor
    · intro hno
      rw [List.find?_eq_none.mpr (by
        intro g hg
        have := hno g hg
        simp only [Bool.and_eq_true, beq_iff_eq]
        intro hcon
        exact this ⟨hcon.1, hcon.2⟩)]
    · intro g hfind
      rw [hfind]
      have hpg := List.find?_some hfind
      simp only [Bool.and_eq_true, beq_iff_eq] at hpg
      exact ⟨rfl, hpg.1, hpg.2⟩

/-- Witness for C3 at a concrete input: installment 3 of series
"rec_9" with the anchor present among the constituent's gifts resolves
to the anchor's ID; with no anchor present it self-heals to
first-in-series. -/
theorem getRecurringContext_classification_witness :
    (sync.Service.getRecurringContext {} { bb := { gifts := [{ id := "g7", constituentID := "c1", lookupID := "rec_9", type := blackbaud.GiftTypeRecurringGift }] } } "c1" { id := "don_3", installment := "3", recurringPlan := some { id := "rec_9" } }).1 =
      { firstGiftID := "g7", isFirstInSeries := false, sequenceNumber := 3 } ∧
    (sync.Service.getRecurringContext {} {} "c1" { id := "don_3", installment := "3", recurringPlan := some { id := "rec_9" } }).1 =
      { firstGiftID := "", isFirstInSeries := true, sequenceNumber := 3 } := by
  constructor
  · have h := ((getRecurringContext_classification {} { bb := { gifts := [{ id := "g7", constituentID := "c1", lookupID := "rec_9", type := blackbaud.GiftTypeRecurringGift }] } } "c1" { id := "don_3", installment := "3", recurringPlan := some { id := "rec_9" } }).2 { id := "rec_9" } rfl (by decide) (by decide)).2 { id := "g7", constituentID := "c1", lookupID := "rec_9", type := blackbaud.GiftTypeRecurringGift } (by decide)
    exact h.1.trans (by decide)
  · have h := ((getRecurringContext_classification {} {} "c1" { id := "don_3", installment := "3", recurringPlan := some { id := "rec_9" } }).2 { id := "rec_9" } rfl (by decide) (by decide)).1 (by decide)
    exact h.trans (by decide)

/-! ## Claim C10 (per-run gift cache write-once stability) -/

theorem bbCreateConstituent_cache (s : sync.Service) (w : sync.World)
    (c : blackbaud.Constituent) : (s.bbCreateConstituent w c).2.1.giftCache = w.giftCache := by
  unfold sync.Service.bbCreateConstituent
  split <;> rfl

theorem bbCreateGift_cache (s : sync.Service) (w : sync.World) (g : blackbaud.Gift) :
    (s.bbCreateGift w g).2.1.giftCache = w.giftCache := by
  unfold sync.Service.bbCreateGift
  split <;> rfl

theorem findOrCreateConstituent_cache (s : sync.Service) (w : sync.World)
    (d : fundraiseup.Donation) :
    (s.findOrCreateConstituent w d).2.1.giftCache = w.giftCache := by
  unfold sync.Service.findOrCreateConstituent sync.Service.bbSearchConstituents
  rcases d.supporter with _ | sup
  · rfl
  · by_cases he : sup.email = ""
    · simp only [he, ne_eq, not_true_eq_false, if_false, reduceIte]
      exact bbCreateConstituent_cache s w sup.ToDomainType
    · simp only [ne_eq, he, not_false_eq_true, if_true, reduceIte]
      cases hh : (w.bb.constituents.filter (fun c => sync.emailMatches c sup.email)).head? with
      | some c => simp [hh]
      | none => simpa [hh] using bbCreateConstituent_cache s w sup.ToDomainType

theorem getConstituentGifts_cache_stable (s : sync.Service) (w : sync.World) (cid cid0 : String)
    (gs : List blackbaud.Gift) (h : sync.cacheLookup w.giftCache cid0 = some gs) :
    sync.cacheLookup (s.getConstituentGifts w cid).2.1.giftCache cid0 = some gs := by
  cases hc : sync.cacheLookup w.giftCache cid with
  | some gs2 => rw [getConstituentGifts_cached s w cid gs2 hc]; exact h
  | none =>
      rw [getConstituentGifts_uncached s w cid hc]
      exact cacheLookup_cacheInsert_of_some _ _ _ _ _ h

theorem findExistingGift_world (s : sync.Service) (w : sync.World) (cid : String)
    (d : fundraiseup.Donation) :
    (s.findExistingGift w cid d).2.1 = (s.getConstituentGifts w cid).2.1 := by
  cases hcond : (d.IsRecurring && decide (d.RecurringID ≠ "")) with
  | true => rw [findExistingGift_recurring s w cid d hcond]
  | false => rw [findExistingGift_onetime s w cid d hcond]

theorem getRecurringContext_cache_stable (s : sync.Service) (w : sync.World) (cid cid0 : String)
    (d : fundraiseup.Donation) (gs : List blackbaud.Gift)
    (h : sync.cacheLookup w.giftCache cid0 = some gs) :
    sync.cacheLookup (s.getRecurringContext w cid d).2.1.giftCache cid0 = some gs := by
  cases hcond : (d.IsRecurring && decide (d.RecurringID ≠ "")) with
  | false => rw [getRecurringContext_nonrecurring s w cid d hcond]; exact h
  | true =>
      by_cases hseq : max d.InstallmentNumber 1 = 1
      · rw [getRecurringContext_seqOne s w cid d hcond hseq]; exact h
      · rw [getRecurringContext_later s w cid d hcond hseq]
        dsimp only
        rw [findFirstRecurringGift_eq]
        dsimp only
        exact getConstituentGifts_cache_stable s w cid cid0 gs h

theorem processDonation_cache_stable (s : sync.Service) (w : sync.World)
    (d : fundraiseup.Donation) (cid0 : String) (gs : List blackbaud.Gift)
    (h : sync.cacheLookup w.giftCache cid0 = some gs) :
    sync.cacheLookup (s.processDonation w d).2.1.giftCache cid0 = some gs := by
  unfold sync.Service.processDonation
  rcases hfc : s.findOrCreateConstituent w d with ⟨res, w1, evs1⟩
  have h1 : sync.cacheLookup w1.giftCache cid0 = some gs := by
    have heq := findOrCreateConstituent_cache s w d
    rw [hfc] at heq
    dsimp only at heq
    rw [heq]
    exact h
  dsimp only
  rcases res with e | ⟨cid, created⟩
  · exact h1
  · dsimp only
    rcases hfe : s.findExistingGift w1 cid d with ⟨og, w2, evs2⟩
    have h2 : sync.cacheLookup w2.giftCache cid0 = some gs := by
      have heq := findExistingGift_world s w1 cid d
      rw [hfe] at heq
      dsimp only at heq
      rw [heq]
      exact getConstituentGifts_cache_stable s w1 cid cid0 gs h1
    dsimp only
    rcases og with _ | g
    · dsimp only
      rcases hrc : s.getRecurringContext w2 cid d with ⟨recCtx, w3, evs3⟩
      have h3 : sync.cacheLookup w3.giftCache cid0 = some gs := by
        have := getRecurringContext_cache_stable s w2 cid cid0 d gs h2
        rw [hrc] at this
        exact this
      dsimp only
      rcases hmap : s.mapDonationToGift d recCtx with e | gift
      · exact h3
      · dsimp only
        rcases hcg : s.bbCreateGift w3 { gift with constituentID := cid } with ⟨gid, w4, evs4⟩
        have h4 : sync.cacheLookup w4.giftCache cid0 = some gs := by
          have heq := bbCreateGift_cache s w3 { gift with constituentID := cid }
          rw [hcg] at heq
          dsimp only at heq
          rw [heq]
          exact h3
        exact h4
    · exact h2

/-- Claim C10: within a run, the per-constituent gift-list cache is
written exactly once per constituent, on that constituent's first
lookup, and is never updated afterwards — in particular a cached entry
survives an entire `processDonation` call unchanged, even when that call
creates a gift for the constituent, so every later duplicate-detection
or anchor lookup observes the gift list exactly as first fetched (a
cached lookup returns it with no further destination call). -/
theorem giftCache_write_once_and_stable (s : sync.Service) (w : sync.World) (cid : String)
    (d : fundraiseup.Donation) :
    (∀ gs, sync.cacheLookup w.giftCache cid = some gs →
      s.getConstituentGifts w cid = (gs, w, []) ∧
      sync.cacheLookup (s.processDonation w d).2.1.giftCache cid = some gs) ∧
    (sync.cacheLookup w.giftCache cid = none →
      sync.cacheLookup (s.getConstituentGifts w cid).2.1.giftCache cid =
        some (w.bb.gifts.filter (fun g => g.constituentID == cid))) := by
  constructor
  · intro gs h
    exact ⟨getConstituentGifts_cached s w cid gs h,
      processDonation_cache_stable s w d cid gs h⟩
  · intro h
    rw [getConstituentGifts_uncached s w cid h]
    dsimp only
    have hf : w.giftCache.find? (fun p => p.1 == cid) = none := by
      cases hff : w.giftCache.find? (fun p => p.1 == cid) with
      | none => rfl
      | some p =>
          unfold sync.cacheLookup at h
          rw [hff] at h
          simp at h
    unfold sync.cacheLookup sync.cacheInsert
    rw [List.find?_append, hf]
    simp

/-- Witness for C10 at a concrete input: a pre-cached (empty) gift list
for constituent "c1" is returned from the cache and survives a
gift-creating `processDonation` call unchanged. -/
theorem giftCache_write_once_and_stable_witness :
    sync.Service.getConstituentGifts { giftDefaults := { fundID := "F", type := "Donation" } } { giftCache := [("c1", [])] } "c1" = ([], { giftCache := [("c1", [])] }, []) ∧
    sync.cacheLookup (sync.Service.processDonation { giftDefaults := { fundID := "F", type := "Donation" } } { giftCache := [("c1", [])] } { id := "don_1", amount := "50.00", createdAtDate := "2024-01-15", supporter := some { email := "a@b.c" } }).2.1.giftCache "c1" = some [] :=
  (giftCache_write_once_and_stable { giftDefaults := { fundID := "F", type := "Donation" } }
    { giftCache := [("c1", [])] } "c1"
    { id := "don_1", amount := "50.00", createdAtDate := "2024-01-15", supporter := some { email := "a@b.c" } }).1
    [] (by decide)

/-! ## Claim C1 (per-donation idempotency) -/

theorem processDonation_of_maperror (s : sync.Service) (w : sync.World)
    (d : fundraiseup.Donation) (cid : String) (created : Bool) (e : String)
    (hfc : (s.findOrCreateConstituent w d).1 = .ok (cid, created))
    (hfe : (s.findExistingGift (s.findOrCreateConstituent w d).2.1 cid d).1 = none)
    (hmap : s.mapDonationToGift d
        (s.getRecurringContext (s.findExistingGift (s.findOrCreateConstituent w d).2.1 cid d).2.1 cid d).1
        = .error e) :
    (s.processDonation w d).1 =
      { donationID := d.id, constituentCreated := created,
        error := some ("mapping donation to gift: " ++ e) } := by
  unfold sync.Service.processDonation
  rcases hres : s.findOrCreateConstituent w d with ⟨res, w1, evs1⟩
  rw [hres] at hfc
  dsimp only at hfc
  subst hfc
  rw [hres] at hfe hmap
  dsimp only at hfe hmap
  dsimp only
  rcases hfe2 : s.findExistingGift w1 cid d with ⟨og, w2, evs2⟩
  rw [hfe2] at hfe hmap
  dsimp only at hfe hmap
  subst hfe
  dsimp only
  rcases hrc : s.getRecurringContext w2 cid d with ⟨recCtx, w3, evs3⟩
  rw [hrc] at hmap
  dsimp only at hmap
  rw [hmap]

theorem getRecurringContext_world_cached (s : sync.Service) (w : sync.World) (cid : String)
    (d : fundraiseup.Donation) (gs : List blackbaud.Gift)
    (h : sync.cacheLookup w.giftCache cid = some gs) :
    (s.getRecurringContext w cid d).2.1 = w := by
  cases hcond : (d.IsRecurring && decide (d.RecurringID ≠ "")) with
  | false => rw [getRecurringContext_nonrecurring s w cid d hcond]
  | true =>
      by_cases hseq : max d.InstallmentNumber 1 = 1
      · rw [getRecurringContext_seqOne s w cid d hcond hseq]
      · rw [getRecurringContext_later s w cid d hcond hseq]
        dsimp only
        rw [findFirstRecurringGift_eq]
        dsimp only
        rw [getConstituentGifts_cached s w cid gs h]

theorem mapDonationToGift_fields (s : sync.Service) (d : fundraiseup.Donation)
    (recCtx : sync.recurringContext) (gift : blackbaud.Gift)
    (hmap : s.mapDonationToGift d recCtx = .ok gift) :
    (((d.IsRecurring && decide (d.RecurringID ≠ "")) = true →
        gift.lookupID = d.RecurringID ∧
        gift.origin = (blackbaud.GiftOrigin.mk d.id sync.originName).toString) ∧
      ((d.IsRecurring && decide (d.RecurringID ≠ "")) = false → gift.lookupID = d.id)) := by
  unfold sync.Service.mapDonationToGift at hmap
  rcases hchk : d.ToDomainTypeChecked with e | gift0
  · rw [hchk] at hmap
    simp at hmap
  · rw [hchk] at hmap
    dsimp only at hmap
    constructor
    · intro hcond
      simp only [hcond, if_true, reduceIte] at hmap
      by_cases hfirst : recCtx.isFirstInSeries = true
      · rw [if_pos hfirst] at hmap
        injection hmap with hmap
        subst hmap
        exact ⟨rfl, rfl⟩
      · rw [if_neg hfirst] at hmap
        by_cases hanchor : recCtx.firstGiftID ≠ ""
        · rw [if_pos hanchor] at hmap
          injection hmap with hmap
          subst hmap
          exact ⟨rfl, rfl⟩
        · rw [if_neg hanchor] at hmap
          injection hmap with hmap
          subst hmap
          exact ⟨rfl, rfl⟩
    · intro hcond
      simp only [hcond, Bool.false_eq_true, if_false, reduceIte] at hmap
      injection hmap with hmap
      subst hmap
      rfl

theorem cacheLookup_insert_self (c : List (String × List blackbaud.Gift)) (cid : String)
    (gs : List blackbaud.Gift) (h : c.find? (fun p => p.1 == cid) = none) :
    sync.cacheLookup (sync.cacheInsert c cid gs) cid = some gs := by
  unfold sync.cacheLookup sync.cacheInsert
  rw [List.find?_append, h]
  simp

theorem emailMatches_fresh (sup : fundraiseup.Supporter) (he : sup.email ≠ "") (i : String) :
    sync.emailMatches { sup.ToDomainType with id := i } sup.email = true := by
  unfold sync.emailMatches fundraiseup.Supporter.ToDomainType
  dsimp only
  rw [if_pos he]
  simp

theorem findExistingGift_freshCache (s : sync.Service) (w : sync.World) (cid : String)
    (d : fundraiseup.Donation) (hc : sync.cacheLookup w.giftCache cid = none) :
    s.findExistingGift w cid d =
      ((w.bb.gifts.filter (fun g => g.constituentID == cid)).find? (fun g =>
          if (d.IsRecurring && decide (d.RecurringID ≠ "")) = true then
            g.lookupID == d.RecurringID &&
              (blackbaud.ParseGiftOrigin g.origin).1.donationID == d.id
          else g.lookupID == d.id),
        { w with giftCache := (sync.cacheInsert w.giftCache cid (w.bb.gifts.filter (fun g => g.constituentID == cid))) },
        [.listGiftsByConstituent cid]) := by
  have hgg := getConstituentGifts_uncached s w cid hc
  cases hcond : (d.IsRecurring && decide (d.RecurringID ≠ "")) with
  | true =>
      rw [findExistingGift_recurring s w cid d hcond, hgg]
      simp [hcond]
  | false =>
      rw [findExistingGift_onetime s w cid d hcond, hgg]
      simp [hcond]

theorem processDonation_idempotent_core (s : sync.Service) (w0 W1 : sync.World)
    (d : fundraiseup.Donation) (sup : fundraiseup.Supporter) (cid : String) (created : Bool)
    (c0 : blackbaud.Constituent) (E1 : List sync.Event) (r1 : sync.DonationResult)
    (w1 : sync.World) (e1 : List sync.Event)
    (hdry : s.dryRun = false)
    (hsup : d.supporter = some sup) (he : sup.email ≠ "")
    (hfc : s.findOrCreateConstituent w0 d = (.ok (cid, created), W1, E1))
    (hW1cache : W1.giftCache = [])
    (hhead : (W1.bb.constituents.filter (fun x => sync.emailMatches x sup.email)).head? = some c0)
    (hc0 : c0.id = cid)
    (hrun1 : s.processDonation w0 d = (r1, w1, e1))
    (hcreated : r1.giftCreated = true) :
    (s.processDonation { w1 with giftCache := [] } d).1.giftSkippedExisting = true ∧
    (s.processDonation { w1 with giftCache := [] } d).1.giftID = r1.giftID ∧
    (s.processDonation { w1 with giftCache := [] } d).1.giftCreated = false ∧
    ∀ gid, sync.Event.createGift gid ∉ (s.processDonation { w1 with giftCache := [] } d).2.2 := by
  have hcL : sync.cacheLookup W1.giftCache cid = none := by
    rw [hW1cache]
    rfl
  have hfe_eq := findExistingGift_freshCache s W1 cid d hcL
  cases hfind : (W1.bb.gifts.filter (fun g => g.constituentID == cid)).find? (fun g =>
      if (d.IsRecurring && decide (d.RecurringID ≠ "")) = true then
        g.lookupID == d.RecurringID &&
          (blackbaud.ParseGiftOrigin g.origin).1.donationID == d.id
      else g.lookupID == d.id) with
  | some g =>
      exfalso
      have hskip := processDonation_of_skip s w0 d cid created g
        (by rw [hfc]) (by rw [hfc]; dsimp only; rw [hfe_eq]; dsimp only; exact hfind)
      rw [hrun1] at hskip
      have h1 := congrArg Prod.fst hskip
      dsimp only at h1
      rw [h1] at hcreated
      simp at hcreated
  | none =>
      have hgc2 : sync.cacheLookup
          (sync.cacheInsert W1.giftCache cid (W1.bb.gifts.filter (fun g => g.constituentID == cid))) cid =
          some (W1.bb.gifts.filter (fun g => g.constituentID == cid)) := by
        apply cacheLookup_insert_self
        cases hff : W1.giftCache.find? (fun p => p.1 == cid) with
        | none => rfl
        | some p =>
            rw [hW1cache] at hff
            simp at hff
      cases hm : s.mapDonationToGift d
          (s.getRecurringContext { W1 with giftCache := (sync.cacheInsert W1.giftCache cid (W1.bb.gifts.filter (fun g => g.constituentID == cid))) } cid d).1 with
      | error e =>
          exfalso
          have hmape := processDonation_of_maperror s w0 d cid created e
            (by rw [hfc]) (by rw [hfc]; dsimp only; rw [hfe_eq]; dsimp only; exact hfind)
            (by rw [hfc]; dsimp only; rw [hfe_eq]; dsimp only; exact hm)
          rw [hrun1] at hmape
          dsimp only at hmape
          rw [hmape] at hcreated
          simp at hcreated
      | ok gift =>
          have hcreateEq := processDonation_of_create s w0 d cid created gift
            (by rw [hfc]) (by rw [hfc]; dsimp only; rw [hfe_eq]; dsimp only; exact hfind)
            (by rw [hfc]; dsimp only; rw [hfe_eq]; dsimp only; exact hm)
          rw [hfc] at hcreateEq
          dsimp only at hcreateEq
          rw [hfe_eq] at hcreateEq
          dsimp only at hcreateEq
          rw [getRecurringContext_world_cached s _ cid d _ hgc2] at hcreateEq
          rw [bbCreateGift_real s _ _ hdry] at hcreateEq
          dsimp only at hcreateEq
          rw [hrun1] at hcreateEq
          have hr1 := congrArg Prod.fst hcreateEq
          have hw1 := congrArg (fun p => p.2.1) hcreateEq
          dsimp only at hr1 hw1
          have hgid : r1.giftID = sync.freshGiftID W1.bb.nextID := by rw [hr1]
          have hw1cons : ({ w1 with giftCache := [] } : sync.World).bb.constituents =
              W1.bb.constituents := by rw [hw1]
          have hw1gifts : ({ w1 with giftCache := [] } : sync.World).bb.gifts =
              W1.bb.gifts ++
                [{ { gift with constituentID := cid } with id := sync.freshGiftID W1.bb.nextID }] := by
            rw [hw1]
          have hhead2 : (({ w1 with giftCache := [] } : sync.World).bb.constituents.filter
              (fun x => sync.emailMatches x sup.email)).head? = some c0 := by
            rw [hw1cons]
            exact hhead
          have hfocc2 := findOrCreateConstituent_found s { w1 with giftCache := [] } d sup c0
            hsup he hhead2
          have hfe2 := findExistingGift_freshCache s { w1 with giftCache := [] } cid d (by rfl)
          rw [hw1gifts] at hfe2
          rw [List.filter_append] at hfe2
          have hgnewfilter : List.filter (fun g => g.constituentID == cid)
              [({ { gift with constituentID := cid } with id := sync.freshGiftID W1.bb.nextID } : blackbaud.Gift)] =
              [{ { gift with constituentID := cid } with id := sync.freshGiftID W1.bb.nextID }] := by
            simp
          rw [hgnewfilter] at hfe2
          rw [List.find?_append, hfind] at hfe2
          have hpred : (fun (g : blackbaud.Gift) =>
              if (d.IsRecurring && decide (d.RecurringID ≠ "")) = true then
                g.lookupID == d.RecurringID &&
                  (blackbaud.ParseGiftOrigin g.origin).1.donationID == d.id
              else g.lookupID == d.id)
              { { gift with constituentID := cid } with id := sync.freshGiftID W1.bb.nextID } = true := by
            have hfields := mapDonationToGift_fields s d _ gift hm
            cases hcond : (d.IsRecurring && decide (d.RecurringID ≠ "")) with
            | true =>
                obtain ⟨hl, ho⟩ := hfields.1 hcond
                simp only [hcond, if_true, reduceIte]
                show (gift.lookupID == d.RecurringID &&
                  (blackbaud.ParseGiftOrigin gift.origin).1.donationID == d.id) = true
                rw [hl, ho, parseGiftOrigin_roundtrip]
                simp
            | false =>
                have hl := hfields.2 hcond
                simp only [hcond, Bool.false_eq_true, if_false, reduceIte]
                show (gift.lookupID == d.id) = true
                rw [hl]
                simp
          have hfind2 : List.find? (fun (g : blackbaud.Gift) =>
              if (d.IsRecurring && decide (d.RecurringID ≠ "")) = true then
                g.lookupID == d.RecurringID &&
                  (blackbaud.ParseGiftOrigin g.origin).1.donationID == d.id
              else g.lookupID == d.id)
              [{ { gift with constituentID := cid } with id := sync.freshGiftID W1.bb.nextID }] =
              some { { gift with constituentID := cid } with id := sync.freshGiftID W1.bb.nextID } :=
            List.find?_cons_of_pos _ hpred
          rw [Option.none_or] at hfe2
          rw [hfind2] at hfe2
          have hpd2 := processDonation_of_skip s { w1 with giftCache := [] } d cid false
            { { gift with constituentID := cid } with id := sync.freshGiftID W1.bb.nextID }
            (by rw [hfocc2]; dsimp only; rw [hc0])
            (by rw [hfocc2]; dsimp only; rw [hfe2])
          rw [hpd2]
          refine ⟨rfl, ?_, rfl, ?_⟩
          · dsimp only
            rw [hgid]
          · intro gid
            rw [hfocc2, hfe2]
            dsimp only
            simp

/-- Claim C1 counterexample: within one run (shared gift cache), running
`processDonation` a second time on the same donation — the constituent
resolving to the same ID — creates a second gift: the second call
invokes `CreateGift` again (id "bb-gift-2") and reports a creation, not
`GiftSkippedExisting`, because `findExistingGift` reads the per-run
cache entry captured before the first gift was created. -/
theorem processDonation_second_call_same_run_counterexample :
    (sync.Service.processDonation { dryRun := false, giftDefaults := { fundID := "F", type := "Donation" } } {} { id := "don_1", amount := "50.00", createdAtDate := "2024-01-15", supporter := some { email := "a@b.c" } }).1.giftCreated = true ∧
    (sync.Service.processDonation { dryRun := false, giftDefaults := { fundID := "F", type := "Donation" } } (sync.Service.processDonation { dryRun := false, giftDefaults := { fundID := "F", type := "Donation" } } {} { id := "don_1", amount := "50.00", createdAtDate := "2024-01-15", supporter := some { email := "a@b.c" } }).2.1 { id := "don_1", amount := "50.00", createdAtDate := "2024-01-15", supporter := some { email := "a@b.c" } }).1.giftCreated = true ∧
    (sync.Service.processDonation { dryRun := false, giftDefaults := { fundID := "F", type := "Donation" } } (sync.Service.processDonation { dryRun := false, giftDefaults := { fundID := "F", type := "Donation" } } {} { id := "don_1", amount := "50.00", createdAtDate := "2024-01-15", supporter := some { email := "a@b.c" } }).2.1 { id := "don_1", amount := "50.00", createdAtDate := "2024-01-15", supporter := some { email := "a@b.c" } }).1.giftSkippedExisting = false ∧
    sync.Event.createGift "bb-gift-2" ∈
      (sync.Service.processDonation { dryRun := false, giftDefaults := { fundID := "F", type := "Donation" } } (sync.Service.processDonation { dryRun := false, giftDefaults := { fundID := "F", type := "Donation" } } {} { id := "don_1", amount := "50.00", createdAtDate := "2024-01-15", supporter := some { email := "a@b.c" } }).2.1 { id := "don_1", amount := "50.00", createdAtDate := "2024-01-15", supporter := some { email := "a@b.c" } }).2.2 := by
  refine ⟨rfl, rfl, rfl, ?_⟩
  decide

/-- Claim C1 (amended): running the pipeline a second time on the same
donation never creates a second gift, provided the second call's
gift-list observation is fresh (its run starts with an empty per-run
cache, as a later `Run` invocation does) so that it sees the gift the
first call created: the second call invokes no `CreateGift` and returns
`GiftSkippedExisting` with the first call's gift ID.  The first call
must itself run against a fresh cache and the donation's supporter must
carry an email so the constituent resolves to the same ID.  (Within one
run, with the constituent's gift list already cached before the first
creation, this fails — see the counterexample.) -/
theorem processDonation_idempotent_fresh_observation
    (s : sync.Service) (w0 : sync.World) (d : fundraiseup.Donation)
    (sup : fundraiseup.Supporter) (r1 : sync.DonationResult) (w1 : sync.World)
    (e1 : List sync.Event)
    (hdry : s.dryRun = false)
    (hsup : d.supporter = some sup) (he : sup.email ≠ "")
    (hcache : w0.giftCache = [])
    (hrun1 : s.processDonation w0 d = (r1, w1, e1))
    (hcreated : r1.giftCreated = true) :
    (s.processDonation { w1 with giftCache := [] } d).1.giftSkippedExisting = true ∧
    (s.processDonation { w1 with giftCache := [] } d).1.giftID = r1.giftID ∧
    (s.processDonation { w1 with giftCache := [] } d).1.giftCreated = false ∧
    ∀ gid, sync.Event.createGift gid ∉ (s.processDonation { w1 with giftCache := [] } d).2.2 := by
  cases hh : (w0.bb.constituents.filter (fun x => sync.emailMatches x sup.email)).head? with
  | some c =>
      have hfc := findOrCreateConstituent_found s w0 d sup c hsup he hh
      exact processDonation_idempotent_core s w0 w0 d sup c.id false c _ r1 w1 e1
        hdry hsup he hfc hcache hh rfl hrun1 hcreated
  | none =>
      have hfc := findOrCreateConstituent_miss s w0 d sup hsup he hh
      rw [bbCreateConstituent_real s w0 sup.ToDomainType hdry] at hfc
      dsimp only at hfc
      refine processDonation_idempotent_core s w0 _ d sup
        (sync.freshConstituentID w0.bb.nextID) true
        { sup.ToDomainType with id := sync.freshConstituentID w0.bb.nextID } _ r1 w1 e1
        hdry hsup he hfc ?_ ?_ rfl hrun1 hcreated
      · exact hcache
      · show ((w0.bb.constituents ++
            [{ sup.ToDomainType with id := sync.freshConstituentID w0.bb.nextID }]).filter
            (fun x => sync.emailMatches x sup.email)).head? = _
        have hnil : w0.bb.constituents.filter (fun x => sync.emailMatches x sup.email) = [] :=
          List.head?_eq_none_iff.mp hh
        rw [List.filter_append, hnil]
        simp [emailMatches_fresh sup he]

/-- Witness for the amended C1: the concrete donation "don_1" processed
twice with a cache reset between the calls is skipped the second time
with the first call's gift ID. -/
theorem processDonation_idempotent_fresh_observation_witness :
    (sync.Service.processDonation { dryRun := false, giftDefaults := { fundID := "F", type := "Donation" } } { (sync.Service.processDonation { dryRun := false, giftDefaults := { fundID := "F", type := "Donation" } } {} { id := "don_1", amount := "50.00", createdAtDate := "2024-01-15", supporter := some { email := "a@b.c" } }).2.1 with giftCache := [] } { id := "don_1", amount := "50.00", createdAtDate := "2024-01-15", supporter := some { email := "a@b.c" } }).1.giftSkippedExisting = true ∧
    (sync.Service.processDonation { dryRun := false, giftDefaults := { fundID := "F", type := "Donation" } } { (sync.Service.processDonation { dryRun := false, giftDefaults := { fundID := "F", type := "Donation" } } {} { id := "don_1", amount := "50.00", createdAtDate := "2024-01-15", supporter := some { email := "a@b.c" } }).2.1 with giftCache := [] } { id := "don_1", amount := "50.00", createdAtDate := "2024-01-15", supporter := some { email := "a@b.c" } }).1.giftID =
      (sync.Service.processDonation { dryRun := false, giftDefaults := { fundID := "F", type := "Donation" } } {} { id := "don_1", amount := "50.00", createdAtDate := "2024-01-15", supporter := some { email := "a@b.c" } }).1.giftID ∧
    (sync.Service.processDonation { dryRun := false, giftDefaults := { fundID := "F", type := "Donation" } } { (sync.Service.processDonation { dryRun := false, giftDefaults := { fundID := "F", type := "Donation" } } {} { id := "don_1", amount := "50.00", createdAtDate := "2024-01-15", supporter := some { email := "a@b.c" } }).2.1 with giftCache := [] } { id := "don_1", amount := "50.00", createdAtDate := "2024-01-15", supporter := some { email := "a@b.c" } }).1.giftCreated = false := by
  have h := processDonation_idempotent_fresh_observation
    { dryRun := false, giftDefaults := { fundID := "F", type := "Donation" } } {}
    { id := "don_1", amount := "50.00", createdAtDate := "2024-01-15", supporter := some { email := "a@b.c" } }
    { email := "a@b.c" }
    (sync.Service.processDonation { dryRun := false, giftDefaults := { fundID := "F", type := "Donation" } } {} { id := "don_1", amount := "50.00", createdAtDate := "2024-01-15", supporter := some { email := "a@b.c" } }).1
    (sync.Service.processDonation { dryRun := false, giftDefaults := { fundID := "F", type := "Donation" } } {} { id := "don_1", amount := "50.00", createdAtDate := "2024-01-15", supporter := some { email := "a@b.c" } }).2.1
    (sync.Service.processDonation { dryRun := false, giftDefaults := { fundID := "F", type := "Donation" } } {} { id := "don_1", amount := "50.00", createdAtDate := "2024-01-15", supporter := some { email := "a@b.c" } }).2.2
    rfl rfl (by decide) rfl rfl (by decide)
  exact ⟨h.1, h.2.1, h.2.2.1⟩

/-! ### Event classification for the pipeline steps -/

theorem storeWrite_free_bbCreateConstituent (s : sync.Service) (w : sync.World)
    (c : blackbaud.Constituent) :
    ∀ e ∈ (s.bbCreateConstituent w c).2.2, sync.Event.isStoreWrite e = false := by
  cases hd : s.dryRun
  · rw [bbCreateConstituent_real s w c hd]
    intro e he
    simp only [List.mem_singleton] at he
    subst he
    rfl
  · rw [bbCreateConstituent_dry s w c hd]
    intro e he
    simp only [List.mem_singleton] at he
    subst he
    rfl

theorem storeWrite_free_bbCreateGift (s : sync.Service) (w : sync.World)
    (g : blackbaud.Gift) :
    ∀ e ∈ (s.bbCreateGift w g).2.2, sync.Event.isStoreWrite e = false := by
  cases hd : s.dryRun
  · rw [bbCreateGift_real s w g hd]
    intro e he
    simp only [List.mem_singleton] at he
    subst he
    rfl
  · rw [bbCreateGift_dry s w g hd]
    intro e he
    simp only [List.mem_singleton] at he
    subst he
    rfl

theorem storeWrite_free_getConstituentGifts (s : sync.Service) (w : sync.World)
    (cid : String) :
    ∀ e ∈ (s.getConstituentGifts w cid).2.2, sync.Event.isStoreWrite e = false := by
  cases hc : sync.cacheLookup w.giftCache cid with
  | some gs =>
      rw [getConstituentGifts_cached s w cid gs hc]
      intro e he
      simp at he
  | none =>
      rw [getConstituentGifts_uncached s w cid hc]
      intro e he
      simp only [List.mem_singleton] at he
      subst he
      rfl

theorem findExistingGift_evs (s : sync.Service) (w : sync.World) (cid : String)
    (d : fundraiseup.Donation) :
    (s.findExistingGift w cid d).2.2 = (s.getConstituentGifts w cid).2.2 := by
  unfold sync.Service.findExistingGift
  rcases hg : s.getConstituentGifts w cid with ⟨gs, w1, evs⟩
  dsimp only
  split <;> rfl

theorem storeWrite_free_findExistingGift (s : sync.Service) (w : sync.World)
    (cid : String) (d : fundraiseup.Donation) :
    ∀ e ∈ (s.findExistingGift w cid d).2.2, sync.Event.isStoreWrite e = false := by
  rw [findExistingGift_evs]
  exact storeWrite_free_getConstituentGifts s w cid

theorem storeWrite_free_findOrCreateConstituent (s : sync.Service) (w : sync.World)
    (d : fundraiseup.Donation) :
    ∀ e ∈ (s.findOrCreateConstituent w d).2.2, sync.Event.isStoreWrite e = false := by
  cases hsup : d.supporter with
  | none =>
      rw [findOrCreateConstituent_nosupporter s w d hsup]
      intro e he
      simp at he
  | some sup =>
      by_cases he' : sup.email = ""
      · unfold sync.Service.findOrCreateConstituent
        rw [hsup]
        simp only [he', ne_eq, not_true_eq_false, if_false, reduceIte]
        rcases hc : s.bbCreateConstituent w sup.ToDomainType with ⟨cid, w2, evs2⟩
        dsimp only
        intro e hee
        simp only [List.nil_append] at hee
        have h := storeWrite_free_bbCreateConstituent s w sup.ToDomainType
        rw [hc] at h
        exact h e hee
      · cases hh : (w.bb.constituents.filter (fun x => sync.emailMatches x sup.email)).head? with
        | some c =>
            rw [findOrCreateConstituent_found s w d sup c hsup he' hh]
            intro e hee
            simp only [List.mem_singleton] at hee
            subst hee
            rfl
        | none =>
            rw [findOrCreateConstituent_miss s w d sup hsup he' hh]
            intro e hee
            rcases List.mem_append.mp hee with h1 | h2
            · simp only [List.mem_singleton] at h1
              subst h1
              rfl
            · exact storeWrite_free_bbCreateConstituent s w sup.ToDomainType e h2

theorem storeWrite_free_getRecurringContext (s : sync.Service) (w : sync.World)
    (cid : String) (d : fundraiseup.Donation) :
    ∀ e ∈ (s.getRecurringContext w cid d).2.2, sync.Event.isStoreWrite e = false := by
  cases hb : (d.IsRecurring && decide (d.RecurringID ≠ "")) with
  | false =>
      rw [getRecurringContext_nonrecurring s w cid d hb]
      intro e he
      simp at he
  | true =>
      by_cases hseq : max d.InstallmentNumber 1 = 1
      · rw [getRecurringContext_seqOne s w cid d hb hseq]
        intro e he
        simp at he
      · rw [getRecurringContext_later s w cid d hb hseq]
        intro e he
        dsimp only at he
        have h3 : (s.findFirstRecurringGift w cid d.RecurringID).2.2 =
            (s.getConstituentGifts w cid).2.2 := by
          rw [findFirstRecurringGift_eq]
        rw [h3] at he
        exact storeWrite_free_getConstituentGifts s w cid e he

theorem storeWrite_free_processDonation (s : sync.Service) (w : sync.World)
    (d : fundraiseup.Donation) :
    ∀ e ∈ (s.processDonation w d).2.2, sync.Event.isStoreWrite e = false := by
  unfold sync.Service.processDonation
  rcases hfc : s.findOrCreateConstituent w d with ⟨res, w1, evs1⟩
  have H1 : ∀ e ∈ evs1, sync.Event.isStoreWrite e = false := by
    have h := storeWrite_free_findOrCreateConstituent s w d
    rw [hfc] at h
    exact h
  dsimp only
  rcases res with err | ⟨cid, created⟩
  · exact H1
  · dsimp only
    rcases hfe : s.findExistingGift w1 cid d with ⟨og, w2, evs2⟩
    have H2 : ∀ e ∈ evs2, sync.Event.isStoreWrite e = false := by
      have h := storeWrite_free_findExistingGift s w1 cid d
      rw [hfe] at h
      exact h
    dsimp only
    rcases og with _ | g
    · dsimp only
      rcases hrc : s.getRecurringContext w2 cid d with ⟨recCtx, w3, evs3⟩
      have H3 : ∀ e ∈ evs3, sync.Event.isStoreWrite e = false := by
        have h := storeWrite_free_getRecurringContext s w2 cid d
        rw [hrc] at h
        exact h
      dsimp only
      rcases hmap : s.mapDonationToGift d recCtx with e0 | gift
      · intro e he
        simp only [List.mem_append] at he
        rcases he with (h | h) | h
        · exact H1 e h
        · exact H2 e h
        · exact H3 e h
      · dsimp only
        rcases hcg : s.bbCreateGift w3 { gift with constituentID := cid } with ⟨gid, w4, evs4⟩
        have H4 : ∀ e ∈ evs4, sync.Event.isStoreWrite e = false := by
          have h := storeWrite_free_bbCreateGift s w3 { gift with constituentID := cid }
          rw [hcg] at h
          exact h
        dsimp only
        intro e he
        simp only [List.mem_append] at he
        rcases he with ((h | h) | h) | h
        · exact H1 e h
        · exact H2 e h
        · exact H3 e h
        · exact H4 e h
    · intro e he
      simp only [List.mem_append] at he
      rcases he with h | h
      · exact H1 e h
      · exact H2 e h

theorem processAndRecord_eq (s : sync.Service) (w : sync.World) (r : sync.Result)
    (d : fundraiseup.Donation) :
    s.processAndRecord w r d =
      (sync.recordOutcome r (s.processDonation w d).1,
        (s.processDonation w d).2.1, (s.processDonation w d).2.2) := by
  unfold sync.Service.processAndRecord
  rcases hp : s.processDonation w d with ⟨dr, w1, evs⟩
  rfl

/-! ### Fresh-run shape equations -/

theorem runFresh_eq (s : sync.Service) (now : Int)
    (fetchSince : Int → List fundraiseup.Donation) (w : sync.World) (r : sync.Result) :
    s.runFresh now fetchSince w r =
      (if (fetchSince (s.freshSince now w)).isEmpty then (r, w, [sync.Event.fetchDonations])
       else
         let donations := s.truncateBatch (fetchSince (s.freshSince now w))
         let pendingIDs := donations.map (fun d => d.id)
         let (w1, evs1) := if s.dryRun then (w, []) else sync.storeSetPendingIDs w pendingIDs
         let (result1, w2, evs2) := s.processLoop w1 r donations
         let (w3, evs3) := if s.dryRun then (w2, []) else sync.storeSetLastSyncTime w2 now
         (result1, w3, [sync.Event.fetchDonations] ++ evs1 ++ evs2 ++ evs3)) := by
  unfold sync.Service.runFresh sync.Service.freshSince sync.Service.truncateBatch
  rfl

theorem runFresh_empty (s : sync.Service) (now : Int)
    (fetchSince : Int → List fundraiseup.Donation) (w : sync.World) (r : sync.Result)
    (hemp : (fetchSince (s.freshSince now w)).isEmpty = true) :
    s.runFresh now fetchSince w r = (r, w, [sync.Event.fetchDonations]) := by
  rw [runFresh_eq, hemp]
  simp only [if_true, reduceIte]

theorem runFresh_nonempty_real (s : sync.Service) (now : Int)
    (fetchSince : Int → List fundraiseup.Donation) (w : sync.World) (r : sync.Result)
    (hdry : s.dryRun = false)
    (hne : (fetchSince (s.freshSince now w)).isEmpty = false) :
    s.runFresh now fetchSince w r =
      ((s.processLoop { w with store := { w.store with
            pendingIDs := (s.truncateBatch (fetchSince (s.freshSince now w))).map (fun d => d.id) } }
          r (s.truncateBatch (fetchSince (s.freshSince now w)))).1,
       { (s.processLoop { w with store := { w.store with
             pendingIDs := (s.truncateBatch (fetchSince (s.freshSince now w))).map (fun d => d.id) } }
           r (s.truncateBatch (fetchSince (s.freshSince now w)))).2.1 with
         store := { (s.processLoop { w with store := { w.store with
               pendingIDs := (s.truncateBatch (fetchSince (s.freshSince now w))).map (fun d => d.id) } }
             r (s.truncateBatch (fetchSince (s.freshSince now w)))).2.1.store with
           lastSyncTime := now } },
       sync.Event.fetchDonations ::
         sync.Event.setPendingDonationIDs
           ((s.truncateBatch (fetchSince (s.freshSince now w))).map (fun d => d.id)) ::
         ((s.processLoop { w with store := { w.store with
              pendingIDs := (s.truncateBatch (fetchSince (s.freshSince now w))).map (fun d => d.id) } }
            r (s.truncateBatch (fetchSince (s.freshSince now w)))).2.2 ++
          [sync.Event.setLastSyncTime now])) := by
  rw [runFresh_eq, hne, hdry]
  simp only [Bool.false_eq_true, if_false, reduceIte]
  dsimp only [sync.storeSetPendingIDs, sync.storeSetLastSyncTime]
  rcases hpl : s.processLoop
      { w with store := { w.store with
          pendingIDs := (s.truncateBatch (fetchSince (s.freshSince now w))).map (fun d => d.id) } }
      r (s.truncateBatch (fetchSince (s.freshSince now w))) with ⟨r1, w2, evs2⟩
  dsimp only
  simp

theorem runFresh_nonempty_dry (s : sync.Service) (now : Int)
    (fetchSince : Int → List fundraiseup.Donation) (w : sync.World) (r : sync.Result)
    (hdry : s.dryRun = true)
    (hne : (fetchSince (s.freshSince now w)).isEmpty = false) :
    s.runFresh now fetchSince w r =
      ((s.processLoop w r (s.truncateBatch (fetchSince (s.freshSince now w)))).1,
       (s.processLoop w r (s.truncateBatch (fetchSince (s.freshSince now w)))).2.1,
       sync.Event.fetchDonations ::
         (s.processLoop w r (s.truncateBatch (fetchSince (s.freshSince now w)))).2.2) := by
  rw [runFresh_eq, hne, hdry]
  simp only [Bool.false_eq_true, if_false, if_true, reduceIte]
  rcases hpl : s.processLoop w r (s.truncateBatch (fetchSince (s.freshSince now w)))
    with ⟨r1, w2, evs2⟩
  dsimp only
  simp

/-! ### The fresh-loop event trace -/

theorem processLoop_trace (s : sync.Service) (hdry : s.dryRun = false) :
    ∀ (ds : List fundraiseup.Donation) (w : sync.World) (r r' : sync.Result)
      (w' : sync.World) (evs : List sync.Event),
      s.processLoop w r ds = (r', w', evs) →
      sync.LoopTrace (ds.map (fun d => d.id)) evs := by
  intro ds
  induction ds with
  | nil =>
      intro w r r' w' evs hpl
      unfold sync.Service.processLoop at hpl
      simp only [Prod.mk.injEq] at hpl
      obtain ⟨-, -, hevs⟩ := hpl
      rw [← hevs]
      exact sync.LoopTrace.nil
  | cons d rest ih =>
      intro w r r' w' evs hpl
      unfold sync.Service.processLoop at hpl
      rcases hpr : s.processAndRecord w r d with ⟨r1, w1, evs1⟩
      rw [hpr] at hpl
      dsimp only at hpl
      rw [hdry] at hpl
      simp only [Bool.false_eq_true, if_false, reduceIte] at hpl
      dsimp only [sync.storeRemovePendingID] at hpl
      rcases hpl2 : s.processLoop
          { w1 with store := { w1.store with
              pendingIDs := w1.store.pendingIDs.filter (fun x => x != d.id) } } r1 rest
        with ⟨r2, w3, evs3⟩
      rw [hpl2] at hpl
      dsimp only at hpl
      simp only [Prod.mk.injEq] at hpl
      obtain ⟨-, -, hevs⟩ := hpl
      rw [← hevs]
      have hshape : evs1 ++ [sync.Event.removePendingDonationID d.id] ++ evs3 =
          evs1 ++ sync.Event.removePendingDonationID d.id :: evs3 := by simp
      rw [hshape]
      refine sync.LoopTrace.cons d.id evs1 _ evs3 ?_ (ih _ _ _ _ _ hpl2)
      intro e he
      have hpr' := hpr
      rw [processAndRecord_eq] at hpr'
      simp only [Prod.mk.injEq] at hpr'
      obtain ⟨-, -, hevs1⟩ := hpr'
      rw [← hevs1] at he
      exact storeWrite_free_processDonation s w d e he

/-! ## Claim C7 (fresh-run checkpoint ordering) -/

/-- Claim C7: in a fresh non-dry-run batch with a non-empty fetch, the
run's event trace opens with the donation fetch followed immediately by
`SetPendingDonationIDs` with the truncated batch's IDs — before any
donation is processed; then, donation by donation in order, that
donation's processing events (none of which touch the checkpoint store)
followed by the removal of its ID from the pending checkpoint before the
next donation's processing begins, whether the donation succeeded or
failed; and `SetLastSyncTime now` is the final event, emitted only after
every donation of the batch has been processed. -/
theorem runFresh_checkpoint_ordering (s : sync.Service) (now : Int)
    (fetchSince : Int → List fundraiseup.Donation) (w : sync.World)
    (r0 result : sync.Result) (w' : sync.World) (evs : List sync.Event)
    (hdry : s.dryRun = false)
    (hne : (fetchSince (s.freshSince now w)).isEmpty = false)
    (hrun : s.runFresh now fetchSince w r0 = (result, w', evs)) :
    ∃ loopEvs,
      evs = sync.Event.fetchDonations ::
          sync.Event.setPendingDonationIDs
            ((s.truncateBatch (fetchSince (s.freshSince now w))).map (fun d => d.id)) ::
          (loopEvs ++ [sync.Event.setLastSyncTime now]) ∧
      sync.LoopTrace
        ((s.truncateBatch (fetchSince (s.freshSince now w))).map (fun d => d.id)) loopEvs := by
  rw [runFresh_nonempty_real s now fetchSince w r0 hdry hne] at hrun
  rcases hpl : s.processLoop
      { w with store := { w.store with
          pendingIDs := (s.truncateBatch (fetchSince (s.freshSince now w))).map (fun d => d.id) } }
      r0 (s.truncateBatch (fetchSince (s.freshSince now w))) with ⟨r1, w2, evs2⟩
  rw [hpl] at hrun
  dsimp only at hrun
  simp only [Prod.mk.injEq] at hrun
  obtain ⟨-, -, hevs⟩ := hrun
  exact ⟨evs2, hevs.symm, processLoop_trace s hdry _ _ _ _ _ _ hpl⟩

/-- Witness for C7: the concrete single-donation fresh run emits exactly
the fetch, the checkpoint write of `["don_1"]`, the donation's
processing events, the removal of `"don_1"`, and the final last-sync
advance, in that order. -/
theorem runFresh_checkpoint_ordering_witness :
    ∃ loopEvs,
      (sync.Service.runFresh { dryRun := false, giftDefaults := { fundID := "F", type := "Donation" }, maxDonationsPerRun := 300 } 100 (fun _ => [{ id := "don_1", amount := "50.00", createdAtDate := "2024-01-15", supporter := some { email := "a@b.c" } }]) {} {}).2.2 =
        sync.Event.fetchDonations ::
          sync.Event.setPendingDonationIDs
            ((sync.Service.truncateBatch { dryRun := false, giftDefaults := { fundID := "F", type := "Donation" }, maxDonationsPerRun := 300 } ((fun _ => [{ id := "don_1", amount := "50.00", createdAtDate := "2024-01-15", supporter := some { email := "a@b.c" } }]) (sync.Service.freshSince { dryRun := false, giftDefaults := { fundID := "F", type := "Donation" }, maxDonationsPerRun := 300 } 100 {}))).map (fun d => d.id)) ::
          (loopEvs ++ [sync.Event.setLastSyncTime 100]) ∧
      sync.LoopTrace
        ((sync.Service.truncateBatch { dryRun := false, giftDefaults := { fundID := "F", type := "Donation" }, maxDonationsPerRun := 300 } ((fun _ => [{ id := "don_1", amount := "50.00", createdAtDate := "2024-01-15", supporter := some { email := "a@b.c" } }]) (sync.Service.freshSince { dryRun := false, giftDefaults := { fundID := "F", type := "Donation" }, maxDonationsPerRun := 300 } 100 {}))).map (fun d => d.id)) loopEvs :=
  runFresh_checkpoint_ordering
    { dryRun := false, giftDefaults := { fundID := "F", type := "Donation" }, maxDonationsPerRun := 300 }
    100 (fun _ => [{ id := "don_1", amount := "50.00", createdAtDate := "2024-01-15", supporter := some { email := "a@b.c" } }]) {} {}
    (sync.Service.runFresh { dryRun := false, giftDefaults := { fundID := "F", type := "Donation" }, maxDonationsPerRun := 300 } 100 (fun _ => [{ id := "don_1", amount := "50.00", createdAtDate := "2024-01-15", supporter := some { email := "a@b.c" } }]) {} {}).1
    (sync.Service.runFresh { dryRun := false, giftDefaults := { fundID := "F", type := "Donation" }, maxDonationsPerRun := 300 } 100 (fun _ => [{ id := "don_1", amount := "50.00", createdAtDate := "2024-01-15", supporter := some { email := "a@b.c" } }]) {} {}).2.1
    (sync.Service.runFresh { dryRun := false, giftDefaults := { fundID := "F", type := "Donation" }, maxDonationsPerRun := 300 } 100 (fun _ => [{ id := "don_1", amount := "50.00", createdAtDate := "2024-01-15", supporter := some { email := "a@b.c" } }]) {} {}).2.2
    rfl (by decide) rfl

/-! ### Pending-checkpoint size bound -/

theorem truncateBatch_length_le (s : sync.Service) (hpos : 0 < s.maxDonationsPerRun)
    (ds : List fundraiseup.Donation) :
    ((s.truncateBatch ds).length : Int) ≤ s.maxDonationsPerRun := by
  unfold sync.Service.truncateBatch
  split
  · simp only [List.length_take]
    omega
  · rename_i hc
    simp only [Bool.and_eq_true, decide_eq_true_eq, not_and, gt_iff_lt, not_lt] at hc
    exact hc hpos

theorem processLoop_no_setPendingIDs (s : sync.Service) :
    ∀ (ds : List fundraiseup.Donation) (w : sync.World) (r : sync.Result)
      (ids : List String),
      sync.Event.setPendingDonationIDs ids ∉ (s.processLoop w r ds).2.2 := by
  intro ds
  induction ds with
  | nil =>
      intro w r ids h
      simp [sync.Service.processLoop] at h
  | cons d rest ih =>
      intro w r ids h
      unfold sync.Service.processLoop at h
      rcases hpr : s.processAndRecord w r d with ⟨r1, w1, evs1⟩
      rw [hpr] at h
      dsimp only at h
      have hevs1 : ∀ e ∈ evs1, sync.Event.isStoreWrite e = false := by
        have hpr' := hpr
        rw [processAndRecord_eq] at hpr'
        simp only [Prod.mk.injEq] at hpr'
        obtain ⟨-, -, he1⟩ := hpr'
        rw [← he1]
        exact storeWrite_free_processDonation s w d
      cases hd : s.dryRun
      · rw [hd] at h
        simp only [Bool.false_eq_true, if_false, reduceIte] at h
        dsimp only [sync.storeRemovePendingID] at h
        rcases hpl : s.processLoop
            { w1 with store := { w1.store with
                pendingIDs := w1.store.pendingIDs.filter (fun x => x != d.id) } } r1 rest
          with ⟨r2, w3, evs3⟩
        rw [hpl] at h
        dsimp only at h
        simp only [List.mem_append, List.mem_singleton] at h
        rcases h with (h | h) | h
        · have := hevs1 _ h
          simp [sync.Event.isStoreWrite] at this
        · exact sync.Event.noConfusion h
        · have h2 := ih { w1 with store := { w1.store with
              pendingIDs := w1.store.pendingIDs.filter (fun x => x != d.id) } } r1 ids
          rw [hpl] at h2
          exact h2 h
      · rw [hd] at h
        simp only [if_true, reduceIte] at h
        rcases hpl : s.processLoop w1 r1 rest with ⟨r2, w3, evs3⟩
        rw [hpl] at h
        dsimp only at h
        simp only [List.append_nil, List.mem_append] at h
        rcases h with h | h
        · have := hevs1 _ h
          simp [sync.Event.isStoreWrite] at this
        · have h2 := ih w1 r1 ids
          rw [hpl] at h2
          exact h2 h

theorem resumeLoop_no_setPendingIDs (s : sync.Service)
    (fetchByID : String → Option fundraiseup.Donation) :
    ∀ (pids : List String) (w : sync.World) (r : sync.Result) (ids : List String),
      sync.Event.setPendingDonationIDs ids ∉ (s.resumeLoop fetchByID w r pids).2.2 := by
  intro pids
  induction pids with
  | nil =>
      intro w r ids h
      simp [sync.Service.resumeLoop] at h
  | cons i rest ih =>
      intro w r ids h
      unfold sync.Service.resumeLoop at h
      cases hf : fetchByID i with
      | none =>
          rw [hf] at h
          dsimp only at h
          cases hd : s.dryRun
          · rw [hd] at h
            simp only [Bool.false_eq_true, if_false, reduceIte] at h
            dsimp only [sync.storeRemovePendingID] at h
            rcases hpl : s.resumeLoop fetchByID
                { w with store := { w.store with
                    pendingIDs := w.store.pendingIDs.filter (fun x => x != i) } }
                { r with errors := r.errors ++ ["fetching donation " ++ i] } rest
              with ⟨r2, w2, evs2⟩
            rw [hpl] at h
            dsimp only at h
            simp only [List.cons_append, List.nil_append, List.append_nil, List.mem_cons,
              List.mem_append, List.mem_singleton, List.not_mem_nil, false_or, or_false] at h
            rcases h with h | h | h
            · exact sync.Event.noConfusion h
            · exact sync.Event.noConfusion h
            · have h2 := ih { w with store := { w.store with
                  pendingIDs := w.store.pendingIDs.filter (fun x => x != i) } }
                { r with errors := r.errors ++ ["fetching donation " ++ i] } ids
              rw [hpl] at h2
              exact h2 h
          · rw [hd] at h
            simp only [if_true, reduceIte] at h
            rcases hpl : s.resumeLoop fetchByID w
                { r with errors := r.errors ++ ["fetching donation " ++ i] } rest
              with ⟨r2, w2, evs2⟩
            rw [hpl] at h
            dsimp only at h
            simp only [List.cons_append, List.nil_append, List.append_nil, List.mem_cons,
              List.mem_append, List.mem_singleton, List.not_mem_nil, false_or, or_false] at h
            rcases h with h | h
            · exact sync.Event.noConfusion h
            · have h2 := ih w { r with errors := r.errors ++ ["fetching donation " ++ i] } ids
              rw [hpl] at h2
              exact h2 h
      | some donation =>
          rw [hf] at h
          dsimp only at h
          rcases hpr : s.processAndRecord w r donation with ⟨r1, w1, evs1⟩
          rw [hpr] at h
          dsimp only at h
          have hevs1 : ∀ e ∈ evs1, sync.Event.isStoreWrite e = false := by
            have hpr' := hpr
            rw [processAndRecord_eq] at hpr'
            simp only [Prod.mk.injEq] at hpr'
            obtain ⟨-, -, he1⟩ := hpr'
            rw [← he1]
            exact storeWrite_free_processDonation s w donation
          cases hd : s.dryRun
          · rw [hd] at h
            simp only [Bool.false_eq_true, if_false, reduceIte] at h
            dsimp only [sync.storeRemovePendingID] at h
            rcases hpl : s.resumeLoop fetchByID
                { w1 with store := { w1.store with
                    pendingIDs := w1.store.pendingIDs.filter (fun x => x != i) } } r1 rest
              with ⟨r2, w2, evs2⟩
            rw [hpl] at h
            dsimp only at h
            simp only [List.cons_append, List.nil_append, List.append_nil, List.mem_cons,
              List.mem_append, List.mem_singleton, List.not_mem_nil, false_or, or_false] at h
            rcases h with h | ((h | h) | h)
            · exact sync.Event.noConfusion h
            · have := hevs1 _ h
              simp [sync.Event.isStoreWrite] at this
            · exact sync.Event.noConfusion h
            · have h2 := ih { w1 with store := { w1.store with
                  pendingIDs := w1.store.pendingIDs.filter (fun x => x != i) } } r1 ids
              rw [hpl] at h2
              exact h2 h
          · rw [hd] at h
            simp only [if_true, reduceIte] at h
            rcases hpl : s.resumeLoop fetchByID w1 r1 rest with ⟨r2, w2, evs2⟩
            rw [hpl] at h
            dsimp only at h
            simp only [List.cons_append, List.nil_append, List.append_nil, List.mem_cons,
              List.mem_append, List.mem_singleton, List.not_mem_nil, false_or, or_false] at h
            rcases h with h | (h | h)
            · exact sync.Event.noConfusion h
            · have := hevs1 _ h
              simp [sync.Event.isStoreWrite] at this
            · have h2 := ih w1 r1 ids
              rw [hpl] at h2
              exact h2 h

theorem runResume_no_setPendingIDs (s : sync.Service) (now : Int)
    (fetchByID : String → Option fundraiseup.Donation) (w : sync.World)
    (r : sync.Result) (pids : List String) (ids : List String) :
    sync.Event.setPendingDonationIDs ids ∉ (s.runResume now fetchByID w r pids).2.2 := by
  intro h
  unfold sync.Service.runResume at h
  rcases hrl : s.resumeLoop fetchByID w r pids with ⟨r1, w1, evs1⟩
  rw [hrl] at h
  dsimp only at h
  cases hd : s.dryRun
  · rw [hd] at h
    simp only [Bool.false_eq_true, if_false, reduceIte] at h
    dsimp only [sync.storeSetLastSyncTime] at h
    simp only [List.mem_append, List.mem_singleton] at h
    rcases h with h | h
    · have h2 := resumeLoop_no_setPendingIDs s fetchByID pids w r ids
      rw [hrl] at h2
      exact h2 h
    · exact sync.Event.noConfusion h
  · rw [hd] at h
    simp only [if_true, reduceIte] at h
    simp only [List.append_nil] at h
    have h2 := resumeLoop_no_setPendingIDs s fetchByID pids w r ids
    rw [hrl] at h2
    exact h2 h

/-! ## Claim C8 (pending checkpoint never exceeds the batch maximum) -/

theorem run_setPendingIDs_mem_bound (s : sync.Service) (hpos : 0 < s.maxDonationsPerRun)
    (now : Int) (fetchSince : Int → List fundraiseup.Donation)
    (fetchByID : String → Option fundraiseup.Donation) (w : sync.World)
    (ids : List String)
    (hmem : sync.Event.setPendingDonationIDs ids ∈ (s.Run now fetchSince fetchByID w).2.2) :
    (ids.length : Int) ≤ s.maxDonationsPerRun := by
  unfold sync.Service.Run at hmem
  dsimp only at hmem
  cases hpend : w.store.pendingIDs.isEmpty
  · rw [hpend] at hmem
    simp only [Bool.false_eq_true, if_false, reduceIte] at hmem
    exact absurd hmem
      (runResume_no_setPendingIDs s now fetchByID { w with giftCache := [] }
        { dryRun := s.dryRun } w.store.pendingIDs ids)
  · rw [hpend] at hmem
    simp only [if_true, reduceIte] at hmem
    cases hemp : (fetchSince (s.freshSince now { w with giftCache := [] })).isEmpty
    · cases hd : s.dryRun
      · rw [runFresh_nonempty_real s now fetchSince { w with giftCache := [] }
            { dryRun := s.dryRun } hd hemp] at hmem
        rcases hpl : s.processLoop
            { { w with giftCache := ([] : List (String × List blackbaud.Gift)) } with
              store := { ({ w with giftCache := ([] : List (String × List blackbaud.Gift)) } : sync.World).store with
                pendingIDs := (s.truncateBatch (fetchSince (s.freshSince now { w with giftCache := [] }))).map (fun d => d.id) } }
            { dryRun := s.dryRun }
            (s.truncateBatch (fetchSince (s.freshSince now { w with giftCache := [] })))
          with ⟨r1, w2, evs2⟩
        rw [hpl] at hmem
        dsimp only at hmem
        simp only [List.mem_cons, List.mem_append, List.mem_singleton,
          List.not_mem_nil, or_false] at hmem
        rcases hmem with h | h | h | h
        · exact sync.Event.noConfusion h
        · injection h with h2
          rw [h2]
          simp only [List.length_map]
          exact truncateBatch_length_le s hpos _
        · have h2 := processLoop_no_setPendingIDs s
            (s.truncateBatch (fetchSince (s.freshSince now { w with giftCache := [] })))
            { { w with giftCache := ([] : List (String × List blackbaud.Gift)) } with
              store := { ({ w with giftCache := ([] : List (String × List blackbaud.Gift)) } : sync.World).store with
                pendingIDs := (s.truncateBatch (fetchSince (s.freshSince now { w with giftCache := [] }))).map (fun d => d.id) } }
            { dryRun := s.dryRun } ids
          rw [hpl] at h2
          exact absurd h h2
        · exact sync.Event.noConfusion h
      · rw [runFresh_nonempty_dry s now fetchSince { w with giftCache := [] }
            { dryRun := s.dryRun } hd hemp] at hmem
        rcases hpl : s.processLoop { w with giftCache := ([] : List (String × List blackbaud.Gift)) }
            { dryRun := s.dryRun }
            (s.truncateBatch (fetchSince (s.freshSince now { w with giftCache := [] })))
          with ⟨r1, w2, evs2⟩
        rw [hpl] at hmem
        dsimp only at hmem
        simp only [List.mem_cons] at hmem
        rcases hmem with h | h
        · exact sync.Event.noConfusion h
        · have h2 := processLoop_no_setPendingIDs s
            (s.truncateBatch (fetchSince (s.freshSince now { w with giftCache := [] })))
            { w with giftCache := ([] : List (String × List blackbaud.Gift)) }
            { dryRun := s.dryRun } ids
          rw [hpl] at h2
          exact absurd h h2
    · rw [runFresh_empty s now fetchSince { w with giftCache := [] }
          { dryRun := s.dryRun } hemp] at hmem
      simp only [List.mem_singleton] at hmem
      exact sync.Event.noConfusion hmem

/-- Claim C8: a service built by `New` has a positive per-run maximum
(the default 300 when the configured value is unset or non-positive),
and a run never calls `SetPendingDonationIDs` with more IDs than that
maximum: the only such call persists the IDs of the fetched donation
list after truncation to the first max-batch-size entries. -/
theorem run_setPendingIDs_bounded (cfg : sync.Config) (s : sync.Service)
    (hnew : sync.New cfg = Except.ok s) :
    0 < s.maxDonationsPerRun ∧
    (cfg.maxDonationsPerRun ≤ 0 → s.maxDonationsPerRun = sync.defaultMaxDonationsPerRun) ∧
    ∀ (now : Int) (fetchSince : Int → List fundraiseup.Donation)
      (fetchByID : String → Option fundraiseup.Donation) (w : sync.World)
      (ids : List String),
      sync.Event.setPendingDonationIDs ids ∈ (s.Run now fetchSince fetchByID w).2.2 →
      (ids.length : Int) ≤ s.maxDonationsPerRun := by
  unfold sync.New at hnew
  cases hv : cfg.validate.isEmpty
  · rw [hv] at hnew
    simp at hnew
  · rw [hv] at hnew
    simp only [Bool.not_true, Bool.false_eq_true, if_false, reduceIte] at hnew
    injection hnew with hs
    subst hs
    have hpos : (0 : Int) <
        (if cfg.maxDonationsPerRun ≤ 0 then sync.defaultMaxDonationsPerRun
         else cfg.maxDonationsPerRun) := by
      split
      · decide
      · omega
    refine ⟨hpos, fun hle => ?_, ?_⟩
    · dsimp only
      rw [if_pos hle]
    · intro now fetchSince fetchByID w ids hmem
      exact run_setPendingIDs_mem_bound _ hpos now fetchSince fetchByID w ids hmem

/-- Witness for C8: the service built from a valid default configuration
has the default maximum 300, and the pending checkpoint written by the
concrete single-donation run respects it. -/
theorem run_setPendingIDs_bounded_witness :
    0 < (sync.Service.mk false { fundID := "F", type := "Donation" } 300 none).maxDonationsPerRun ∧
    ((["don_1"] : List String).length : Int) ≤
      (sync.Service.mk false { fundID := "F", type := "Donation" } 300 none).maxDonationsPerRun :=
  ⟨(run_setPendingIDs_bounded
      { blackbaudPresent := true, fundraiseupPresent := true,
        giftDefaults := { fundID := "F", type := "Donation" }, stateStorePresent := true }
      (sync.Service.mk false { fundID := "F", type := "Donation" } 300 none) rfl).1,
   (run_setPendingIDs_bounded
      { blackbaudPresent := true, fundraiseupPresent := true,
        giftDefaults := { fundID := "F", type := "Donation" }, stateStorePresent := true }
      (sync.Service.mk false { fundID := "F", type := "Donation" } 300 none) rfl).2.2
     100 (fun _ => [{ id := "don_1", amount := "50.00", createdAtDate := "2024-01-15", supporter := some { email := "a@b.c" } }])
     (fun _ => none) {} ["don_1"] (by decide)⟩

/-! ### Forward creation lemma for the per-donation pipeline -/

theorem freshGiftID_ne_empty (n : Nat) : sync.freshGiftID n ≠ "" := by
  unfold sync.freshGiftID
  intro h
  have h2 := congrArg String.data h
  rw [String.data_append] at h2
  have h3 := List.append_eq_nil.mp h2
  exact absurd h3.1 (by decide)

theorem processDonation_creates (s : sync.Service) (w W1 : sync.World)
    (d : fundraiseup.Donation) (cid : String) (created : Bool) (gift : blackbaud.Gift)
    (E1 : List sync.Event)
    (hdry : s.dryRun = false)
    (hfc : s.findOrCreateConstituent w d = (.ok (cid, created), W1, E1))
    (hW1cache : W1.giftCache = [])
    (hfind : (W1.bb.gifts.filter (fun g => g.constituentID == cid)).find? (fun g =>
        if (d.IsRecurring && decide (d.RecurringID ≠ "")) = true then
          g.lookupID == d.RecurringID &&
            (blackbaud.ParseGiftOrigin g.origin).1.donationID == d.id
        else g.lookupID == d.id) = none)
    (hmap : s.mapDonationToGift d
        (s.getRecurringContext
          { W1 with giftCache := (sync.cacheInsert W1.giftCache cid
              (W1.bb.gifts.filter (fun g => g.constituentID == cid))) }
          cid d).1 = .ok gift) :
    (s.processDonation w d).1 =
      { donationID := d.id, constituentCreated := created,
        giftID := sync.freshGiftID W1.bb.nextID, giftCreated := true } ∧
    (s.processDonation w d).2.1.bb.constituents = W1.bb.constituents ∧
    (s.processDonation w d).2.1.bb.gifts =
      W1.bb.gifts ++
        [{ { gift with constituentID := cid } with id := sync.freshGiftID W1.bb.nextID }] ∧
    (s.processDonation w d).2.1.bb.nextID = W1.bb.nextID + 1 := by
  have hcL : sync.cacheLookup W1.giftCache cid = none := by
    rw [hW1cache]
    rfl
  have hfe_eq := findExistingGift_freshCache s W1 cid d hcL
  have hgc2 : sync.cacheLookup
      (sync.cacheInsert W1.giftCache cid (W1.bb.gifts.filter (fun g => g.constituentID == cid))) cid =
      some (W1.bb.gifts.filter (fun g => g.constituentID == cid)) := by
    apply cacheLookup_insert_self
    rw [hW1cache]
    rfl
  have hcreateEq := processDonation_of_create s w d cid created gift
    (by rw [hfc]) (by rw [hfc]; dsimp only; rw [hfe_eq]; dsimp only; exact hfind)
    (by rw [hfc]; dsimp only; rw [hfe_eq]; dsimp only; exact hmap)
  rw [hfc] at hcreateEq
  dsimp only at hcreateEq
  rw [hfe_eq] at hcreateEq
  dsimp only at hcreateEq
  rw [getRecurringContext_world_cached s _ cid d _ hgc2] at hcreateEq
  rw [bbCreateGift_real s _ _ hdry] at hcreateEq
  dsimp only at hcreateEq
  rw [hcreateEq]
  exact ⟨rfl, rfl, rfl, rfl⟩

/-! ### Series anchor and payment steps -/

theorem processDonation_anchor_step (s : sync.Service) (w W1 : sync.World)
    (d : fundraiseup.Donation) (c : blackbaud.Constituent) (q : ℚ) (RID : String)
    (created : Bool) (E1 : List sync.Event)
    (hdry : s.dryRun = false)
    (hfc : s.findOrCreateConstituent w d = (.ok (c.id, created), W1, E1))
    (hW1cache : W1.giftCache = [])
    (hnoseries : ∀ g ∈ W1.bb.gifts, (g.lookupID == RID) = false)
    (hrec : d.IsRecurring = true) (hrid : d.RecurringID = RID) (hridne : RID ≠ "")
    (hq : parseDecimal d.amount = some q) :
    (s.processDonation w d).1.giftCreated = true ∧
    (s.processDonation w d).1.error = none ∧
    (s.processDonation w d).2.1.bb.constituents = W1.bb.constituents ∧
    ∃ gnew,
      (s.processDonation w d).1.giftID = gnew.id ∧
      (s.processDonation w d).2.1.bb.gifts = W1.bb.gifts ++ [gnew] ∧
      gnew.lookupID = RID ∧ gnew.type = blackbaud.GiftTypeRecurringGift ∧
      gnew.constituentID = c.id ∧ gnew.id ≠ "" ∧
      (blackbaud.ParseGiftOrigin gnew.origin).1.donationID = d.id := by
  have hcond : (d.IsRecurring && decide (d.RecurringID ≠ "")) = true := by
    rw [hrec, hrid]
    simp [hridne]
  have hfind : (W1.bb.gifts.filter (fun g => g.constituentID == c.id)).find? (fun g =>
      if (d.IsRecurring && decide (d.RecurringID ≠ "")) = true then
        g.lookupID == d.RecurringID &&
          (blackbaud.ParseGiftOrigin g.origin).1.donationID == d.id
      else g.lookupID == d.id) = none := by
    rw [List.find?_eq_none]
    intro g hg
    have hgm := (List.mem_filter.mp hg).1
    have hlid := hnoseries g hgm
    simp only [hcond, if_true, reduceIte]
    simp only [hrid, hlid, Bool.false_and]
    exact Bool.false_ne_true
  have hgs : sync.cacheLookup
      (sync.cacheInsert W1.giftCache c.id (W1.bb.gifts.filter (fun g => g.constituentID == c.id))) c.id =
      some (W1.bb.gifts.filter (fun g => g.constituentID == c.id)) := by
    apply cacheLookup_insert_self
    rw [hW1cache]
    rfl
  have hcg := getConstituentGifts_cached s
    { W1 with giftCache := (sync.cacheInsert W1.giftCache c.id
        (W1.bb.gifts.filter (fun g => g.constituentID == c.id))) }
    c.id (W1.bb.gifts.filter (fun g => g.constituentID == c.id)) hgs
  have hrcproj : (s.getRecurringContext
      { W1 with giftCache := (sync.cacheInsert W1.giftCache c.id
          (W1.bb.gifts.filter (fun g => g.constituentID == c.id))) }
      c.id d).1 =
      { firstGiftID := "", isFirstInSeries := true,
        sequenceNumber := max d.InstallmentNumber 1 } := by
    by_cases hseqc : max d.InstallmentNumber 1 = 1
    · rw [getRecurringContext_seqOne s _ c.id d hcond hseqc]
    · rw [getRecurringContext_later s _ c.id d hcond hseqc]
      dsimp only
      rw [findFirstRecurringGift_eq]
      dsimp only
      rw [hcg]
      dsimp only
      have hffnone : (W1.bb.gifts.filter (fun g => g.constituentID == c.id)).find? (fun g =>
          g.lookupID == d.RecurringID && g.type == blackbaud.GiftTypeRecurringGift) = none := by
        rw [List.find?_eq_none]
        intro g hg
        have hgm := (List.mem_filter.mp hg).1
        have hlid := hnoseries g hgm
        simp only [hrid, hlid, Bool.false_and]
        exact Bool.false_ne_true
      rw [hffnone]
  have hmap0 := mapDonationToGift_recurring_first s d
    { firstGiftID := "", isFirstInSeries := true,
      sequenceNumber := max d.InstallmentNumber 1 } q hcond hq rfl
  have hmapW2 : s.mapDonationToGift d
      (s.getRecurringContext
        { W1 with giftCache := (sync.cacheInsert W1.giftCache c.id
            (W1.bb.gifts.filter (fun g => g.constituentID == c.id))) }
        c.id d).1 = .ok
      { d.ToDomainType with
        batchPrefix := sync.originName
        isManual := true
        giftSplits := [{ amount := d.ToDomainType.amount, fundID := s.giftDefaults.fundID,
                         campaignID := s.giftDefaults.campaignID, appealID := s.giftDefaults.appealID }]
        lookupID := d.RecurringID
        subtype := blackbaud.GiftSubtypeRecurring
        origin := (blackbaud.GiftOrigin.mk d.id sync.originName).toString
        type := blackbaud.GiftTypeRecurringGift } := by
    rw [hrcproj]
    exact hmap0
  have hcreate := processDonation_creates s w W1 d c.id created _ E1 hdry hfc hW1cache hfind hmapW2
  obtain ⟨hres, hcons, hgifts, -⟩ := hcreate
  refine ⟨by rw [hres], by rw [hres], hcons, _, ?_, hgifts, ?_, ?_, ?_, ?_, ?_⟩
  · rw [hres]
  · show d.RecurringID = RID
    exact hrid
  · rfl
  · rfl
  · show sync.freshGiftID W1.bb.nextID ≠ ""
    exact freshGiftID_ne_empty W1.bb.nextID
  · show (blackbaud.ParseGiftOrigin (blackbaud.GiftOrigin.mk d.id sync.originName).toString).1.donationID = d.id
    rw [parseGiftOrigin_roundtrip]

theorem processDonation_payment_step (s : sync.Service) (w W1 : sync.World)
    (d : fundraiseup.Donation) (c : blackbaud.Constituent) (q : ℚ) (RID : String)
    (base pays : List blackbaud.Gift) (anchor : blackbaud.Gift)
    (created : Bool) (E1 : List sync.Event)
    (hdry : s.dryRun = false)
    (hfc : s.findOrCreateConstituent w d = (.ok (c.id, created), W1, E1))
    (hW1cache : W1.giftCache = [])
    (hgifts : W1.bb.gifts = base ++ anchor :: pays)
    (hbase : ∀ g ∈ base, (g.lookupID == RID) = false)
    (hanchor_lid : anchor.lookupID = RID)
    (hanchor_type : anchor.type = blackbaud.GiftTypeRecurringGift)
    (hanchor_cid : anchor.constituentID = c.id)
    (hanchor_id : anchor.id ≠ "")
    (hpays : ∀ g ∈ pays, g.lookupID = RID ∧ g.type = blackbaud.GiftTypeRecurringGiftPayment ∧
      g.linkedGifts = [anchor.id] ∧ g.constituentID = c.id)
    (hda : (blackbaud.ParseGiftOrigin anchor.origin).1.donationID ≠ d.id)
    (hdp : ∀ g ∈ pays, (blackbaud.ParseGiftOrigin g.origin).1.donationID ≠ d.id)
    (hrec : d.IsRecurring = true) (hrid : d.RecurringID = RID) (hridne : RID ≠ "")
    (hinst : 2 ≤ d.InstallmentNumber)
    (hq : parseDecimal d.amount = some q) :
    (s.processDonation w d).1.giftCreated = true ∧
    (s.processDonation w d).1.error = none ∧
    (s.processDonation w d).2.1.bb.constituents = W1.bb.constituents ∧
    ∃ gnew,
      (s.processDonation w d).2.1.bb.gifts = base ++ anchor :: (pays ++ [gnew]) ∧
      gnew.lookupID = RID ∧ gnew.type = blackbaud.GiftTypeRecurringGiftPayment ∧
      gnew.linkedGifts = [anchor.id] ∧ gnew.constituentID = c.id ∧
      (blackbaud.ParseGiftOrigin gnew.origin).1.donationID = d.id := by
  have hcond : (d.IsRecurring && decide (d.RecurringID ≠ "")) = true := by
    rw [hrec, hrid]
    simp [hridne]
  have hfind : (W1.bb.gifts.filter (fun g => g.constituentID == c.id)).find? (fun g =>
      if (d.IsRecurring && decide (d.RecurringID ≠ "")) = true then
        g.lookupID == d.RecurringID &&
          (blackbaud.ParseGiftOrigin g.origin).1.donationID == d.id
      else g.lookupID == d.id) = none := by
    rw [List.find?_eq_none]
    intro g hg hp
    simp only [hcond, if_true, reduceIte] at hp
    rw [Bool.and_eq_true] at hp
    obtain ⟨hp1, hp2⟩ := hp
    have hgm := (List.mem_filter.mp hg).1
    rw [hgifts] at hgm
    rcases List.mem_append.mp hgm with hb | hap
    · rw [hrid] at hp1
      rw [hbase g hb] at hp1
      exact Bool.false_ne_true hp1
    · rcases List.mem_cons.mp hap with hga | hgp
      · rw [hga] at hp2
        exact hda (eq_of_beq hp2)
      · exact hdp g hgp (eq_of_beq hp2)
  have hgs : sync.cacheLookup
      (sync.cacheInsert W1.giftCache c.id (W1.bb.gifts.filter (fun g => g.constituentID == c.id))) c.id =
      some (W1.bb.gifts.filter (fun g => g.constituentID == c.id)) := by
    apply cacheLookup_insert_self
    rw [hW1cache]
    rfl
  have hcg := getConstituentGifts_cached s
    { W1 with giftCache := (sync.cacheInsert W1.giftCache c.id
        (W1.bb.gifts.filter (fun g => g.constituentID == c.id))) }
    c.id (W1.bb.gifts.filter (fun g => g.constituentID == c.id)) hgs
  have hff : (W1.bb.gifts.filter (fun g => g.constituentID == c.id)).find? (fun g =>
      g.lookupID == d.RecurringID && g.type == blackbaud.GiftTypeRecurringGift) = some anchor := by
    rw [hgifts, List.filter_append]
    have hkeep : (anchor :: pays).filter (fun g => g.constituentID == c.id) = anchor :: pays := by
      rw [List.filter_eq_self]
      intro g hgm
      rcases List.mem_cons.mp hgm with hga | hgp
      · rw [hga, hanchor_cid]
        simp
      · rw [(hpays g hgp).2.2.2]
        simp
    rw [hkeep, List.find?_append]
    have hnone : (base.filter (fun g => g.constituentID == c.id)).find? (fun g =>
        g.lookupID == d.RecurringID && g.type == blackbaud.GiftTypeRecurringGift) = none := by
      rw [List.find?_eq_none]
      intro g hg hp
      rw [Bool.and_eq_true] at hp
      have hb := (List.mem_filter.mp hg).1
      rw [hrid] at hp
      rw [hbase g hb] at hp
      exact Bool.false_ne_true hp.1
    rw [hnone, Option.none_or]
    apply List.find?_cons_of_pos
    rw [hrid, hanchor_lid, hanchor_type]
    simp
  have hseq : ¬ (max d.InstallmentNumber 1 = 1) := by
    rw [max_eq_left (by omega : (1 : ℤ) ≤ d.InstallmentNumber)]
    omega
  have hrcproj : (s.getRecurringContext
      { W1 with giftCache := (sync.cacheInsert W1.giftCache c.id
          (W1.bb.gifts.filter (fun g => g.constituentID == c.id))) }
      c.id d).1 =
      { firstGiftID := anchor.id, isFirstInSeries := false,
        sequenceNumber := max d.InstallmentNumber 1 } := by
    rw [getRecurringContext_later s _ c.id d hcond hseq]
    dsimp only
    rw [findFirstRecurringGift_eq]
    dsimp only
    rw [hcg]
    dsimp only
    rw [hff]
  have hmap0 := mapDonationToGift_recurring_later s d
    { firstGiftID := anchor.id, isFirstInSeries := false,
      sequenceNumber := max d.InstallmentNumber 1 } q hcond hq rfl
    (by show anchor.id ≠ ""; exact hanchor_id)
  have hmapW2 : s.mapDonationToGift d
      (s.getRecurringContext
        { W1 with giftCache := (sync.cacheInsert W1.giftCache c.id
            (W1.bb.gifts.filter (fun g => g.constituentID == c.id))) }
        c.id d).1 = .ok
      { d.ToDomainType with
        batchPrefix := sync.originName
        isManual := true
        giftSplits := [{ amount := d.ToDomainType.amount, fundID := s.giftDefaults.fundID,
                         campaignID := s.giftDefaults.campaignID, appealID := s.giftDefaults.appealID }]
        lookupID := d.RecurringID
        subtype := blackbaud.GiftSubtypeRecurring
        origin := (blackbaud.GiftOrigin.mk d.id sync.originName).toString
        type := blackbaud.GiftTypeRecurringGiftPayment
        linkedGifts := [anchor.id] } := by
    rw [hrcproj]
    exact hmap0
  have hcreate := processDonation_creates s w W1 d c.id created _ E1 hdry hfc hW1cache hfind hmapW2
  obtain ⟨hres, hcons, hgifts2, -⟩ := hcreate
  rw [hgifts, List.append_assoc, List.cons_append] at hgifts2
  refine ⟨by rw [hres], by rw [hres], hcons, _, hgifts2, ?_, ?_, ?_, ?_, ?_⟩
  · show d.RecurringID = RID
    exact hrid
  · rfl
  · rfl
  · rfl
  · show (blackbaud.ParseGiftOrigin (blackbaud.GiftOrigin.mk d.id sync.originName).toString).1.donationID = d.id
    rw [parseGiftOrigin_roundtrip]

theorem series_tail (s : sync.Service) (E RID : String) (c : blackbaud.Constituent)
    (anchor : blackbaud.Gift)
    (hdry : s.dryRun = false) (hE : E ≠ "") (hridne : RID ≠ "")
    (hanchor_lid : anchor.lookupID = RID)
    (hanchor_type : anchor.type = blackbaud.GiftTypeRecurringGift)
    (hanchor_cid : anchor.constituentID = c.id)
    (hanchor_id : anchor.id ≠ "") :
    ∀ (ds : List fundraiseup.Donation) (w : sync.World) (base pays : List blackbaud.Gift),
      (∀ d ∈ ds, d.supporter.map (fun sup => sup.email) = some E ∧ d.IsRecurring = true ∧
        d.RecurringID = RID ∧ 2 ≤ d.InstallmentNumber ∧ (parseDecimal d.amount).isSome = true) →
      (∀ d ∈ ds, (blackbaud.ParseGiftOrigin anchor.origin).1.donationID ≠ d.id) →
      (∀ d ∈ ds, ∀ g ∈ pays, (blackbaud.ParseGiftOrigin g.origin).1.donationID ≠ d.id) →
      List.Pairwise (fun a b => a.id ≠ b.id) ds →
      (w.bb.constituents.filter (fun x => sync.emailMatches x E)).head? = some c →
      w.bb.gifts = base ++ anchor :: pays →
      (∀ g ∈ base, (g.lookupID == RID) = false) →
      (∀ g ∈ pays, g.lookupID = RID ∧ g.type = blackbaud.GiftTypeRecurringGiftPayment ∧
        g.linkedGifts = [anchor.id] ∧ g.constituentID = c.id) →
      (∀ r ∈ (s.processInSeparateRuns w ds).1, r.giftCreated = true ∧ r.error = none) ∧
      ∃ pays2,
        (s.processInSeparateRuns w ds).2.bb.gifts = base ++ anchor :: pays2 ∧
        ∀ g ∈ pays2, g.lookupID = RID ∧ g.type = blackbaud.GiftTypeRecurringGiftPayment ∧
          g.linkedGifts = [anchor.id] ∧ g.constituentID = c.id := by
  intro ds
  induction ds with
  | nil =>
      intro w base pays hprops hfa hfp hpw hhead hgifts hbase hpays
      unfold sync.Service.processInSeparateRuns
      exact ⟨by intro r hr; simp at hr, pays, hgifts, hpays⟩
  | cons d rest ih =>
      intro w base pays hprops hfa hfp hpw hhead hgifts hbase hpays
      obtain ⟨hsupE, hrec, hrid, hinst, hq⟩ := hprops d (List.mem_cons_self d rest)
      obtain ⟨sup, hsup, hsupe⟩ := Option.map_eq_some'.mp hsupE
      have he : sup.email ≠ "" := by rw [hsupe]; exact hE
      obtain ⟨q, hq2⟩ := Option.isSome_iff_exists.mp hq
      have hhead' : ((({ w with giftCache := ([] : List (String × List blackbaud.Gift)) } : sync.World)).bb.constituents.filter
          (fun x => sync.emailMatches x sup.email)).head? = some c := by
        show (w.bb.constituents.filter (fun x => sync.emailMatches x sup.email)).head? = some c
        rw [hsupe]
        exact hhead
      have hfc := findOrCreateConstituent_found s { w with giftCache := [] } d sup c hsup he hhead'
      rw [List.pairwise_cons] at hpw
      obtain ⟨hpwhead, hpwrest⟩ := hpw
      have hstep := processDonation_payment_step s { w with giftCache := [] }
        { w with giftCache := [] } d c q RID base pays anchor false _ hdry hfc rfl
        hgifts hbase hanchor_lid hanchor_type hanchor_cid hanchor_id hpays
        (hfa d (List.mem_cons_self d rest))
        (fun g hg => hfp d (List.mem_cons_self d rest) g hg)
        hrec hrid hridne hinst hq2
      obtain ⟨hcre, herr, hcons, gnew, hg1, hg2, hg3, hg4, hg5, hg6⟩ := hstep
      unfold sync.Service.processInSeparateRuns
      rcases hp : s.processDonation { w with giftCache := [] } d with ⟨r1, w1, evs1⟩
      dsimp only
      rw [hp] at hcre herr hcons hg1
      dsimp only at hcre herr hcons hg1
      have hhead1 : (w1.bb.constituents.filter (fun x => sync.emailMatches x E)).head? = some c := by
        rw [hcons]
        exact hhead
      have hnewpays : ∀ g ∈ pays ++ [gnew],
          g.lookupID = RID ∧ g.type = blackbaud.GiftTypeRecurringGiftPayment ∧
          g.linkedGifts = [anchor.id] ∧ g.constituentID = c.id := by
        intro g hg
        rcases List.mem_append.mp hg with hgo | hgn
        · exact hpays g hgo
        · rw [List.mem_singleton] at hgn
          rw [hgn]
          exact ⟨hg2, hg3, hg4, hg5⟩
      have hprops' : ∀ d' ∈ rest, d'.supporter.map (fun sup => sup.email) = some E ∧
          d'.IsRecurring = true ∧ d'.RecurringID = RID ∧ 2 ≤ d'.InstallmentNumber ∧
          (parseDecimal d'.amount).isSome = true :=
        fun d' hd' => hprops d' (List.mem_cons_of_mem d hd')
      have hfa' : ∀ d' ∈ rest, (blackbaud.ParseGiftOrigin anchor.origin).1.donationID ≠ d'.id :=
        fun d' hd' => hfa d' (List.mem_cons_of_mem d hd')
      have hfp' : ∀ d' ∈ rest, ∀ g ∈ pays ++ [gnew],
          (blackbaud.ParseGiftOrigin g.origin).1.donationID ≠ d'.id := by
        intro d' hd' g hg
        rcases List.mem_append.mp hg with hgo | hgn
        · exact hfp d' (List.mem_cons_of_mem d hd') g hgo
        · rw [List.mem_singleton] at hgn
          rw [hgn, hg6]
          exact hpwhead d' hd'
      have hih := ih w1 base (pays ++ [gnew]) hprops' hfa' hfp' hpwrest hhead1 hg1 hbase hnewpays
      rcases hp2 : s.processInSeparateRuns w1 rest with ⟨rs, w2⟩
      rw [hp2] at hih
      dsimp only at hih
      refine ⟨?_, hih.2⟩
      intro r hr
      rcases List.mem_cons.mp hr with hr1 | hrs
      · rw [hr1]
        exact ⟨hcre, herr⟩
      · exact hih.1 r hrs

theorem series_run_core (s : sync.Service) (w0 W1 : sync.World) (d0 : fundraiseup.Donation)
    (rest : List fundraiseup.Donation) (E RID : String) (c : blackbaud.Constituent)
    (created : Bool) (E1 : List sync.Event) (q0 : ℚ)
    (hdry : s.dryRun = false) (hE : E ≠ "") (hridne : RID ≠ "")
    (hfc : s.findOrCreateConstituent { w0 with giftCache := [] } d0 = (.ok (c.id, created), W1, E1))
    (hW1cache : W1.giftCache = [])
    (hW1gifts : W1.bb.gifts = w0.bb.gifts)
    (hheadW1 : (W1.bb.constituents.filter (fun x => sync.emailMatches x E)).head? = some c)
    (hrec0 : d0.IsRecurring = true) (hrid0 : d0.RecurringID = RID)
    (hq0 : parseDecimal d0.amount = some q0)
    (hprops : ∀ d ∈ rest, d.supporter.map (fun sup => sup.email) = some E ∧
      d.IsRecurring = true ∧ d.RecurringID = RID ∧ 2 ≤ d.InstallmentNumber ∧
      (parseDecimal d.amount).isSome = true)
    (hpw : List.Pairwise (fun a b => a.id ≠ b.id) (d0 :: rest))
    (hpre : ∀ g ∈ w0.bb.gifts, (g.lookupID == RID) = false) :
    ∃ aid,
      (∀ r ∈ (s.processInSeparateRuns w0 (d0 :: rest)).1, r.giftCreated = true ∧ r.error = none) ∧
      (((s.processInSeparateRuns w0 (d0 :: rest)).2.bb.gifts.filter
          (fun g => g.lookupID == RID)).filter
        (fun g => g.type == blackbaud.GiftTypeRecurringGift)).map (fun g => g.id) = [aid] ∧
      ∀ g ∈ (s.processInSeparateRuns w0 (d0 :: rest)).2.bb.gifts.filter
          (fun g => g.lookupID == RID),
        g.type ≠ blackbaud.GiftTypeRecurringGift →
        g.type = blackbaud.GiftTypeRecurringGiftPayment ∧ g.linkedGifts = [aid] := by
  have hnoseriesW1 : ∀ g ∈ W1.bb.gifts, (g.lookupID == RID) = false := by
    rw [hW1gifts]
    exact hpre
  have hstep := processDonation_anchor_step s { w0 with giftCache := [] } W1 d0 c q0 RID
    created E1 hdry hfc hW1cache hnoseriesW1 hrec0 hrid0 hridne hq0
  obtain ⟨hcre0, herr0, hcons0, gA, hgid0, hgifts0, hl, ht, hcid, hidne, horig⟩ := hstep
  rw [List.pairwise_cons] at hpw
  obtain ⟨hpwhead, hpwrest⟩ := hpw
  unfold sync.Service.processInSeparateRuns
  rcases hp : s.processDonation { w0 with giftCache := [] } d0 with ⟨r0, w1, evs0⟩
  dsimp only
  rw [hp] at hcre0 herr0 hcons0 hgid0 hgifts0
  dsimp only at hcre0 herr0 hcons0 hgid0 hgifts0
  have hw1gifts : w1.bb.gifts = w0.bb.gifts ++ gA :: [] := by
    rw [hgifts0, hW1gifts]
  have hhead1 : (w1.bb.constituents.filter (fun x => sync.emailMatches x E)).head? = some c := by
    rw [hcons0]
    exact hheadW1
  have hfa : ∀ d' ∈ rest, (blackbaud.ParseGiftOrigin gA.origin).1.donationID ≠ d'.id := by
    intro d' hd'
    rw [horig]
    exact hpwhead d' hd'
  have hfp : ∀ d' ∈ rest, ∀ g ∈ ([] : List blackbaud.Gift),
      (blackbaud.ParseGiftOrigin g.origin).1.donationID ≠ d'.id := by
    intro d' hd' g hg
    simp at hg
  have hih := series_tail s E RID c gA hdry hE hridne hl ht hcid hidne rest w1
    w0.bb.gifts [] hprops hfa hfp hpwrest hhead1 hw1gifts hpre (by intro g hg; simp at hg)
  rcases hp2 : s.processInSeparateRuns w1 rest with ⟨rs, w2⟩
  rw [hp2] at hih
  dsimp only at hih
  obtain ⟨hres, pays2, hw2gifts, hpays2⟩ := hih
  have h1 : w0.bb.gifts.filter (fun g => g.lookupID == RID) = [] := by
    rw [List.filter_eq_nil_iff]
    intro g hg
    rw [hpre g hg]
    exact Bool.false_ne_true
  have h2 : (gA :: pays2).filter (fun g => g.lookupID == RID) = gA :: pays2 := by
    rw [List.filter_eq_self]
    intro g hg
    rcases List.mem_cons.mp hg with hga | hgp
    · rw [hga, hl]
      simp
    · rw [(hpays2 g hgp).1]
      simp
  have hGset : w2.bb.gifts.filter (fun g => g.lookupID == RID) = gA :: pays2 := by
    rw [hw2gifts, List.filter_append, h1, h2, List.nil_append]
  refine ⟨gA.id, ?_, ?_, ?_⟩
  · intro r hr
    rcases List.mem_cons.mp hr with hr1 | hrs
    · rw [hr1]
      exact ⟨hcre0, herr0⟩
    · exact hres r hrs
  · rw [hGset]
    rw [List.filter_cons_of_pos (by rw [ht]; simp)]
    have h3 : pays2.filter (fun g => g.type == blackbaud.GiftTypeRecurringGift) = [] := by
      rw [List.filter_eq_nil_iff]
      intro g hg
      rw [(hpays2 g hg).2.1]
      decide
    rw [h3]
    rfl
  · intro g hg hgt
    rw [hGset] at hg
    rcases List.mem_cons.mp hg with hga | hgp
    · rw [hga] at hgt
      exact absurd ht hgt
    · exact ⟨(hpays2 g hgp).2.1, (hpays2 g hgp).2.2.1⟩

/-! ## Claim C2 (recurring series: one anchor, linked payments) -/

/-- Claim C2 counterexample: two donations of one recurring series
("plan_1", installments 1 and 2) processed sequentially within a single
batch run produce TWO gifts of type `RecurringGift`: installment 2's
anchor lookup reads the per-run gift cache captured before installment
1's anchor was created, finds nothing, and self-heals to
first-in-series — so the run ends with two anchors instead of one anchor
plus one linked payment. -/
theorem recurring_series_two_anchors_one_run_counterexample :
    (((sync.Service.processLoop { dryRun := false, giftDefaults := { fundID := "F", type := "Donation" } } {} {}
        [{ id := "don_1", amount := "50.00", createdAtDate := "2024-01-15", supporter := some { email := "a@b.c" }, recurringPlan := some { id := "plan_1" }, installment := "1" },
         { id := "don_2", amount := "50.00", createdAtDate := "2024-02-15", supporter := some { email := "a@b.c" }, recurringPlan := some { id := "plan_1" }, installment := "2" }]).2.1.bb.gifts.filter
      (fun g => g.lookupID == "plan_1")).filter
      (fun g => g.type == blackbaud.GiftTypeRecurringGift)).length = 2 := by
  decide

/-- Claim C2 (amended): for a sequence of donations sharing one
recurring-series ID, each processed in its own run (fresh per-run gift
cache, as consecutive `Run` invocations have) in increasing installment
order — installments after the first being 2 or higher — with a common
supporter email, parseable amounts, pairwise-distinct donation IDs and
no pre-existing gift of the series in the destination: every donation
creates a gift without error, exactly one of the series' gifts is a
`RecurringGift` (the anchor), and every other series gift is a
`RecurringGiftPayment` whose linked-gift list is exactly the anchor's
ID.  (Within one run this fails — see the counterexample.) -/
theorem recurring_series_single_anchor_separate_runs
    (s : sync.Service) (w : sync.World) (d0 : fundraiseup.Donation)
    (rest : List fundraiseup.Donation) (E RID : String)
    (hdry : s.dryRun = false) (hE : E ≠ "") (hridne : RID ≠ "")
    (hprops0 : d0.supporter.map (fun sup => sup.email) = some E ∧ d0.IsRecurring = true ∧
      d0.RecurringID = RID ∧ (parseDecimal d0.amount).isSome = true)
    (hprops : ∀ d ∈ rest, d.supporter.map (fun sup => sup.email) = some E ∧
      d.IsRecurring = true ∧ d.RecurringID = RID ∧ 2 ≤ d.InstallmentNumber ∧
      (parseDecimal d.amount).isSome = true)
    (hpw : List.Pairwise (fun a b => a.id ≠ b.id) (d0 :: rest))
    (hpre : ∀ g ∈ w.bb.gifts, (g.lookupID == RID) = false) :
    ∃ aid,
      (∀ r ∈ (s.processInSeparateRuns w (d0 :: rest)).1, r.giftCreated = true ∧ r.error = none) ∧
      (((s.processInSeparateRuns w (d0 :: rest)).2.bb.gifts.filter
          (fun g => g.lookupID == RID)).filter
        (fun g => g.type == blackbaud.GiftTypeRecurringGift)).map (fun g => g.id) = [aid] ∧
      ∀ g ∈ (s.processInSeparateRuns w (d0 :: rest)).2.bb.gifts.filter
          (fun g => g.lookupID == RID),
        g.type ≠ blackbaud.GiftTypeRecurringGift →
        g.type = blackbaud.GiftTypeRecurringGiftPayment ∧ g.linkedGifts = [aid] := by
  obtain ⟨hsupE0, hrec0, hrid0, hq0s⟩ := hprops0
  obtain ⟨sup0, hsup0, hsupe0⟩ := Option.map_eq_some'.mp hsupE0
  have he0 : sup0.email ≠ "" := by rw [hsupe0]; exact hE
  obtain ⟨q0, hq0⟩ := Option.isSome_iff_exists.mp hq0s
  cases hh : (w.bb.constituents.filter (fun x => sync.emailMatches x E)).head? with
  | some c =>
      have hh' : ((({ w with giftCache := ([] : List (String × List blackbaud.Gift)) } : sync.World)).bb.constituents.filter
          (fun x => sync.emailMatches x sup0.email)).head? = some c := by
        show (w.bb.constituents.filter (fun x => sync.emailMatches x sup0.email)).head? = some c
        rw [hsupe0]
        exact hh
      have hfc := findOrCreateConstituent_found s { w with giftCache := [] } d0 sup0 c hsup0 he0 hh'
      exact series_run_core s w { w with giftCache := [] } d0 rest E RID c false _ q0
        hdry hE hridne hfc rfl rfl hh hrec0 hrid0 hq0 hprops hpw hpre
  | none =>
      have hh' : ((({ w with giftCache := ([] : List (String × List blackbaud.Gift)) } : sync.World)).bb.constituents.filter
          (fun x => sync.emailMatches x sup0.email)).head? = none := by
        show (w.bb.constituents.filter (fun x => sync.emailMatches x sup0.email)).head? = none
        rw [hsupe0]
        exact hh
      have hfc := findOrCreateConstituent_miss s { w with giftCache := [] } d0 sup0 hsup0 he0 hh'
      rw [bbCreateConstituent_real s { w with giftCache := [] } sup0.ToDomainType hdry] at hfc
      dsimp only at hfc
      refine series_run_core s w _ d0 rest E RID
        { sup0.ToDomainType with id := sync.freshConstituentID w.bb.nextID } true _ q0
        hdry hE hridne hfc rfl rfl ?_ hrec0 hrid0 hq0 hprops hpw hpre
      show ((w.bb.constituents ++
          [{ sup0.ToDomainType with id := sync.freshConstituentID w.bb.nextID }]).filter
          (fun x => sync.emailMatches x E)).head? =
        some { sup0.ToDomainType with id := sync.freshConstituentID w.bb.nextID }
      have hnil : w.bb.constituents.filter (fun x => sync.emailMatches x E) = [] :=
        List.head?_eq_none_iff.mp hh
      rw [List.filter_append, hnil]
      have hm : sync.emailMatches
          { sup0.ToDomainType with id := sync.freshConstituentID w.bb.nextID } E = true := by
        rw [← hsupe0]
        exact emailMatches_fresh sup0 he0 _
      simp [hm]

/-- Witness for the amended C2: the concrete two-donation series
"plan_1" (installments 1 and 2), processed in separate runs, yields one
`RecurringGift` anchor and a `RecurringGiftPayment` linked to it. -/
theorem recurring_series_single_anchor_separate_runs_witness :
    ∃ aid,
      (∀ r ∈ (sync.Service.processInSeparateRuns { dryRun := false, giftDefaults := { fundID := "F", type := "Donation" } } {}
          ({ id := "don_1", amount := "50.00", createdAtDate := "2024-01-15", supporter := some { email := "a@b.c" }, recurringPlan := some { id := "plan_1" }, installment := "1" } ::
           [{ id := "don_2", amount := "50.00", createdAtDate := "2024-02-15", supporter := some { email := "a@b.c" }, recurringPlan := some { id := "plan_1" }, installment := "2" }])).1,
        r.giftCreated = true ∧ r.error = none) ∧
      (((sync.Service.processInSeparateRuns { dryRun := false, giftDefaults := { fundID := "F", type := "Donation" } } {}
          ({ id := "don_1", amount := "50.00", createdAtDate := "2024-01-15", supporter := some { email := "a@b.c" }, recurringPlan := some { id := "plan_1" }, installment := "1" } ::
           [{ id := "don_2", amount := "50.00", createdAtDate := "2024-02-15", supporter := some { email := "a@b.c" }, recurringPlan := some { id := "plan_1" }, installment := "2" }])).2.bb.gifts.filter
          (fun g => g.lookupID == "plan_1")).filter
        (fun g => g.type == blackbaud.GiftTypeRecurringGift)).map (fun g => g.id) = [aid] ∧
      ∀ g ∈ (sync.Service.processInSeparateRuns { dryRun := false, giftDefaults := { fundID := "F", type := "Donation" } } {}
          ({ id := "don_1", amount := "50.00", createdAtDate := "2024-01-15", supporter := some { email := "a@b.c" }, recurringPlan := some { id := "plan_1" }, installment := "1" } ::
           [{ id := "don_2", amount := "50.00", createdAtDate := "2024-02-15", supporter := some { email := "a@b.c" }, recurringPlan := some { id := "plan_1" }, installment := "2" }])).2.bb.gifts.filter
          (fun g => g.lookupID == "plan_1"),
        g.type ≠ blackbaud.GiftTypeRecurringGift →
        g.type = blackbaud.GiftTypeRecurringGiftPayment ∧ g.linkedGifts = [aid] :=
  recurring_series_single_anchor_separate_runs
    { dryRun := false, giftDefaults := { fundID := "F", type := "Donation" } } {}
    { id := "don_1", amount := "50.00", createdAtDate := "2024-01-15", supporter := some { email := "a@b.c" }, recurringPlan := some { id := "plan_1" }, installment := "1" }
    [{ id := "don_2", amount := "50.00", createdAtDate := "2024-02-15", supporter := some { email := "a@b.c" }, recurringPlan := some { id := "plan_1" }, installment := "2" }]
    "a@b.c" "plan_1" rfl (by decide) (by decide) (by decide) (by decide) (by decide) (by decide)

/-! ## Claim C9 groundwork: dry-run frame and event classification -/

theorem getConstituentGifts_bb (s : sync.Service) (w : sync.World) (cid : String) :
    (s.getConstituentGifts w cid).2.1.bb = w.bb := by
  unfold sync.Service.getConstituentGifts sync.Service.bbListGiftsByConstituent
  split <;> rfl

theorem findFirstRecurringGift_world (s : sync.Service) (w : sync.World) (cid rid : String) :
    (s.findFirstRecurringGift w cid rid).2.1 = (s.getConstituentGifts w cid).2.1 := by
  rw [findFirstRecurringGift_eq]

theorem getRecurringContext_bb (s : sync.Service) (w : sync.World) (cid : String)
    (d : fundraiseup.Donation) :
    (s.getRecurringContext w cid d).2.1.bb = w.bb := by
  cases hb : (d.IsRecurring && decide (d.RecurringID ≠ "")) with
  | false => rw [getRecurringContext_nonrecurring s w cid d hb]
  | true =>
      by_cases hseq : max d.InstallmentNumber 1 = 1
      · rw [getRecurringContext_seqOne s w cid d hb hseq]
      · rw [getRecurringContext_later s w cid d hb hseq]
        dsimp only
        rw [findFirstRecurringGift_world]
        exact getConstituentGifts_bb s w cid

theorem bbCreateConstituent_dry_bb (s : sync.Service) (w : sync.World)
    (c : blackbaud.Constituent) (hdry : s.dryRun = true) :
    (s.bbCreateConstituent w c).2.1.bb = w.bb := by
  rw [bbCreateConstituent_dry s w c hdry]

theorem findOrCreateConstituent_dry_bb (s : sync.Service) (w : sync.World)
    (d : fundraiseup.Donation) (hdry : s.dryRun = true) :
    (s.findOrCreateConstituent w d).2.1.bb = w.bb := by
  unfold sync.Service.findOrCreateConstituent sync.Service.bbSearchConstituents
  rcases d.supporter with _ | sup
  · rfl
  · by_cases he : sup.email = ""
    · simp only [he, ne_eq, not_true_eq_false, if_false, reduceIte]
      exact bbCreateConstituent_dry_bb s w sup.ToDomainType hdry
    · simp only [ne_eq, he, not_false_eq_true, if_true, reduceIte]
      cases hh : (w.bb.constituents.filter (fun c => sync.emailMatches c sup.email)).head? with
      | some c => simp [hh]
      | none => simpa [hh] using bbCreateConstituent_dry_bb s w sup.ToDomainType hdry

theorem processDonation_dry_bb (s : sync.Service) (w : sync.World)
    (d : fundraiseup.Donation) (hdry : s.dryRun = true) :
    (s.processDonation w d).2.1.bb = w.bb := by
  unfold sync.Service.processDonation
  rcases hfc : s.findOrCreateConstituent w d with ⟨res, w1, evs1⟩
  have h1 : w1.bb = w.bb := by
    have h := findOrCreateConstituent_dry_bb s w d hdry
    rw [hfc] at h
    exact h
  dsimp only
  rcases res with e | ⟨cid, created⟩
  · exact h1
  · dsimp only
    rcases hfe : s.findExistingGift w1 cid d with ⟨og, w2, evs2⟩
    have h2 : w2.bb = w1.bb := by
      have h := findExistingGift_world s w1 cid d
      rw [hfe] at h
      dsimp only at h
      rw [h]
      exact getConstituentGifts_bb s w1 cid
    dsimp only
    rcases og with _ | g
    · dsimp only
      rcases hrc : s.getRecurringContext w2 cid d with ⟨recCtx, w3, evs3⟩
      have h3 : w3.bb = w2.bb := by
        have h := getRecurringContext_bb s w2 cid d
        rw [hrc] at h
        exact h
      dsimp only
      rcases hmap : s.mapDonationToGift d recCtx with e | gift
      · show w3.bb = w.bb
        rw [h3, h2, h1]
      · dsimp only
        rcases hcg : s.bbCreateGift w3 { gift with constituentID := cid } with ⟨gid, w4, evs4⟩
        have h4 : w4.bb = w3.bb := by
          have h := bbCreateGift_dry s w3 { gift with constituentID := cid } hdry
          rw [hcg] at h
          simp only [Prod.mk.injEq] at h
          rw [h.2.1]
        show w4.bb = w.bb
        rw [h4, h3, h2, h1]
    · show w2.bb = w.bb
      rw [h2, h1]

theorem destWrite_free_bbCreateConstituent_dry (s : sync.Service) (w : sync.World)
    (c : blackbaud.Constituent) (hdry : s.dryRun = true) :
    ∀ e ∈ (s.bbCreateConstituent w c).2.2, sync.Event.isDestinationWrite e = false := by
  rw [bbCreateConstituent_dry s w c hdry]
  intro e he
  simp only [List.mem_singleton] at he
  subst he
  rfl

theorem destWrite_free_bbCreateGift_dry (s : sync.Service) (w : sync.World)
    (g : blackbaud.Gift) (hdry : s.dryRun = true) :
    ∀ e ∈ (s.bbCreateGift w g).2.2, sync.Event.isDestinationWrite e = false := by
  rw [bbCreateGift_dry s w g hdry]
  intro e he
  simp only [List.mem_singleton] at he
  subst he
  rfl

theorem destWrite_free_getConstituentGifts (s : sync.Service) (w : sync.World)
    (cid : String) :
    ∀ e ∈ (s.getConstituentGifts w cid).2.2, sync.Event.isDestinationWrite e = false := by
  cases hc : sync.cacheLookup w.giftCache cid with
  | some gs =>
      rw [getConstituentGifts_cached s w cid gs hc]
      intro e he
      simp at he
  | none =>
      rw [getConstituentGifts_uncached s w cid hc]
      intro e he
      simp only [List.mem_singleton] at he
      subst he
      rfl

theorem destWrite_free_findExistingGift (s : sync.Service) (w : sync.World)
    (cid : String) (d : fundraiseup.Donation) :
    ∀ e ∈ (s.findExistingGift w cid d).2.2, sync.Event.isDestinationWrite e = false := by
  rw [findExistingGift_evs]
  exact destWrite_free_getConstituentGifts s w cid

theorem destWrite_free_findOrCreateConstituent_dry (s : sync.Service) (w : sync.World)
    (d : fundraiseup.Donation) (hdry : s.dryRun = true) :
    ∀ e ∈ (s.findOrCreateConstituent w d).2.2, sync.Event.isDestinationWrite e = false := by
  cases hsup : d.supporter with
  | none =>
      rw [findOrCreateConstituent_nosupporter s w d hsup]
      intro e he
      simp at he
  | some sup =>
      by_cases he' : sup.email = ""
      · unfold sync.Service.findOrCreateConstituent
        rw [hsup]
        simp only [he', ne_eq, not_true_eq_false, if_false, reduceIte]
        rcases hc : s.bbCreateConstituent w sup.ToDomainType with ⟨cid, w2, evs2⟩
        dsimp only
        intro e hee
        simp only [List.nil_append] at hee
        have h := destWrite_free_bbCreateConstituent_dry s w sup.ToDomainType hdry
        rw [hc] at h
        exact h e hee
      · cases hh : (w.bb.constituents.filter (fun x => sync.emailMatches x sup.email)).head? with
        | some c =>
            rw [findOrCreateConstituent_found s w d sup c hsup he' hh]
            intro e hee
            simp only [List.mem_singleton] at hee
            subst hee
            rfl
        | none =>
            rw [findOrCreateConstituent_miss s w d sup hsup he' hh]
            intro e hee
            rcases List.mem_append.mp hee with h1 | h2
            · simp only [List.mem_singleton] at h1
              subst h1
              rfl
            · exact destWrite_free_bbCreateConstituent_dry s w sup.ToDomainType hdry e h2

theorem destWrite_free_getRecurringContext (s : sync.Service) (w : sync.World)
    (cid : String) (d : fundraiseup.Donation) :
    ∀ e ∈ (s.getRecurringContext w cid d).2.2, sync.Event.isDestinationWrite e = false := by
  cases hb : (d.IsRecurring && decide (d.RecurringID ≠ "")) with
  | false =>
      rw [getRecurringContext_nonrecurring s w cid d hb]
      intro e he
      simp at he
  | true =>
      by_cases hseq : max d.InstallmentNumber 1 = 1
      · rw [getRecurringContext_seqOne s w cid d hb hseq]
        intro e he
        simp at he
      · rw [getRecurringContext_later s w cid d hb hseq]
        intro e he
        dsimp only at he
        have h3 : (s.findFirstRecurringGift w cid d.RecurringID).2.2 =
            (s.getConstituentGifts w cid).2.2 := by
          rw [findFirstRecurringGift_eq]
        rw [h3] at he
        exact destWrite_free_getConstituentGifts s w cid e he

theorem destWrite_free_processDonation_dry (s : sync.Service) (w : sync.World)
    (d : fundraiseup.Donation) (hdry : s.dryRun = true) :
    ∀ e ∈ (s.processDonation w d).2.2, sync.Event.isDestinationWrite e = false := by
  unfold sync.Service.processDonation
  rcases hfc : s.findOrCreateConstituent w d with ⟨res, w1, evs1⟩
  have H1 : ∀ e ∈ evs1, sync.Event.isDestinationWrite e = false := by
    have h := destWrite_free_findOrCreateConstituent_dry s w d hdry
    rw [hfc] at h
    exact h
  dsimp only
  rcases res with err | ⟨cid, created⟩
  · exact H1
  · dsimp only
    rcases hfe : s.findExistingGift w1 cid d with ⟨og, w2, evs2⟩
    have H2 : ∀ e ∈ evs2, sync.Event.isDestinationWrite e = false := by
      have h := destWrite_free_findExistingGift s w1 cid d
      rw [hfe] at h
      exact h
    dsimp only
    rcases og with _ | g
    · dsimp only
      rcases hrc : s.getRecurringContext w2 cid d with ⟨recCtx, w3, evs3⟩
      have H3 : ∀ e ∈ evs3, sync.Event.isDestinationWrite e = false := by
        have h := destWrite_free_getRecurringContext s w2 cid d
        rw [hrc] at h
        exact h
      dsimp only
      rcases hmap : s.mapDonationToGift d recCtx with e0 | gift
      · intro e he
        simp only [List.mem_append] at he
        rcases he with (h | h) | h
        · exact H1 e h
        · exact H2 e h
        · exact H3 e h
      · dsimp only
        rcases hcg : s.bbCreateGift w3 { gift with constituentID := cid } with ⟨gid, w4, evs4⟩
        have H4 : ∀ e ∈ evs4, sync.Event.isDestinationWrite e = false := by
          have h := destWrite_free_bbCreateGift_dry s w3 { gift with constituentID := cid } hdry
          rw [hcg] at h
          exact h
        dsimp only
        intro e he
        simp only [List.mem_append] at he
        rcases he with ((h | h) | h) | h
        · exact H1 e h
        · exact H2 e h
        · exact H3 e h
        · exact H4 e h
    · intro e he
      simp only [List.mem_append] at he
      rcases he with h | h
      · exact H1 e h
      · exact H2 e h

theorem processLoop_dry (s : sync.Service) (hdry : s.dryRun = true) :
    ∀ (ds : List fundraiseup.Donation) (w : sync.World) (r : sync.Result),
      (s.processLoop w r ds).2.1.bb = w.bb ∧
      (s.processLoop w r ds).2.1.store = w.store ∧
      ∀ e ∈ (s.processLoop w r ds).2.2,
        sync.Event.isDestinationWrite e = false ∧ sync.Event.isStoreWrite e = false := by
  intro ds
  induction ds with
  | nil =>
      intro w r
      unfold sync.Service.processLoop
      exact ⟨rfl, rfl, by intro e he; simp at he⟩
  | cons d rest ih =>
      intro w r
      unfold sync.Service.processLoop
      rcases hpr : s.processAndRecord w r d with ⟨r1, w1, evs1⟩
      dsimp only
      rw [hdry]
      simp only [if_true, reduceIte]
      rcases hpl : s.processLoop w1 r1 rest with ⟨r2, w3, evs3⟩
      dsimp only
      have hpr' := hpr
      rw [processAndRecord_eq] at hpr'
      simp only [Prod.mk.injEq] at hpr'
      obtain ⟨-, hw1, hevs1⟩ := hpr'
      have hw1bb : w1.bb = w.bb := by
        rw [← hw1]
        exact processDonation_dry_bb s w d hdry
      have hw1store : w1.store = w.store := by
        rw [← hw1]
        exact processDonation_store s w d
      have hih := ih w1 r1
      rw [hpl] at hih
      dsimp only at hih
      obtain ⟨hih1, hih2, hih3⟩ := hih
      refine ⟨by rw [hih1, hw1bb], by rw [hih2, hw1store], ?_⟩
      intro e he
      simp only [List.append_nil, List.mem_append] at he
      rcases he with h | h
      · rw [← hevs1] at h
        exact ⟨destWrite_free_processDonation_dry s w d hdry e h,
          storeWrite_free_processDonation s w d e h⟩
      · exact hih3 e h

theorem resumeLoop_dry (s : sync.Service) (hdry : s.dryRun = true)
    (fetchByID : String → Option fundraiseup.Donation) :
    ∀ (pids : List String) (w : sync.World) (r : sync.Result),
      (s.resumeLoop fetchByID w r pids).2.1.bb = w.bb ∧
      (s.resumeLoop fetchByID w r pids).2.1.store = w.store ∧
      ∀ e ∈ (s.resumeLoop fetchByID w r pids).2.2,
        sync.Event.isDestinationWrite e = false ∧ sync.Event.isStoreWrite e = false := by
  intro pids
  induction pids with
  | nil =>
      intro w r
      unfold sync.Service.resumeLoop
      exact ⟨rfl, rfl, by intro e he; simp at he⟩
  | cons i rest ih =>
      intro w r
      unfold sync.Service.resumeLoop
      cases hf : fetchByID i with
      | none =>
          dsimp only
          rw [hdry]
          simp only [if_true, reduceIte]
          rcases hpl : s.resumeLoop fetchByID w
              { r with errors := r.errors ++ ["fetching donation " ++ i] } rest
            with ⟨r2, w2, evs2⟩
          dsimp only
          have hih := ih w { r with errors := r.errors ++ ["fetching donation " ++ i] }
          rw [hpl] at hih
          dsimp only at hih
          obtain ⟨hih1, hih2, hih3⟩ := hih
          refine ⟨hih1, hih2, ?_⟩
          intro e he
          simp only [List.nil_append, List.cons_append, List.mem_cons] at he
          rcases he with h | h
          · subst h
            exact ⟨rfl, rfl⟩
          · exact hih3 e h
      | some donation =>
          dsimp only
          rcases hpr : s.processAndRecord w r donation with ⟨r1, w1, evs1⟩
          dsimp only
          rw [hdry]
          simp only [if_true, reduceIte]
          rcases hpl : s.resumeLoop fetchByID w1 r1 rest with ⟨r2, w2, evs2⟩
          dsimp only
          have hpr' := hpr
          rw [processAndRecord_eq] at hpr'
          simp only [Prod.mk.injEq] at hpr'
          obtain ⟨-, hw1, hevs1⟩ := hpr'
          have hw1bb : w1.bb = w.bb := by
            rw [← hw1]
            exact processDonation_dry_bb s w donation hdry
          have hw1store : w1.store = w.store := by
            rw [← hw1]
            exact processDonation_store s w donation
          have hih := ih w1 r1
          rw [hpl] at hih
          dsimp only at hih
          obtain ⟨hih1, hih2, hih3⟩ := hih
          refine ⟨by rw [hih1, hw1bb], by rw [hih2, hw1store], ?_⟩
          intro e he
          simp only [List.append_nil, List.nil_append, List.cons_append, List.mem_cons,
            List.mem_append, List.not_mem_nil, false_or, or_false] at he
          rcases he with h | h | h
          · subst h
            exact ⟨rfl, rfl⟩
          · rw [← hevs1] at h
            exact ⟨destWrite_free_processDonation_dry s w donation hdry e h,
              storeWrite_free_processDonation s w donation e h⟩
          · exact hih3 e h

theorem run_dry_frame_events (s : sync.Service) (hdry : s.dryRun = true)
    (now : Int) (fetchSince : Int → List fundraiseup.Donation)
    (fetchByID : String → Option fundraiseup.Donation) (w : sync.World) :
    (s.Run now fetchSince fetchByID w).2.1.bb = w.bb ∧
    (s.Run now fetchSince fetchByID w).2.1.store = w.store ∧
    ∀ e ∈ (s.Run now fetchSince fetchByID w).2.2,
      sync.Event.isDestinationWrite e = false ∧ sync.Event.isStoreWrite e = false := by
  unfold sync.Service.Run
  dsimp only
  cases hpend : w.store.pendingIDs.isEmpty
  · simp only [Bool.false_eq_true, if_false, reduceIte]
    unfold sync.Service.runResume
    rcases hrl : s.resumeLoop fetchByID { w with giftCache := [] } { dryRun := s.dryRun }
        w.store.pendingIDs with ⟨r1, w1, evs1⟩
    dsimp only
    rw [hdry]
    simp only [if_true, reduceIte]
    have hrld := resumeLoop_dry s hdry fetchByID w.store.pendingIDs
      { w with giftCache := [] } { dryRun := s.dryRun }
    rw [hrl] at hrld
    dsimp only at hrld
    obtain ⟨h1, h2, h3⟩ := hrld
    refine ⟨h1, h2, ?_⟩
    intro e he
    simp only [List.append_nil] at he
    exact h3 e he
  · simp only [if_true, reduceIte]
    cases hemp : (fetchSince (s.freshSince now { w with giftCache := [] })).isEmpty
    · rw [runFresh_nonempty_dry s now fetchSince { w with giftCache := [] }
          { dryRun := s.dryRun } hdry hemp]
      rcases hpl : s.processLoop { w with giftCache := ([] : List (String × List blackbaud.Gift)) }
          { dryRun := s.dryRun }
          (s.truncateBatch (fetchSince (s.freshSince now { w with giftCache := [] })))
        with ⟨r1, w2, evs2⟩
      dsimp only
      have hpld := processLoop_dry s hdry
        (s.truncateBatch (fetchSince (s.freshSince now { w with giftCache := [] })))
        { w with giftCache := ([] : List (String × List blackbaud.Gift)) } { dryRun := s.dryRun }
      rw [hpl] at hpld
      dsimp only at hpld
      obtain ⟨h1, h2, h3⟩ := hpld
      refine ⟨h1, h2, ?_⟩
      intro e he
      simp only [List.mem_cons] at he
      rcases he with h | h
      · subst h
        exact ⟨rfl, rfl⟩
      · exact h3 e h
    · rw [runFresh_empty s now fetchSince { w with giftCache := [] } { dryRun := s.dryRun } hemp]
      refine ⟨rfl, rfl, ?_⟩
      intro e he
      simp only [List.mem_singleton] at he
      subst he
      exact ⟨rfl, rfl⟩

/-! ### Cache coherence and dry-run congruence -/

theorem cacheLookup_cacheInsert_inv (c : List (String × List blackbaud.Gift))
    (cid cid0 : String) (gs gs0 : List blackbaud.Gift)
    (h : sync.cacheLookup (sync.cacheInsert c cid gs) cid0 = some gs0) :
    sync.cacheLookup c cid0 = some gs0 ∨ (cid = cid0 ∧ gs = gs0) := by
  unfold sync.cacheLookup sync.cacheInsert at h
  rw [List.find?_append] at h
  cases hf : c.find? (fun p => p.1 == cid0) with
  | some p =>
      rw [hf] at h
      simp at h
      left
      unfold sync.cacheLookup
      rw [hf]
      simp [h]
  | none =>
      rw [hf] at h
      simp only [Option.none_or] at h
      by_cases hcc : cid = cid0
      · right
        refine ⟨hcc, ?_⟩
        rw [List.find?_cons_of_pos _ (by simp [hcc])] at h
        simp at h
        exact h
      · rw [List.find?_cons_of_neg _ (by simp [hcc])] at h
        simp at h

theorem cacheCoherent_empty_cache (w : sync.World) (h : w.giftCache = []) :
    sync.cacheCoherent w := by
  intro cid gs hlk
  rw [h] at hlk
  simp [sync.cacheLookup] at hlk

theorem getConstituentGifts_coherent (s : sync.Service) (w : sync.World) (cid : String)
    (hco : sync.cacheCoherent w) :
    (s.getConstituentGifts w cid).1 = w.bb.gifts.filter (fun g => g.constituentID == cid) ∧
    sync.cacheCoherent (s.getConstituentGifts w cid).2.1 := by
  cases hc : sync.cacheLookup w.giftCache cid with
  | some gs =>
      rw [getConstituentGifts_cached s w cid gs hc]
      exact ⟨hco cid gs hc, hco⟩
  | none =>
      rw [getConstituentGifts_uncached s w cid hc]
      refine ⟨rfl, ?_⟩
      intro cid0 gs0 hlk
      show gs0 = w.bb.gifts.filter (fun g => g.constituentID == cid0)
      rcases cacheLookup_cacheInsert_inv w.giftCache cid cid0 _ gs0 hlk with h | ⟨hcc, hgs⟩
      · exact hco cid0 gs0 h
      · rw [← hgs, ← hcc]

theorem findExistingGift_coherent (s : sync.Service) (w : sync.World) (cid : String)
    (d : fundraiseup.Donation) (hco : sync.cacheCoherent w) :
    (s.findExistingGift w cid d).1 =
      (w.bb.gifts.filter (fun g => g.constituentID == cid)).find? (fun g =>
        if (d.IsRecurring && decide (d.RecurringID ≠ "")) = true then
          g.lookupID == d.RecurringID &&
            (blackbaud.ParseGiftOrigin g.origin).1.donationID == d.id
        else g.lookupID == d.id) ∧
    sync.cacheCoherent (s.findExistingGift w cid d).2.1 := by
  obtain ⟨hval, hco2⟩ := getConstituentGifts_coherent s w cid hco
  have hw := findExistingGift_world s w cid d
  cases hcond : (d.IsRecurring && decide (d.RecurringID ≠ "")) with
  | true =>
      rw [findExistingGift_recurring s w cid d hcond]
      refine ⟨?_, hco2⟩
      dsimp only
      rw [hval]
      simp [hcond]
  | false =>
      rw [findExistingGift_onetime s w cid d hcond]
      refine ⟨?_, hco2⟩
      dsimp only
      rw [hval]
      simp [hcond]

theorem getRecurringContext_coherent (s : sync.Service) (w : sync.World) (cid : String)
    (d : fundraiseup.Donation) (hco : sync.cacheCoherent w) :
    (s.getRecurringContext w cid d).1 =
      (if (d.IsRecurring && decide (d.RecurringID ≠ "")) = true then
        if max d.InstallmentNumber 1 = 1 then
          ({ firstGiftID := "", isFirstInSeries := true,
             sequenceNumber := max d.InstallmentNumber 1 } : sync.recurringContext)
        else
          match (w.bb.gifts.filter (fun g => g.constituentID == cid)).find? (fun g =>
              g.lookupID == d.RecurringID && g.type == blackbaud.GiftTypeRecurringGift) with
          | some g => { firstGiftID := g.id, isFirstInSeries := false,
                        sequenceNumber := max d.InstallmentNumber 1 }
          | none => { firstGiftID := "", isFirstInSeries := true,
                      sequenceNumber := max d.InstallmentNumber 1 }
      else {}) ∧
    sync.cacheCoherent (s.getRecurringContext w cid d).2.1 := by
  obtain ⟨hval, hco2⟩ := getConstituentGifts_coherent s w cid hco
  cases hcond : (d.IsRecurring && decide (d.RecurringID ≠ "")) with
  | false =>
      rw [getRecurringContext_nonrecurring s w cid d hcond]
      simp only [Bool.false_eq_true, if_false, reduceIte]
      exact ⟨trivial, hco⟩
  | true =>
      by_cases hseq : max d.InstallmentNumber 1 = 1
      · rw [getRecurringContext_seqOne s w cid d hcond hseq]
        simp only [if_true, reduceIte, hseq]
        exact ⟨trivial, hco⟩
      · rw [getRecurringContext_later s w cid d hcond hseq]
        simp only [if_true, reduceIte, if_neg hseq]
        constructor
        · dsimp only
          rw [findFirstRecurringGift_eq]
          dsimp only
          rw [hval]
        · dsimp only
          rw [findFirstRecurringGift_world]
          exact hco2

theorem findOrCreateConstituent_noemail (s : sync.Service) (w : sync.World)
    (d : fundraiseup.Donation) (sup : fundraiseup.Supporter)
    (hsup : d.supporter = some sup) (he : sup.email = "") :
    s.findOrCreateConstituent w d =
      (.ok ((s.bbCreateConstituent w sup.ToDomainType).1, true),
        (s.bbCreateConstituent w sup.ToDomainType).2.1,
        (s.bbCreateConstituent w sup.ToDomainType).2.2) := by
  unfold sync.Service.findOrCreateConstituent
  rw [hsup]
  simp only [he, ne_eq, not_true_eq_false, if_false, reduceIte]
  rcases hc : s.bbCreateConstituent w sup.ToDomainType with ⟨cid, w1, evs⟩
  rfl

theorem findOrCreateConstituent_dry_congr (s : sync.Service) (wA wB : sync.World)
    (d : fundraiseup.Donation) (hdry : s.dryRun = true) (hbb : wA.bb = wB.bb) :
    (∃ e, (s.findOrCreateConstituent wA d).1 = .error e ∧
      (s.findOrCreateConstituent wB d).1 = .error e) ∨
    (∃ cidA cidB created,
      (s.findOrCreateConstituent wA d).1 = .ok (cidA, created) ∧
      (s.findOrCreateConstituent wB d).1 = .ok (cidB, created) ∧
      (created = false → cidA = cidB) ∧
      (created = true → (∃ n, cidA = sync.dryRunFakeID "constituent" n) ∧
        (∃ n, cidB = sync.dryRunFakeID "constituent" n))) := by
  cases hsup : d.supporter with
  | none =>
      left
      refine ⟨"donation has no supporter", ?_, ?_⟩
      · rw [findOrCreateConstituent_nosupporter s wA d hsup]
      · rw [findOrCreateConstituent_nosupporter s wB d hsup]
  | some sup =>
      by_cases he : sup.email = ""
      · right
        refine ⟨(s.bbCreateConstituent wA sup.ToDomainType).1,
          (s.bbCreateConstituent wB sup.ToDomainType).1, true, ?_, ?_, ?_, ?_⟩
        · rw [findOrCreateConstituent_noemail s wA d sup hsup he]
        · rw [findOrCreateConstituent_noemail s wB d sup hsup he]
        · intro hf
          exact absurd hf (by simp)
        · intro hf
          constructor
          · rw [bbCreateConstituent_dry s wA sup.ToDomainType hdry]
            exact ⟨wA.dryCounter + 1, rfl⟩
          · rw [bbCreateConstituent_dry s wB sup.ToDomainType hdry]
            exact ⟨wB.dryCounter + 1, rfl⟩
      · cases hh : (wA.bb.constituents.filter (fun x => sync.emailMatches x sup.email)).head? with
        | some c =>
            right
            refine ⟨c.id, c.id, false, ?_, ?_, fun _ => rfl, ?_⟩
            · rw [findOrCreateConstituent_found s wA d sup c hsup he hh]
            · rw [findOrCreateConstituent_found s wB d sup c hsup he (by rw [← hbb]; exact hh)]
            · intro hf
              exact absurd hf (by simp)
        | none =>
            right
            refine ⟨(s.bbCreateConstituent wA sup.ToDomainType).1,
              (s.bbCreateConstituent wB sup.ToDomainType).1, true, ?_, ?_, ?_, ?_⟩
            · rw [findOrCreateConstituent_miss s wA d sup hsup he hh]
            · rw [findOrCreateConstituent_miss s wB d sup hsup he (by rw [← hbb]; exact hh)]
            · intro hf
              exact absurd hf (by simp)
            · intro hf
              constructor
              · rw [bbCreateConstituent_dry s wA sup.ToDomainType hdry]
                exact ⟨wA.dryCounter + 1, rfl⟩
              · rw [bbCreateConstituent_dry s wB sup.ToDomainType hdry]
                exact ⟨wB.dryCounter + 1, rfl⟩

theorem filter_fake_cid (bbgifts : List blackbaud.Gift) (n : Nat)
    (hfresh : ∀ g ∈ bbgifts, ∀ m, g.constituentID ≠ sync.dryRunFakeID "constituent" m) :
    bbgifts.filter (fun g => g.constituentID == sync.dryRunFakeID "constituent" n) = [] := by
  rw [List.filter_eq_nil_iff]
  intro g hg hp
  exact hfresh g hg n (eq_of_beq hp)

theorem recordOutcome_ignores_giftID (r : sync.Result) (dr : sync.DonationResult) (x : String) :
    sync.recordOutcome r { dr with giftID := x } = sync.recordOutcome r dr := by
  unfold sync.recordOutcome
  dsimp only

theorem processDonation_of_maperror_world (s : sync.Service) (w : sync.World)
    (d : fundraiseup.Donation) (cid : String) (created : Bool) (e : String)
    (hfc : (s.findOrCreateConstituent w d).1 = .ok (cid, created))
    (hfe : (s.findExistingGift (s.findOrCreateConstituent w d).2.1 cid d).1 = none)
    (hmap : s.mapDonationToGift d
        (s.getRecurringContext (s.findExistingGift (s.findOrCreateConstituent w d).2.1 cid d).2.1 cid d).1
        = .error e) :
    (s.processDonation w d).2.1 =
      (s.getRecurringContext (s.findExistingGift (s.findOrCreateConstituent w d).2.1 cid d).2.1 cid d).2.1 := by
  unfold sync.Service.processDonation
  rcases hres : s.findOrCreateConstituent w d with ⟨res, w1, evs1⟩
  rw [hres] at hfc
  dsimp only at hfc
  subst hfc
  rw [hres] at hfe hmap
  dsimp only at hfe hmap
  dsimp only
  rcases hfe2 : s.findExistingGift w1 cid d with ⟨og, w2, evs2⟩
  rw [hfe2] at hfe hmap
  dsimp only at hfe hmap
  subst hfe
  dsimp only
  rcases hrc : s.getRecurringContext w2 cid d with ⟨recCtx, w3, evs3⟩
  rw [hrc] at hmap
  dsimp only at hmap
  rw [hmap]

theorem cacheCoherent_transport (w w' : sync.World) (hc : w'.giftCache = w.giftCache)
    (hb : w'.bb = w.bb) (h : sync.cacheCoherent w) : sync.cacheCoherent w' := by
  intro cid gs hlk
  rw [hc] at hlk
  show gs = w'.bb.gifts.filter (fun g => g.constituentID == cid)
  rw [hb]
  exact h cid gs hlk

theorem processDonation_dry_congr (s : sync.Service) (wA wB : sync.World)
    (d : fundraiseup.Donation) (hdry : s.dryRun = true)
    (hbb : wA.bb = wB.bb)
    (hfresh : ∀ g ∈ wA.bb.gifts, ∀ n, g.constituentID ≠ sync.dryRunFakeID "constituent" n)
    (hcoA : sync.cacheCoherent wA) (hcoB : sync.cacheCoherent wB) :
    (s.processDonation wA d).1 =
      { (s.processDonation wB d).1 with giftID := (s.processDonation wA d).1.giftID } ∧
    sync.cacheCoherent (s.processDonation wA d).2.1 ∧
    sync.cacheCoherent (s.processDonation wB d).2.1 := by
  rcases findOrCreateConstituent_dry_congr s wA wB d hdry hbb with
    ⟨e, heA, heB⟩ | ⟨cidA, cidB, created, hokA, hokB, hfalse, htrue⟩
  · have hA := processDonation_of_error s wA d e heA
    have hB := processDonation_of_error s wB d e heB
    refine ⟨by rw [hA, hB], ?_, ?_⟩
    · rw [hA]
      exact cacheCoherent_transport wA _ (findOrCreateConstituent_cache s wA d)
        (findOrCreateConstituent_dry_bb s wA d hdry) hcoA
    · rw [hB]
      exact cacheCoherent_transport wB _ (findOrCreateConstituent_cache s wB d)
        (findOrCreateConstituent_dry_bb s wB d hdry) hcoB
  · have hWA1co : sync.cacheCoherent (s.findOrCreateConstituent wA d).2.1 :=
      cacheCoherent_transport wA _ (findOrCreateConstituent_cache s wA d)
        (findOrCreateConstituent_dry_bb s wA d hdry) hcoA
    have hWB1co : sync.cacheCoherent (s.findOrCreateConstituent wB d).2.1 :=
      cacheCoherent_transport wB _ (findOrCreateConstituent_cache s wB d)
        (findOrCreateConstituent_dry_bb s wB d hdry) hcoB
    have hWA1bb : (s.findOrCreateConstituent wA d).2.1.bb = wA.bb :=
      findOrCreateConstituent_dry_bb s wA d hdry
    have hWB1bb : (s.findOrCreateConstituent wB d).2.1.bb = wB.bb :=
      findOrCreateConstituent_dry_bb s wB d hdry
    have hgseq : wA.bb.gifts.filter (fun g => g.constituentID == cidA) =
        wB.bb.gifts.filter (fun g => g.constituentID == cidB) := by
      cases hcr : created
      · rw [hfalse hcr, hbb]
      · obtain ⟨⟨nA, hfakeA⟩, ⟨nB, hfakeB⟩⟩ := htrue hcr
        rw [hfakeA, hfakeB, filter_fake_cid wA.bb.gifts nA hfresh,
          filter_fake_cid wB.bb.gifts nB (by rw [← hbb]; exact hfresh)]
    have hfeA := findExistingGift_coherent s (s.findOrCreateConstituent wA d).2.1 cidA d hWA1co
    have hfeB := findExistingGift_coherent s (s.findOrCreateConstituent wB d).2.1 cidB d hWB1co
    rw [hWA1bb] at hfeA
    rw [hWB1bb] at hfeB
    have hfind_eq : (s.findExistingGift (s.findOrCreateConstituent wA d).2.1 cidA d).1 =
        (s.findExistingGift (s.findOrCreateConstituent wB d).2.1 cidB d).1 := by
      rw [hfeA.1, hfeB.1, hgseq]
    have hfeAbb : (s.findExistingGift (s.findOrCreateConstituent wA d).2.1 cidA d).2.1.bb = wA.bb := by
      rw [findExistingGift_world, getConstituentGifts_bb]
      exact hWA1bb
    have hfeBbb : (s.findExistingGift (s.findOrCreateConstituent wB d).2.1 cidB d).2.1.bb = wB.bb := by
      rw [findExistingGift_world, getConstituentGifts_bb]
      exact hWB1bb
    cases hog : (s.findExistingGift (s.findOrCreateConstituent wA d).2.1 cidA d).1 with
    | some g =>
        have hogB : (s.findExistingGift (s.findOrCreateConstituent wB d).2.1 cidB d).1 = some g := by
          rw [← hfind_eq]
          exact hog
        have hA := processDonation_of_skip s wA d cidA created g hokA hog
        have hB := processDonation_of_skip s wB d cidB created g hokB hogB
        refine ⟨by rw [hA, hB], ?_, ?_⟩
        · rw [hA]
          exact hfeA.2
        · rw [hB]
          exact hfeB.2
    | none =>
        have hogB : (s.findExistingGift (s.findOrCreateConstituent wB d).2.1 cidB d).1 = none := by
          rw [← hfind_eq]
          exact hog
        have hrcA := getRecurringContext_coherent s
          (s.findExistingGift (s.findOrCreateConstituent wA d).2.1 cidA d).2.1 cidA d hfeA.2
        have hrcB := getRecurringContext_coherent s
          (s.findExistingGift (s.findOrCreateConstituent wB d).2.1 cidB d).2.1 cidB d hfeB.2
        rw [hfeAbb] at hrcA
        rw [hfeBbb] at hrcB
        have hrc_eq : (s.getRecurringContext
            (s.findExistingGift (s.findOrCreateConstituent wA d).2.1 cidA d).2.1 cidA d).1 =
            (s.getRecurringContext
            (s.findExistingGift (s.findOrCreateConstituent wB d).2.1 cidB d).2.1 cidB d).1 := by
          rw [hrcA.1, hrcB.1, hgseq]
        cases hmap : s.mapDonationToGift d (s.getRecurringContext
            (s.findExistingGift (s.findOrCreateConstituent wA d).2.1 cidA d).2.1 cidA d).1 with
        | error e2 =>
            have hmapB : s.mapDonationToGift d (s.getRecurringContext
                (s.findExistingGift (s.findOrCreateConstituent wB d).2.1 cidB d).2.1 cidB d).1 =
                .error e2 := by
              rw [← hrc_eq]
              exact hmap
            have hA := processDonation_of_maperror s wA d cidA created e2 hokA hog hmap
            have hB := processDonation_of_maperror s wB d cidB created e2 hokB hogB hmapB
            refine ⟨by rw [hA, hB], ?_, ?_⟩
            · rw [processDonation_of_maperror_world s wA d cidA created e2 hokA hog hmap]
              exact hrcA.2
            · rw [processDonation_of_maperror_world s wB d cidB created e2 hokB hogB hmapB]
              exact hrcB.2
        | ok gift =>
            have hmapB : s.mapDonationToGift d (s.getRecurringContext
                (s.findExistingGift (s.findOrCreateConstituent wB d).2.1 cidB d).2.1 cidB d).1 =
                .ok gift := by
              rw [← hrc_eq]
              exact hmap
            have hA := processDonation_of_create s wA d cidA created gift hokA hog hmap
            have hB := processDonation_of_create s wB d cidB created gift hokB hogB hmapB
            rw [bbCreateGift_dry s _ { gift with constituentID := cidA } hdry] at hA
            rw [bbCreateGift_dry s _ { gift with constituentID := cidB } hdry] at hB
            dsimp only at hA hB
            refine ⟨by rw [hA, hB], ?_, ?_⟩
            · rw [hA]
              exact cacheCoherent_transport _ _ rfl rfl hrcA.2
            · rw [hB]
              exact cacheCoherent_transport _ _ rfl rfl hrcB.2

theorem processLoop_dry_congr (s : sync.Service) (hdry : s.dryRun = true) :
    ∀ (ds : List fundraiseup.Donation) (wA wB : sync.World) (r : sync.Result),
      wA.bb = wB.bb →
      (∀ g ∈ wA.bb.gifts, ∀ n, g.constituentID ≠ sync.dryRunFakeID "constituent" n) →
      sync.cacheCoherent wA → sync.cacheCoherent wB →
      (s.processLoop wA r ds).1 = (s.processLoop wB r ds).1 := by
  intro ds
  induction ds with
  | nil =>
      intro wA wB r hbb hfresh hcoA hcoB
      unfold sync.Service.processLoop
      rfl
  | cons d rest ih =>
      intro wA wB r hbb hfresh hcoA hcoB
      unfold sync.Service.processLoop
      rcases hpA : s.processAndRecord wA r d with ⟨r1A, w1A, evs1A⟩
      rcases hpB : s.processAndRecord wB r d with ⟨r1B, w1B, evs1B⟩
      dsimp only
      rw [hdry]
      simp only [if_true, reduceIte]
      rcases hplA : s.processLoop w1A r1A rest with ⟨r2A, w3A, evs3A⟩
      obtain ⟨hres, hcoA2, hcoB2⟩ := processDonation_dry_congr s wA wB d hdry hbb hfresh hcoA hcoB
      have hpA' := hpA
      rw [processAndRecord_eq] at hpA'
      simp only [Prod.mk.injEq] at hpA'
      obtain ⟨hr1A, hw1A, -⟩ := hpA'
      have hpB' := hpB
      rw [processAndRecord_eq] at hpB'
      simp only [Prod.mk.injEq] at hpB'
      obtain ⟨hr1B, hw1B, -⟩ := hpB'
      have hr1eq : r1A = r1B := by
        rw [← hr1A, ← hr1B, hres, recordOutcome_ignores_giftID]
      have hw1bb : w1A.bb = w1B.bb := by
        rw [← hw1A, ← hw1B, processDonation_dry_bb s wA d hdry,
          processDonation_dry_bb s wB d hdry, hbb]
      have hfresh1 : ∀ g ∈ w1A.bb.gifts, ∀ n,
          g.constituentID ≠ sync.dryRunFakeID "constituent" n := by
        rw [← hw1A, processDonation_dry_bb s wA d hdry]
        exact hfresh
      have hcoA1 : sync.cacheCoherent w1A := by
        rw [← hw1A]
        exact hcoA2
      have hcoB1 : sync.cacheCoherent w1B := by
        rw [← hw1B]
        exact hcoB2
      have hih := ih w1A w1B r1A hw1bb hfresh1 hcoA1 hcoB1
      rw [hr1eq] at hih
      rcases hplB : s.processLoop w1B r1B rest with ⟨r2B, w3B, evs3B⟩
      rw [hplB] at hih
      rw [hr1eq] at hplA
      rw [hplA] at hih
      dsimp only at hih
      exact hih

theorem resumeLoop_dry_congr (s : sync.Service) (hdry : s.dryRun = true)
    (fetchByID : String → Option fundraiseup.Donation) :
    ∀ (pids : List String) (wA wB : sync.World) (r : sync.Result),
      wA.bb = wB.bb →
      (∀ g ∈ wA.bb.gifts, ∀ n, g.constituentID ≠ sync.dryRunFakeID "constituent" n) →
      sync.cacheCoherent wA → sync.cacheCoherent wB →
      (s.resumeLoop fetchByID wA r pids).1 = (s.resumeLoop fetchByID wB r pids).1 := by
  intro pids
  induction pids with
  | nil =>
      intro wA wB r hbb hfresh hcoA hcoB
      unfold sync.Service.resumeLoop
      rfl
  | cons i rest ih =>
      intro wA wB r hbb hfresh hcoA hcoB
      unfold sync.Service.resumeLoop
      cases hf : fetchByID i with
      | none =>
          dsimp only
          rw [hdry]
          simp only [if_true, reduceIte]
          rcases hplA : s.resumeLoop fetchByID wA
              { r with errors := r.errors ++ ["fetching donation " ++ i] } rest
            with ⟨r2A, w2A, evs2A⟩
          rcases hplB : s.resumeLoop fetchByID wB
              { r with errors := r.errors ++ ["fetching donation " ++ i] } rest
            with ⟨r2B, w2B, evs2B⟩
          dsimp only
          have hih := ih wA wB { r with errors := r.errors ++ ["fetching donation " ++ i] }
            hbb hfresh hcoA hcoB
          rw [hplA, hplB] at hih
          dsimp only at hih
          exact hih
      | some donation =>
          dsimp only
          rcases hpA : s.processAndRecord wA r donation with ⟨r1A, w1A, evs1A⟩
          rcases hpB : s.processAndRecord wB r donation with ⟨r1B, w1B, evs1B⟩
          dsimp only
          rw [hdry]
          simp only [if_true, reduceIte]
          rcases hplA : s.resumeLoop fetchByID w1A r1A rest with ⟨r2A, w2A, evs2A⟩
          obtain ⟨hres, hcoA2, hcoB2⟩ :=
            processDonation_dry_congr s wA wB donation hdry hbb hfresh hcoA hcoB
          have hpA' := hpA
          rw [processAndRecord_eq] at hpA'
          simp only [Prod.mk.injEq] at hpA'
          obtain ⟨hr1A, hw1A, -⟩ := hpA'
          have hpB' := hpB
          rw [processAndRecord_eq] at hpB'
          simp only [Prod.mk.injEq] at hpB'
          obtain ⟨hr1B, hw1B, -⟩ := hpB'
          have hr1eq : r1A = r1B := by
            rw [← hr1A, ← hr1B, hres, recordOutcome_ignores_giftID]
          have hw1bb : w1A.bb = w1B.bb := by
            rw [← hw1A, ← hw1B, processDonation_dry_bb s wA donation hdry,
              processDonation_dry_bb s wB donation hdry, hbb]
          have hfresh1 : ∀ g ∈ w1A.bb.gifts, ∀ n,
              g.constituentID ≠ sync.dryRunFakeID "constituent" n := by
            rw [← hw1A, processDonation_dry_bb s wA donation hdry]
            exact hfresh
          have hcoA1 : sync.cacheCoherent w1A := by
            rw [← hw1A]
            exact hcoA2
          have hcoB1 : sync.cacheCoherent w1B := by
            rw [← hw1B]
            exact hcoB2
          have hih := ih w1A w1B r1A hw1bb hfresh1 hcoA1 hcoB1
          rw [hr1eq] at hih
          rcases hplB : s.resumeLoop fetchByID w1B r1B rest with ⟨r2B, w2B, evs2B⟩
          rw [hplB] at hih
          rw [hr1eq] at hplA
          rw [hplA] at hih
          dsimp only at hih
          exact hih

theorem runFresh_dry_congr (s : sync.Service) (hdry : s.dryRun = true)
    (now : Int) (fetchSince : Int → List fundraiseup.Donation)
    (wA wB : sync.World) (r : sync.Result)
    (hbb : wA.bb = wB.bb) (hstore : wA.store = wB.store)
    (hfresh : ∀ g ∈ wA.bb.gifts, ∀ n, g.constituentID ≠ sync.dryRunFakeID "constituent" n)
    (hcoA : sync.cacheCoherent wA) (hcoB : sync.cacheCoherent wB) :
    (s.runFresh now fetchSince wA r).1 = (s.runFresh now fetchSince wB r).1 := by
  have hsince : s.freshSince now wB = s.freshSince now wA := by
    unfold sync.Service.freshSince
    rw [hstore]
  cases hemp : (fetchSince (s.freshSince now wA)).isEmpty
  · rw [runFresh_nonempty_dry s now fetchSince wA r hdry hemp,
      runFresh_nonempty_dry s now fetchSince wB r hdry (by rw [hsince]; exact hemp)]
    dsimp only
    rw [hsince]
    exact processLoop_dry_congr s hdry
      (s.truncateBatch (fetchSince (s.freshSince now wA))) wA wB r hbb hfresh hcoA hcoB
  · rw [runFresh_empty s now fetchSince wA r hemp,
      runFresh_empty s now fetchSince wB r (by rw [hsince]; exact hemp)]

theorem runResume_dry_congr (s : sync.Service) (hdry : s.dryRun = true)
    (now : Int) (fetchByID : String → Option fundraiseup.Donation)
    (wA wB : sync.World) (r : sync.Result) (pids : List String)
    (hbb : wA.bb = wB.bb)
    (hfresh : ∀ g ∈ wA.bb.gifts, ∀ n, g.constituentID ≠ sync.dryRunFakeID "constituent" n)
    (hcoA : sync.cacheCoherent wA) (hcoB : sync.cacheCoherent wB) :
    (s.runResume now fetchByID wA r pids).1 = (s.runResume now fetchByID wB r pids).1 := by
  unfold sync.Service.runResume
  rcases hrA : s.resumeLoop fetchByID wA r pids with ⟨r1A, w1A, evs1A⟩
  rcases hrB : s.resumeLoop fetchByID wB r pids with ⟨r1B, w1B, evs1B⟩
  dsimp only
  have hih := resumeLoop_dry_congr s hdry fetchByID pids wA wB r hbb hfresh hcoA hcoB
  rw [hrA, hrB] at hih
  dsimp only at hih
  exact hih

theorem run_dry_result_congr (s : sync.Service) (hdry : s.dryRun = true)
    (now : Int) (fetchSince : Int → List fundraiseup.Donation)
    (fetchByID : String → Option fundraiseup.Donation)
    (wA wB : sync.World)
    (hbb : wA.bb = wB.bb) (hstore : wA.store = wB.store)
    (hfresh : ∀ g ∈ wA.bb.gifts, ∀ n, g.constituentID ≠ sync.dryRunFakeID "constituent" n) :
    (s.Run now fetchSince fetchByID wA).1 = (s.Run now fetchSince fetchByID wB).1 := by
  unfold sync.Service.Run
  dsimp only
  have hpids : wB.store.pendingIDs = wA.store.pendingIDs := by
    rw [hstore]
  rw [hpids]
  have hbb0 : ({ wA with giftCache := ([] : List (String × List blackbaud.Gift)) } : sync.World).bb =
      ({ wB with giftCache := ([] : List (String × List blackbaud.Gift)) } : sync.World).bb := hbb
  have hstore0 : ({ wA with giftCache := ([] : List (String × List blackbaud.Gift)) } : sync.World).store =
      ({ wB with giftCache := ([] : List (String × List blackbaud.Gift)) } : sync.World).store := hstore
  cases hpend : wA.store.pendingIDs.isEmpty
  · simp only [Bool.false_eq_true, if_false, reduceIte]
    exact runResume_dry_congr s hdry now fetchByID
      { wA with giftCache := [] } { wB with giftCache := [] } { dryRun := s.dryRun }
      wA.store.pendingIDs hbb0 hfresh
      (cacheCoherent_empty_cache _ rfl) (cacheCoherent_empty_cache _ rfl)
  · simp only [if_true, reduceIte]
    exact runFresh_dry_congr s hdry now fetchSince
      { wA with giftCache := [] } { wB with giftCache := [] } { dryRun := s.dryRun }
      hbb0 hstore0 hfresh (cacheCoherent_empty_cache _ rfl) (cacheCoherent_empty_cache _ rfl)

/-! ## Claim C9 (dry-run: no writes, idempotent) -/

/-- Claim C9: with dry-run enabled, a run performs no destination writes
(the real `CreateConstituent`/`CreateGift`/`UpdateGift` are never
invoked — no event of the trace is a destination write; the wrapping
dry-run client only logs and returns synthetic IDs) and no checkpoint or
last-sync-time persistence (no event is a store write); the destination
state and the checkpoint store are left exactly as they were; and a
second dry run over the same fetched donations produces an identical
summary.  (The side condition asks that no real gift's constituent ID
collides with the dry-run client's synthetic `dry-run-constituent-N`
IDs, which is what makes the synthetic IDs fresh.) -/
theorem dry_run_no_writes_and_idempotent (s : sync.Service)
    (now : Int) (fetchSince : Int → List fundraiseup.Donation)
    (fetchByID : String → Option fundraiseup.Donation) (w : sync.World)
    (r1 r2 : sync.Result) (w1 w2 : sync.World) (e1 e2 : List sync.Event)
    (hdry : s.dryRun = true)
    (hfresh : ∀ g ∈ w.bb.gifts, ∀ n, g.constituentID ≠ sync.dryRunFakeID "constituent" n)
    (hrun1 : s.Run now fetchSince fetchByID w = (r1, w1, e1))
    (hrun2 : s.Run now fetchSince fetchByID w1 = (r2, w2, e2)) :
    (∀ e ∈ e1, sync.Event.isDestinationWrite e = false ∧ sync.Event.isStoreWrite e = false) ∧
    w1.bb = w.bb ∧ w1.store = w.store ∧
    r2 = r1 ∧ w2.bb = w.bb ∧ w2.store = w.store := by
  have hfe := run_dry_frame_events s hdry now fetchSince fetchByID w
  rw [hrun1] at hfe
  dsimp only at hfe
  obtain ⟨hbb1, hstore1, hev1⟩ := hfe
  have hfe2 := run_dry_frame_events s hdry now fetchSince fetchByID w1
  rw [hrun2] at hfe2
  dsimp only at hfe2
  obtain ⟨hbb2, hstore2, -⟩ := hfe2
  have hcongr := run_dry_result_congr s hdry now fetchSince fetchByID w1 w hbb1 hstore1
    (by rw [hbb1]; exact hfresh)
  rw [hrun1, hrun2] at hcongr
  dsimp only at hcongr
  exact ⟨hev1, hbb1, hstore1, hcongr, by rw [hbb2, hbb1], by rw [hstore2, hstore1]⟩

/-- Witness for C9: a concrete dry run over one donation writes nothing
(its trace is destination- and store-write free), leaves the destination
and checkpoint store untouched, and a second dry run over the same
donation yields the identical summary. -/
theorem dry_run_no_writes_and_idempotent_witness :
    (∀ e ∈ (sync.Service.Run { dryRun := true, giftDefaults := { fundID := "F", type := "Donation" }, maxDonationsPerRun := 300 } 100 (fun _ => [{ id := "don_1", amount := "50.00", createdAtDate := "2024-01-15", supporter := some { email := "a@b.c" } }]) (fun _ => none) {}).2.2,
      sync.Event.isDestinationWrite e = false ∧ sync.Event.isStoreWrite e = false) ∧
    (sync.Service.Run { dryRun := true, giftDefaults := { fundID := "F", type := "Donation" }, maxDonationsPerRun := 300 } 100 (fun _ => [{ id := "don_1", amount := "50.00", createdAtDate := "2024-01-15", supporter := some { email := "a@b.c" } }]) (fun _ => none) {}).2.1.bb = ({} : sync.World).bb ∧
    (sync.Service.Run { dryRun := true, giftDefaults := { fundID := "F", type := "Donation" }, maxDonationsPerRun := 300 } 100 (fun _ => [{ id := "don_1", amount := "50.00", createdAtDate := "2024-01-15", supporter := some { email := "a@b.c" } }]) (fun _ => none) {}).2.1.store = ({} : sync.World).store ∧
    (sync.Service.Run { dryRun := true, giftDefaults := { fundID := "F", type := "Donation" }, maxDonationsPerRun := 300 } 100 (fun _ => [{ id := "don_1", amount := "50.00", createdAtDate := "2024-01-15", supporter := some { email := "a@b.c" } }]) (fun _ => none) (sync.Service.Run { dryRun := true, giftDefaults := { fundID := "F", type := "Donation" }, maxDonationsPerRun := 300 } 100 (fun _ => [{ id := "don_1", amount := "50.00", createdAtDate := "2024-01-15", supporter := some { email := "a@b.c" } }]) (fun _ => none) {}).2.1).1 =
      (sync.Service.Run { dryRun := true, giftDefaults := { fundID := "F", type := "Donation" }, maxDonationsPerRun := 300 } 100 (fun _ => [{ id := "don_1", amount := "50.00", createdAtDate := "2024-01-15", supporter := some { email := "a@b.c" } }]) (fun _ => none) {}).1 ∧
    (sync.Service.Run { dryRun := true, giftDefaults := { fundID := "F", type := "Donation" }, maxDonationsPerRun := 300 } 100 (fun _ => [{ id := "don_1", amount := "50.00", createdAtDate := "2024-01-15", supporter := some { email := "a@b.c" } }]) (fun _ => none) (sync.Service.Run { dryRun := true, giftDefaults := { fundID := "F", type := "Donation" }, maxDonationsPerRun := 300 } 100 (fun _ => [{ id := "don_1", amount := "50.00", createdAtDate := "2024-01-15", supporter := some { email := "a@b.c" } }]) (fun _ => none) {}).2.1).2.1.bb = ({} : sync.World).bb ∧
    (sync.Service.Run { dryRun := true, giftDefaults := { fundID := "F", type := "Donation" }, maxDonationsPerRun := 300 } 100 (fun _ => [{ id := "don_1", amount := "50.00", createdAtDate := "2024-01-15", supporter := some { email := "a@b.c" } }]) (fun _ => none) (sync.Service.Run { dryRun := true, giftDefaults := { fundID := "F", type := "Donation" }, maxDonationsPerRun := 300 } 100 (fun _ => [{ id := "don_1", amount := "50.00", createdAtDate := "2024-01-15", supporter := some { email := "a@b.c" } }]) (fun _ => none) {}).2.1).2.1.store = ({} : sync.World).store :=
  dry_run_no_writes_and_idempotent
    { dryRun := true, giftDefaults := { fundID := "F", type := "Donation" }, maxDonationsPerRun := 300 }
    100 (fun _ => [{ id := "don_1", amount := "50.00", createdAtDate := "2024-01-15", supporter := some { email := "a@b.c" } }]) (fun _ => none) {}
    (sync.Service.Run { dryRun := true, giftDefaults := { fundID := "F", type := "Donation" }, maxDonationsPerRun := 300 } 100 (fun _ => [{ id := "don_1", amount := "50.00", createdAtDate := "2024-01-15", supporter := some { email := "a@b.c" } }]) (fun _ => none) {}).1
    (sync.Service.Run { dryRun := true, giftDefaults := { fundID := "F", type := "Donation" }, maxDonationsPerRun := 300 } 100 (fun _ => [{ id := "don_1", amount := "50.00", createdAtDate := "2024-01-15", supporter := some { email := "a@b.c" } }]) (fun _ => none) (sync.Service.Run { dryRun := true, giftDefaults := { fundID := "F", type := "Donation" }, maxDonationsPerRun := 300 } 100 (fun _ => [{ id := "don_1", amount := "50.00", createdAtDate := "2024-01-15", supporter := some { email := "a@b.c" } }]) (fun _ => none) {}).2.1).1
    (sync.Service.Run { dryRun := true, giftDefaults := { fundID := "F", type := "Donation" }, maxDonationsPerRun := 300 } 100 (fun _ => [{ id := "don_1", amount := "50.00", createdAtDate := "2024-01-15", supporter := some { email := "a@b.c" } }]) (fun _ => none) {}).2.1
    (sync.Service.Run { dryRun := true, giftDefaults := { fundID := "F", type := "Donation" }, maxDonationsPerRun := 300 } 100 (fun _ => [{ id := "don_1", amount := "50.00", createdAtDate := "2024-01-15", supporter := some { email := "a@b.c" } }]) (fun _ => none) (sync.Service.Run { dryRun := true, giftDefaults := { fundID := "F", type := "Donation" }, maxDonationsPerRun := 300 } 100 (fun _ => [{ id := "don_1", amount := "50.00", createdAtDate := "2024-01-15", supporter := some { email := "a@b.c" } }]) (fun _ => none) {}).2.1).2.1
    (sync.Service.Run { dryRun := true, giftDefaults := { fundID := "F", type := "Donation" }, maxDonationsPerRun := 300 } 100 (fun _ => [{ id := "don_1", amount := "50.00", createdAtDate := "2024-01-15", supporter := some { email := "a@b.c" } }]) (fun _ => none) {}).2.2
    (sync.Service.Run { dryRun := true, giftDefaults := { fundID := "F", type := "Donation" }, maxDonationsPerRun := 300 } 100 (fun _ => [{ id := "don_1", amount := "50.00", createdAtDate := "2024-01-15", supporter := some { email := "a@b.c" } }]) (fun _ => none) (sync.Service.Run { dryRun := true, giftDefaults := { fundID := "F", type := "Donation" }, maxDonationsPerRun := 300 } 100 (fun _ => [{ id := "don_1", amount := "50.00", createdAtDate := "2024-01-15", supporter := some { email := "a@b.c" } }]) (fun _ => none) {}).2.1).2.2
    rfl (by intro g hg; simp at hg) rfl rfl
